import Mathlib

/-!
# Super Pac-Man: the simulation core of `src/main.cpp`

A shallow embedding of the game's update logic.

* `float` quantities (positions, speeds, radii, timers) are exact rationals;
  the conversion `(int)` of a float truncates toward zero.
* `int` quantities (score, lives, cell indices, symbols) are integers; no
  overflow is modelled.
* The tile grid `map[mapHeight][mapWidth]` is a record holding a function on `Fin`
  indices. Every access `map[y][x]` of the source goes through `Grid.read` or
  `Grid.write`, which report `Fault.outOfBounds` for an index outside the array.
* The library generator behind `GetRandomValue` is a stream `rnd : Nat → Nat`
  of raw values together with the number of values drawn so far, which is
  kept in the state (`randomCalls`).
* The `while` loop of `InitGame` runs on fuel; running out is reported as
  `Fault.outOfFuel`.
* Drawing code, sprite rectangles and colours carry no game logic and are
  left out.
-/

namespace SuperPacman

/-! ## Constants -/

abbrev tileSize : Int := 40
abbrev mapWidth : Nat := 20
abbrev mapHeight : Nat := 15
abbrev starInterval : ℚ := 10
abbrev maxLives : Int := 5
abbrev superPelletDuration : ℚ := 15
abbrev normalSpeed : ℚ := 2
abbrev superSpeed : ℚ := 3
abbrev symbolChangeInterval : ℚ := 1
abbrev numSymbols : Int := 6

/-! ## Data model -/

/-- The enumeration `TileType`, in the order of the source. -/
inductive TileType where
  | EMPTY | WALL | DOOR | KEY | MAIZE | POWER_PELLET | STAR | SUPER_PELLET | FRUIT
  deriving DecidableEq, Repr

/-- The integer value of an enumerant (`EMPTY` is 0, ..., `FRUIT` is 8). -/
def TileType.toInt : TileType → Int
  | .EMPTY => 0
  | .WALL => 1
  | .DOOR => 2
  | .KEY => 3
  | .MAIZE => 4
  | .POWER_PELLET => 5
  | .STAR => 6
  | .SUPER_PELLET => 7
  | .FRUIT => 8

/-- The library type `Vector2`. -/
structure Vector2 where
  x : ℚ
  y : ℚ
  deriving DecidableEq, Repr

/-- The record `Entity` (without its colour). -/
structure Entity where
  position : Vector2
  direction : Vector2
  speed : ℚ
  radius : ℚ
  isPoweredUp : Bool
  powerUpTimer : ℚ
  isVulnerable : Bool
  startPosition : Vector2
  isFlattened : Bool
  spriteIndex : Int
  deriving DecidableEq, Repr

/-- The global `map`: `mapHeight` rows of `mapWidth` tiles. -/
structure Grid where
  tile : Fin mapHeight → Fin mapWidth → TileType

/-- What can go wrong in a run of the model. -/
inductive Fault where
  | outOfBounds
  | outOfFuel
  deriving DecidableEq, Repr

/-- Whether `map[row][col]` lies inside the array. -/
def inBounds (row col : Int) : Prop :=
  0 ≤ row ∧ row < mapHeight ∧ 0 ≤ col ∧ col < mapWidth

instance (row col : Int) : Decidable (inBounds row col) :=
  inferInstanceAs (Decidable (0 ≤ row ∧ row < mapHeight ∧ 0 ≤ col ∧ col < mapWidth))

/-- Total accessor of the grid: `none` outside the array. -/
def Grid.get? (g : Grid) (row col : Int) : Option TileType :=
  if h : inBounds row col then
    some (g.tile ⟨row.toNat, by unfold inBounds at h; omega⟩
      ⟨col.toNat, by unfold inBounds at h; omega⟩)
  else none

/-- The grid with one cell replaced. -/
def Grid.set (g : Grid) (row : Fin mapHeight) (col : Fin mapWidth) (t : TileType) : Grid :=
  ⟨fun r c => if r = row ∧ c = col then t else g.tile r c⟩

/-- Total update of the grid: `none` outside the array. -/
def Grid.set? (g : Grid) (row col : Int) (t : TileType) : Option Grid :=
  if h : inBounds row col then
    some (g.set ⟨row.toNat, by unfold inBounds at h; omega⟩
      ⟨col.toNat, by unfold inBounds at h; omega⟩ t)
  else none

/-- A read `map[row][col]` of the source. -/
def Grid.read (g : Grid) (row col : Int) : Except Fault TileType :=
  match g.get? row col with
  | some t => .ok t
  | none => .error .outOfBounds

/-- A write `map[row][col] = t` of the source. -/
def Grid.write (g : Grid) (row col : Int) (t : TileType) : Except Fault Grid :=
  match g.set? row col t with
  | some g1 => .ok g1
  | none => .error .outOfBounds

/-- The zero-initialised global `map`: every cell is `EMPTY`. -/
def Grid.zero : Grid := ⟨fun _ _ => .EMPTY⟩

/-- The global variables of the program, and the count of random values drawn. -/
structure Game where
  player : Entity
  ghosts : List Entity
  score : Int
  starTimer : ℚ
  playerLives : Int
  centerBoxSymbols : Int × Int
  symbolChangeTimer : ℚ
  map : Grid
  randomCalls : Nat

/-- What one frame reads from the outside: the four arrow keys and `GetFrameTime()`. -/
structure Input where
  keyRight : Bool
  keyLeft : Bool
  keyDown : Bool
  keyUp : Bool
  frameTime : ℚ
  deriving DecidableEq, Repr

/-- The conversion `(int)` of a float: truncation toward zero. -/
def floatToInt (q : ℚ) : Int := Int.tdiv q.num q.den

/-- The library call `GetRandomValue(min, max)` on the raw value number `n` of the stream. -/
def GetRandomValue (rnd : Nat → Nat) (n : Nat) (min max : Int) : Int :=
  min + (rnd n : Int) % (max - min + 1)

/-- Modelled from the spec: the library call `CheckCollisionCircles` is not part of `src/`;
the circles overlap when the distance between the centres is at most the sum of the radii,
stated on squares. -/
def CheckCollisionCircles (center1 : Vector2) (radius1 : ℚ) (center2 : Vector2) (radius2 : ℚ) :
    Bool :=
  decide (0 ≤ radius1 + radius2 ∧
    (center2.x - center1.x) * (center2.x - center1.x)
      + (center2.y - center1.y) * (center2.y - center1.y)
      ≤ (radius1 + radius2) * (radius1 + radius2))

/-! ## LoadMapFromFile -/

/-- The `switch` of `LoadMapFromFile`. -/
def charToTile (tile : Char) : TileType :=
  if tile = '#' then .WALL
  else if tile = '.' then .EMPTY
  else if tile = 'K' then .KEY
  else if tile = 'M' then .MAIZE
  else if tile = 'P' then .POWER_PELLET
  else if tile = 'S' then .STAR
  else if tile = 'U' then .SUPER_PELLET
  else if tile = 'F' then .FRUIT
  else if tile = 'D' then .DOOR
  else .EMPTY

/-- The inner `for` loop of `LoadMapFromFile`, from column `col` on, over the rest of the line. -/
def loadColumns (row : Int) : List Char → Int → Grid → Except Fault Grid
  | [], _, g => .ok g
  | tile :: rest, col, g =>
    if col < mapWidth then
      match g.write row col (charToTile tile) with
      | .ok g1 => loadColumns row rest (col + 1) g1
      | .error e => .error e
    else .ok g

/-- The `while (std::getline ...)` loop of `LoadMapFromFile`, from row `row` on. -/
def loadLines : List String → Int → Grid → Except Fault Grid
  | [], _, g => .ok g
  | line :: rest, row, g =>
    match loadColumns row line.data 0 g with
    | .ok g1 => if row + 1 ≥ mapHeight then .ok g1 else loadLines rest (row + 1) g1
    | .error e => .error e

/-- The function `LoadMapFromFile`; the file is `none` when it cannot be opened, and
otherwise the list of its lines. -/
def LoadMapFromFile (file : Option (List String)) (g : Grid) : Except Fault Grid :=
  match file with
  | none => .ok g
  | some lines => loadLines lines 0 g

/-! ## InitGame and ResetPlayerPosition -/

/-- The direction `{(float)(GetRandomValue(0, 1) * 2 - 1), 0}` drawn for a ghost. -/
def randomHorizontal (rnd : Nat → Nat) (n : Nat) : Vector2 :=
  ⟨((GetRandomValue rnd n 0 1 * 2 - 1 : Int) : ℚ), 0⟩

/-- The ghost number `i` built by the `for` loop of `InitGame`, its direction drawn as
value number `n`. The fields the source leaves unassigned (`isPoweredUp`, `powerUpTimer`)
are never read for a ghost; they are `false` and `0` here. -/
def newGhost (rnd : Nat → Nat) (n : Nat) (i : Int) : Entity :=
  { position := ⟨((tileSize * (10 + i) : Int) : ℚ), ((tileSize * 8 : Int) : ℚ)⟩
    direction := randomHorizontal rnd n
    speed := 3 / 2
    radius := (tileSize : ℚ) / 3
    isPoweredUp := false
    powerUpTimer := 0
    isVulnerable := false
    startPosition := ⟨((tileSize * (10 + i) : Int) : ℚ), ((tileSize * 8 : Int) : ℚ)⟩
    isFlattened := false
    spriteIndex := i }

/-- The `while (superPelletCount < 2)` loop of `InitGame`; `n` is the number of random
values drawn so far. -/
def seedSuperPellets (rnd : Nat → Nat) : Nat → Nat → Nat → Grid → Except Fault (Grid × Nat)
  | 0, superPelletCount, n, g =>
    if superPelletCount < 2 then .error .outOfFuel else .ok (g, n)
  | fuel + 1, superPelletCount, n, g =>
    if superPelletCount < 2 then
      let x := GetRandomValue rnd n 1 ((mapWidth : Int) - 2)
      let y := GetRandomValue rnd (n + 1) 1 ((mapHeight : Int) - 2)
      match g.read y x with
      | .error e => .error e
      | .ok t =>
        if t = .EMPTY then
          match g.write y x .SUPER_PELLET with
          | .error e => .error e
          | .ok g1 => seedSuperPellets rnd fuel (superPelletCount + 1) (n + 2) g1
        else seedSuperPellets rnd fuel superPelletCount (n + 2) g
    else .ok (g, n)

/-- The three writes `map[7][9] = DOOR; map[7][10] = FRUIT; map[7][11] = DOOR`. -/
def placeFruitAndDoors (g : Grid) : Except Fault Grid :=
  match g.write 7 9 .DOOR with
  | .error e => .error e
  | .ok g1 =>
    match g1.write 7 10 .FRUIT with
    | .error e => .error e
    | .ok g2 => g2.write 7 11 .DOOR

/-- The body of `InitGame` after the call of `LoadMapFromFile`, which has left the grid `g0`;
`s` is the state in which `InitGame` was called. -/
def setUpGame (rnd : Nat → Nat) (fuel : Nat) (s : Game) (g0 : Grid) : Except Fault Game :=
  let n := s.randomCalls
  let start : Vector2 := ⟨(tileSize : ℚ) * (3 / 2), (tileSize : ℚ) * (3 / 2)⟩
  let player : Entity :=
    { s.player with
      position := start
      direction := ⟨1, 0⟩
      speed := normalSpeed
      radius := (tileSize : ℚ) / 3
      isPoweredUp := false
      powerUpTimer := 0
      startPosition := start }
  let ghosts : List Entity :=
    [newGhost rnd n 0, newGhost rnd (n + 1) 1, newGhost rnd (n + 2) 2, newGhost rnd (n + 3) 3]
  let symbol0 := GetRandomValue rnd (n + 4) 0 (numSymbols - 1)
  let symbol1 := GetRandomValue rnd (n + 5) 0 (numSymbols - 1)
  match seedSuperPellets rnd fuel 0 (n + 6) g0 with
  | .error e => .error e
  | .ok (g1, n1) =>
    match placeFruitAndDoors g1 with
    | .error e => .error e
    | .ok g2 =>
      .ok { player := player
            ghosts := ghosts
            score := 0
            starTimer := 0
            playerLives := 3
            centerBoxSymbols := (symbol0, symbol1)
            symbolChangeTimer := 0
            map := g2
            randomCalls := n1 }

/-- The function `InitGame`, run on the state `s`. -/
def InitGame (file : Option (List String)) (rnd : Nat → Nat) (fuel : Nat) (s : Game) :
    Except Fault Game :=
  match LoadMapFromFile file s.map with
  | .error e => .error e
  | .ok g0 => setUpGame rnd fuel s g0

/-- The `for (auto& ghost : ghosts)` loop of `ResetPlayerPosition`; returns the ghosts and
the number of random values drawn. -/
def resetGhosts (rnd : Nat → Nat) : Nat → List Entity → List Entity × Nat
  | n, [] => ([], n)
  | n, ghost :: rest =>
    let ghost1 : Entity :=
      { ghost with
        position := ghost.startPosition
        direction := randomHorizontal rnd n
        isVulnerable := false
        isFlattened := false }
    let r := resetGhosts rnd (n + 1) rest
    (ghost1 :: r.1, r.2)

/-- The function `ResetPlayerPosition`. -/
def ResetPlayerPosition (rnd : Nat → Nat) (s : Game) : Game :=
  let r := resetGhosts rnd s.randomCalls s.ghosts
  { s with
    player :=
      { s.player with
        position := s.player.startPosition
        direction := ⟨1, 0⟩
        isPoweredUp := false
        powerUpTimer := 0
        speed := normalSpeed }
    ghosts := r.1
    randomCalls := r.2 }

/-! ## UpdateGame -/

/-- The four `IsKeyDown` tests at the top of `UpdateGame`; later tests override earlier ones. -/
def playerInput (inp : Input) (s : Game) : Game :=
  let d0 := s.player.direction
  let d1 : Vector2 := if inp.keyRight then ⟨1, 0⟩ else d0
  let d2 : Vector2 := if inp.keyLeft then ⟨-1, 0⟩ else d1
  let d3 : Vector2 := if inp.keyDown then ⟨0, 1⟩ else d2
  let d4 : Vector2 := if inp.keyUp then ⟨0, -1⟩ else d3
  { s with player := { s.player with direction := d4 } }

/-- The candidate position `position + direction * speed` of an entity. -/
def candidate (e : Entity) : Vector2 :=
  ⟨e.position.x + e.direction.x * e.speed, e.position.y + e.direction.y * e.speed⟩

/-- The column `(int)(pos.x / tileSize)` of a position. -/
def cellX (pos : Vector2) : Int := floatToInt (pos.x / (tileSize : ℚ))

/-- The row `(int)(pos.y / tileSize)` of a position. -/
def cellY (pos : Vector2) : Int := floatToInt (pos.y / (tileSize : ℚ))

/-- The nested `for` loops that look for a cell equal to `(TileType)symbol`, as one pass over
the cells in row-major order that stops at the first match. -/
def scanCells (g : Grid) (symbol : Int) : List (Int × Int) → Except Fault Bool
  | [] => .ok false
  | (y, x) :: rest =>
    match g.read y x with
    | .error e => .error e
    | .ok t => if t.toInt = symbol then .ok true else scanCells g symbol rest

/-- The cells `(y, x)` visited by `for y < mapHeight, for x < mapWidth`, in order. -/
def allCells : List (Int × Int) :=
  (List.range mapHeight).flatMap fun (y : Nat) =>
    (List.range mapWidth).map fun (x : Nat) => ((y : Int), (x : Int))

/-- The amount added to the score by the `STAR` branch, computed on the grid `g` the branch
scans. -/
def starBonus (symbols : Int × Int) (g : Grid) : Except Fault Int :=
  if symbols.1 = symbols.2 then
    match scanCells g symbols.1 allCells with
    | .error e => .error e
    | .ok symbolsMatchMaze => if symbolsMatchMaze then .ok 5000 else .ok 2000
  else .ok 500

/-- Sets `isVulnerable` on every ghost. -/
def makeVulnerable (ghosts : List Entity) : List Entity :=
  ghosts.map fun ghost => { ghost with isVulnerable := true }

/-- Sets `isFlattened` on every ghost. -/
def makeFlattened (ghosts : List Entity) : List Entity :=
  ghosts.map fun ghost => { ghost with isFlattened := true }

/-- The item chain (`// Collect items`) for the cell `map[y][x]`, which holds `t`; the player
has already been moved. -/
def collectItems (y x : Int) (t : TileType) (s : Game) : Except Fault Game :=
  match t with
  | .MAIZE =>
    match s.map.write y x .EMPTY with
    | .error e => .error e
    | .ok g => .ok { s with map := g, score := s.score + 100 }
  | .KEY =>
    match s.map.write y x .EMPTY with
    | .error e => .error e
    | .ok g => .ok { s with map := g, score := s.score + 500 }
  | .POWER_PELLET =>
    match s.map.write y x .EMPTY with
    | .error e => .error e
    | .ok g =>
      .ok { s with
            map := g
            player := { s.player with isPoweredUp := true, powerUpTimer := 10 }
            ghosts := makeVulnerable s.ghosts
            score := s.score + 50 }
  | .STAR =>
    match s.map.write y x .EMPTY with
    | .error e => .error e
    | .ok g =>
      match starBonus s.centerBoxSymbols g with
      | .error e => .error e
      | .ok bonus => .ok { s with map := g, score := s.score + bonus }
  | .SUPER_PELLET =>
    match s.map.write y x .EMPTY with
    | .error e => .error e
    | .ok g =>
      .ok { s with
            map := g
            player :=
              { s.player with
                isPoweredUp := true
                powerUpTimer := superPelletDuration
                speed := superSpeed
                radius := (tileSize : ℚ) / 2 }
            ghosts := makeFlattened s.ghosts
            score := s.score + 100 }
  | .FRUIT =>
    match s.map.write y x .EMPTY with
    | .error e => .error e
    | .ok g => .ok { s with map := g, score := s.score + 1000 }
  | .DOOR =>
    if s.player.isPoweredUp then
      match s.map.write y x .EMPTY with
      | .error e => .error e
      | .ok g => .ok { s with map := g }
    else .ok s
  | _ => .ok s

/-- Whether the player may enter a cell holding `t`. -/
def playerPassable (t : TileType) (isPoweredUp : Bool) : Bool :=
  t = .EMPTY || t = .MAIZE || t = .KEY || t = .POWER_PELLET || t = .STAR || t = .SUPER_PELLET
    || t = .FRUIT || (t = .DOOR && isPoweredUp)

/-- The player-movement stage of `UpdateGame` (from `Vector2 newPos` to the end of the item
chain), run after the direction keys have been read. -/
def playerMovement (s : Game) : Except Fault Game :=
  let newPos := candidate s.player
  let x := cellX newPos
  let y := cellY newPos
  if x ≥ 0 ∧ x < mapWidth ∧ y ≥ 0 ∧ y < mapHeight then
    match s.map.read y x with
    | .error e => .error e
    | .ok t =>
      if playerPassable t s.player.isPoweredUp then
        collectItems y x t { s with player := { s.player with position := newPos } }
      else .ok s
  else .ok s

/-- Clears `isVulnerable` and `isFlattened` on every ghost. -/
def clearGhostModes (ghosts : List Entity) : List Entity :=
  ghosts.map fun ghost => { ghost with isVulnerable := false, isFlattened := false }

/-- The power-up stage (`// Update power-up status`). -/
def updatePowerUp (frameTime : ℚ) (s : Game) : Game :=
  if s.player.isPoweredUp then
    let timer := s.player.powerUpTimer - frameTime
    if timer ≤ 0 then
      { s with
        player :=
          { s.player with
            powerUpTimer := timer
            isPoweredUp := false
            radius := (tileSize : ℚ) / 3
            speed := normalSpeed }
        ghosts := clearGhostModes s.ghosts }
    else { s with player := { s.player with powerUpTimer := timer } }
  else s

/-- The random change of direction of a ghost whose move was rejected: two draws. -/
def rerollDirection (rnd : Nat → Nat) (n : Nat) : Vector2 :=
  if GetRandomValue rnd n 0 1 = 0 then
    ⟨((GetRandomValue rnd (n + 1) 0 1 * 2 - 1 : Int) : ℚ), 0⟩
  else
    ⟨0, ((GetRandomValue rnd (n + 1) 0 1 * 2 - 1 : Int) : ℚ)⟩

/-- The movement part of the ghost loop body, for the ghost at index `i`. -/
def ghostMovement (rnd : Nat → Nat) (i : Nat) (ghost : Entity) (s : Game) : Except Fault Game :=
  let newGhostPos := candidate ghost
  let x := cellX newGhostPos
  let y := cellY newGhostPos
  let rejected : Game :=
    { s with
      ghosts := s.ghosts.set i { ghost with direction := rerollDirection rnd s.randomCalls }
      randomCalls := s.randomCalls + 2 }
  if x ≥ 0 ∧ x < mapWidth ∧ y ≥ 0 ∧ y < mapHeight then
    match s.map.read y x with
    | .error e => .error e
    | .ok t =>
      if t ≠ .WALL ∧ t ≠ .DOOR then
        .ok { s with ghosts := s.ghosts.set i { ghost with position := newGhostPos } }
      else .ok rejected
  else .ok rejected

/-- The encounter part of the ghost loop body (`// Check collision with player`), for the
ghost at index `i`. -/
def checkCollision (file : Option (List String)) (rnd : Nat → Nat) (fuel : Nat) (i : Nat)
    (ghost : Entity) (s : Game) : Except Fault Game :=
  if CheckCollisionCircles s.player.position s.player.radius ghost.position ghost.radius then
    if s.player.isPoweredUp && ghost.isVulnerable then
      .ok { s with
            ghosts := s.ghosts.set i
              { ghost with
                position := ghost.startPosition
                isVulnerable := false
                isFlattened := false }
            score := s.score + 200 }
    else if !s.player.isPoweredUp && !ghost.isFlattened then
      let s1 : Game := { s with playerLives := s.playerLives - 1 }
      if s1.playerLives > 0 then .ok (ResetPlayerPosition rnd s1)
      else InitGame file rnd fuel s1
    else .ok s
  else .ok s

/-- One pass of the body of `for (auto& ghost : ghosts)` for the element at index `i`. An
index with no element ends the pass without effect. -/
def ghostBody (file : Option (List String)) (rnd : Nat → Nat) (fuel : Nat) (i : Nat)
    (s : Game) : Except Fault Game :=
  match s.ghosts[i]? with
  | none => .ok s
  | some ghost =>
    match ghostMovement rnd i ghost s with
    | .error e => .error e
    | .ok s1 =>
      match s1.ghosts[i]? with
      | none => .ok s1
      | some ghost1 => checkCollision file rnd fuel i ghost1 s1

/-- The loop `for (auto& ghost : ghosts)`: `count` passes from index `i` on. The number of
passes is fixed when the loop starts; the element is looked up in the current vector, so after
a reset or a reinitialisation the remaining passes see the new ghosts. -/
def ghostLoop (file : Option (List String)) (rnd : Nat → Nat) (fuel : Nat) :
    Nat → Nat → Game → Except Fault Game
  | 0, _, s => .ok s
  | count + 1, i, s =>
    match ghostBody file rnd fuel i s with
    | .error e => .error e
    | .ok s1 => ghostLoop file rnd fuel count (i + 1) s1

/-- The star stage (`// Star spawning logic`). -/
def starSpawning (rnd : Nat → Nat) (frameTime : ℚ) (s : Game) : Except Fault Game :=
  let timer := s.starTimer + frameTime
  if timer ≥ starInterval then
    let starX := GetRandomValue rnd s.randomCalls 9 10
    let starY := GetRandomValue rnd (s.randomCalls + 1) 6 8
    let s1 : Game := { s with starTimer := 0, randomCalls := s.randomCalls + 2 }
    match s1.map.read starY starX with
    | .error e => .error e
    | .ok t =>
      if t = .EMPTY then
        match s1.map.write starY starX .STAR with
        | .error e => .error e
        | .ok g => .ok { s1 with map := g }
      else .ok s1
  else .ok { s with starTimer := timer }

/-- The symbol stage (`// Update center box symbols`). -/
def updateCenterBoxSymbols (rnd : Nat → Nat) (frameTime : ℚ) (s : Game) : Game :=
  let timer := s.symbolChangeTimer + frameTime
  if timer ≥ symbolChangeInterval then
    { s with
      symbolChangeTimer := 0
      centerBoxSymbols :=
        (GetRandomValue rnd s.randomCalls 0 (numSymbols - 1),
         GetRandomValue rnd (s.randomCalls + 1) 0 (numSymbols - 1))
      randomCalls := s.randomCalls + 2 }
  else { s with symbolChangeTimer := timer }

/-- The last stage (`// Extra life logic`). -/
def extraLife (s : Game) : Game :=
  if s.score ≥ 10000 ∧ s.playerLives < maxLives then
    { s with playerLives := s.playerLives + 1, score := s.score - 10000 }
  else s

/-- Everything `UpdateGame` does before the extra-life stage. -/
def updateBeforeExtraLife (file : Option (List String)) (rnd : Nat → Nat) (fuel : Nat)
    (inp : Input) (s : Game) : Except Fault Game :=
  match playerMovement (playerInput inp s) with
  | .error e => .error e
  | .ok s1 =>
    let s2 := updatePowerUp inp.frameTime s1
    match ghostLoop file rnd fuel s2.ghosts.length 0 s2 with
    | .error e => .error e
    | .ok s3 =>
      match starSpawning rnd inp.frameTime s3 with
      | .error e => .error e
      | .ok s4 => .ok (updateCenterBoxSymbols rnd inp.frameTime s4)

/-- The function `UpdateGame`: one frame. -/
def UpdateGame (file : Option (List String)) (rnd : Nat → Nat) (fuel : Nat) (inp : Input)
    (s : Game) : Except Fault Game :=
  match updateBeforeExtraLife file rnd fuel inp s with
  | .error e => .error e
  | .ok s1 => .ok (extraLife s1)

/-- The globals as the program starts: zero-initialised, except `playerLives = 3`. -/
def Game.initial : Game :=
  { player :=
      { position := ⟨0, 0⟩
        direction := ⟨0, 0⟩
        speed := 0
        radius := 0
        isPoweredUp := false
        powerUpTimer := 0
        isVulnerable := false
        startPosition := ⟨0, 0⟩
        isFlattened := false
        spriteIndex := 0 }
    ghosts := []
    score := 0
    starTimer := 0
    playerLives := 3
    centerBoxSymbols := (0, 0)
    symbolChangeTimer := 0
    map := Grid.zero
    randomCalls := 0 }

/-- The states the program can be in at the top of its main loop: `InitGame` on the initial
globals, followed by any number of frames. -/
inductive Reachable (file : Option (List String)) (rnd : Nat → Nat) : Game → Prop where
  | init (fuel : Nat) (s : Game) :
      InitGame file rnd fuel Game.initial = .ok s → Reachable file rnd s
  | frame (fuel : Nat) (inp : Input) (s s1 : Game) :
      Reachable file rnd s → UpdateGame file rnd fuel inp s = .ok s1 → Reachable file rnd s1

/-- Runs the frames of a list of inputs, one after the other. -/
def runFrames (file : Option (List String)) (rnd : Nat → Nat) (fuel : Nat) :
    List Input → Game → Except Fault Game
  | [], s => .ok s
  | inp :: rest, s =>
    match UpdateGame file rnd fuel inp s with
    | .error e => .error e
    | .ok s1 => runFrames file rnd fuel rest s1

/-! ## Vocabulary of the statements -/

/-- Some cell of the grid holds the tile kind whose enumerant value is `k`. -/
def HoldsKind (g : Grid) (k : Int) : Prop :=
  ∃ (r : Fin mapHeight) (c : Fin mapWidth), (g.tile r c).toInt = k

/-- The move of the player of `s` into the cell `(r, c)` has been committed in `s1`: the
player stands on the candidate position, the cell is `EMPTY`, every other cell is as before. -/
def EntersCell (s s1 : Game) (r : Fin mapHeight) (c : Fin mapWidth) : Prop :=
  s1.player.position = candidate s.player
    ∧ s1.map.tile r c = .EMPTY
    ∧ ∀ (r1 : Fin mapHeight) (c1 : Fin mapWidth), ¬ (r1 = r ∧ c1 = c) →
        s1.map.tile r1 c1 = s.map.tile r1 c1

/-- The normal mode: the player is not powered up and has the normal radius and speed, and no
ghost is vulnerable or flattened. -/
def NormalMode (s : Game) : Prop :=
  s.player.isPoweredUp = false
    ∧ s.player.radius = (tileSize : ℚ) / 3
    ∧ s.player.speed = normalSpeed
    ∧ ∀ ghost ∈ s.ghosts, ghost.isVulnerable = false ∧ ghost.isFlattened = false

/-- The grid the specification describes after a load of the lines `lines` over the grid
`g`: cell `(r, c)` holds the kind mapped from character `c` of line `r` when that character
exists, and what it held in `g` otherwise. -/
def loadedGrid (lines : List String) (g : Grid) : Grid :=
  ⟨fun r c =>
    match lines[(r : Nat)]? with
    | some line =>
      match line.data[(c : Nat)]? with
      | some tile => charToTile tile
      | none => g.tile r c
    | none => g.tile r c⟩

/-- The part of a map description that lies inside the grid: the first `mapHeight` lines,
each cut to its first `mapWidth` characters. -/
def clipDescription (lines : List String) : List String :=
  (lines.take mapHeight).map fun line => String.mk (line.data.take mapWidth)

/-- The state of a frame in which `InitGame` has run and the ghosts from index `i` on have not
yet been visited by the ghost loop: score 0, three lives, the player at its start, and those
ghosts at their start columns, out of the player's reach. -/
def FreshFrom (i : Nat) (s : Game) : Prop :=
  s.score = 0 ∧ s.playerLives = 3
    ∧ s.player.position = ⟨60, 60⟩
    ∧ s.player.radius = (tileSize : ℚ) / 3
    ∧ ∀ (j : Nat) (ghost : Entity), i ≤ j → s.ghosts[j]? = some ghost →
        400 ≤ ghost.position.x ∧ ghost.speed = 3 / 2 ∧ -1 ≤ ghost.direction.x
          ∧ ghost.radius = (tileSize : ℚ) / 3

/-- Whether the extra-life rule fires on the state `t` that reaches the last stage. -/
def extraLifeFires (t : Game) : Prop :=
  t.score ≥ 10000 ∧ t.playerLives < maxLives

/-- A test on the result of a run: `p` holds of the final state, and there was no fault. -/
def endsWith (r : Except Fault Game) (p : Game → Bool) : Bool :=
  match r with
  | .ok s => p s
  | .error _ => false

/-! ## Sample data -/

/-- A stream of raw random values: the even numbers. -/
def sampleRnd : Nat → Nat := fun n => 2 * n

/-- A frame with no key pressed and frame time `dt`. -/
def idleInput (dt : ℚ) : Input := ⟨false, false, false, false, dt⟩

/-- A player at the centre of cell `(1, 1)`, heading right at normal speed. -/
def samplePlayer (isPoweredUp : Bool) (timer : ℚ) : Entity :=
  { position := ⟨60, 60⟩
    direction := ⟨1, 0⟩
    speed := 2
    radius := 40 / 3
    isPoweredUp := isPoweredUp
    powerUpTimer := timer
    isVulnerable := false
    startPosition := ⟨60, 60⟩
    isFlattened := false
    spriteIndex := 0 }

/-- A ghost at `(x, y)` heading left, with start position `(400, 320)`. -/
def sampleGhost (x y : ℚ) (isVulnerable isFlattened : Bool) : Entity :=
  { position := ⟨x, y⟩
    direction := ⟨-1, 0⟩
    speed := 3 / 2
    radius := 40 / 3
    isPoweredUp := false
    powerUpTimer := 0
    isVulnerable := isVulnerable
    startPosition := ⟨400, 320⟩
    isFlattened := isFlattened
    spriteIndex := 0 }

/-- A state whose player is about to cross from cell `(1, 1)` into cell `(2, 1)`, which holds
`t`; the rest of the grid is `EMPTY`. The two ghosts are far away. -/
def sampleGame (t : TileType) (isPoweredUp : Bool) (symbols : Int × Int) : Game :=
  { player := { samplePlayer isPoweredUp 4 with position := ⟨79, 60⟩ }
    ghosts := [sampleGhost 400 320 false true, sampleGhost 440 320 true false]
    score := 700
    starTimer := 0
    playerLives := 3
    centerBoxSymbols := symbols
    symbolChangeTimer := 0
    map := Grid.zero.set 1 2 t
    randomCalls := 0 }

/-- A grid of walls with one star in cell `(2, 1)`. -/
def wallsAndStar : Grid := ⟨fun r c => if r = 1 ∧ c = 2 then .STAR else .WALL⟩

/-- A stream of raw random values: the multiples of six. -/
def sixRnd : Nat → Nat := fun n => 6 * n

/-- A map description of 15 lines of 20 characters: walls everywhere, a star in the player's
start cell, and two empty cells, the ones the draws of `sixRnd` pick for the super pellets. -/
def starLines : List String :=
  ["####################",
    "#S##################",
    "####################",
    "#############.######",
    "#.##################",
    "####################",
    "####################",
    "####################",
    "####################",
    "####################",
    "####################",
    "####################",
    "####################",
    "####################",
    "####################"]

/-- A test on a grid: no cell holds `EMPTY`. -/
def noEmptyCell (g : Grid) : Bool :=
  match g with
  | ⟨tile⟩ =>
    (List.finRange mapHeight).all fun r =>
      (List.finRange mapWidth).all fun c => decide (tile r c ≠ .EMPTY)

/-- A state in which the first ghost overlaps the player. -/
def encounterGame (isPoweredUp isVulnerable isFlattened : Bool) (lives : Int) : Game :=
  { player := samplePlayer isPoweredUp 4
    ghosts := [sampleGhost 70 60 isVulnerable isFlattened, sampleGhost 440 320 false false]
    score := 700
    starTimer := 0
    playerLives := lives
    centerBoxSymbols := (2, 4)
    symbolChangeTimer := 0
    map := Grid.zero
    randomCalls := 0 }

/-- A map description of three lines with one `MAIZE` below the player's start cell. -/
def maizeFile : Option (List String) := some ["", "", ".M"]

/-- A frame of 1/64 s with the down key held. -/
def downKey : Input := ⟨false, false, true, false, 1 / 64⟩

/-- A frame of 1/64 s with the right key held. -/
def rightKey : Input := ⟨true, false, false, false, 1 / 64⟩

/-! ## A recorded game

The game behind the counterexample to score monotonicity, cut into legs of at most 41 frames.
`checkpoint k` is the state at the start of leg `k`; `leg k` lists the inputs of the leg. -/

/-- The grid of the recorded game: the description `maizeFile` loaded over the empty grid, two
seeded super pellets, the fruit between its doors; the maize is there until it is eaten. -/
def traceGrid (eaten : Bool) : Grid :=
  ⟨fun r c =>
    if r = 2 ∧ c = 1 then (if eaten then .EMPTY else .MAIZE)
    else if (r = 2 ∧ c = 13) ∨ (r = 6 ∧ c = 17) then .SUPER_PELLET
    else if r = 7 ∧ (c = 9 ∨ c = 11) then .DOOR
    else if r = 7 ∧ c = 10 then .FRUIT
    else .EMPTY⟩

/-- The ghost number `i` of the recorded game, at column position `x` of its start row. -/
def traceGhost (i : Int) (x : ℚ) : Entity :=
  { position := ⟨x, 320⟩
    direction := ⟨-1, 0⟩
    speed := 3 / 2
    radius := 40 / 3
    isPoweredUp := false
    powerUpTimer := 0
    isVulnerable := false
    startPosition := ⟨((40 * (10 + i) : Int) : ℚ), 320⟩
    isFlattened := false
    spriteIndex := i }

/-- A state of the recorded game: the player at `(px, py)` facing `facing`, the four ghosts at
columns `g0 .. g3`, and the counters. -/
def traceState (px py : ℚ) (facing : Vector2) (g0 g1 g2 g3 : ℚ) (score lives : Int)
    (starTimer symbolChangeTimer : ℚ) (symbols : Int × Int) (eaten : Bool) (calls : Nat) : Game :=
  { player := { samplePlayer false 0 with position := ⟨px, py⟩, direction := facing }
    ghosts := [traceGhost 0 g0, traceGhost 1 g1, traceGhost 2 g2, traceGhost 3 g3]
    score := score
    starTimer := starTimer
    playerLives := lives
    centerBoxSymbols := symbols
    symbolChangeTimer := symbolChangeTimer
    map := traceGrid eaten
    randomCalls := calls }

/-- Equality of two states as a test: the fields are compared, the grids cell by cell. -/
def Game.sameAs (a b : Game) : Bool :=
  decide (a.player = b.player) && decide (a.ghosts = b.ghosts) && decide (a.score = b.score)
    && decide (a.starTimer = b.starTimer) && decide (a.playerLives = b.playerLives)
    && decide (a.centerBoxSymbols = b.centerBoxSymbols)
    && decide (a.symbolChangeTimer = b.symbolChangeTimer)
    && decide (a.randomCalls = b.randomCalls)
    && match a.map, b.map with
      | ⟨ta⟩, ⟨tb⟩ =>
        (List.finRange mapHeight).all fun r =>
          (List.finRange mapWidth).all fun c => decide (ta r c = tb r c)

/-- The states of the recorded game at the starts of its legs, and at its end. -/
def checkpoint : Nat → Game
  | 0 =>
    traceState 60 60 ⟨1, 0⟩ 400 440 480 520 0 3 0 0 (2, 4) false 10
  | 1 =>
    traceState 60 142 ⟨0, 1⟩ (677 / 2) (757 / 2) (837 / 2) (917 / 2) 100 3 (41 / 64) (41 / 64) (2, 4) true 10
  | 2 =>
    traceState 60 224 ⟨0, 1⟩ 277 317 357 397 100 3 (41 / 32) (9 / 32) (2, 4) true 12
  | 3 =>
    traceState 60 306 ⟨0, 1⟩ (431 / 2) (511 / 2) (591 / 2) (671 / 2) 100 3 (123 / 64) (59 / 64) (2, 4) true 12
  | 4 =>
    traceState 60 60 ⟨1, 0⟩ 400 (877 / 2) (957 / 2) (1037 / 2) 100 2 (41 / 16) (9 / 16) (0, 2) true 18
  | 5 =>
    traceState 60 142 ⟨0, 1⟩ (677 / 2) 377 417 457 100 2 (205 / 64) (13 / 64) (0, 2) true 20
  | 6 =>
    traceState 60 224 ⟨0, 1⟩ 277 (631 / 2) (711 / 2) (791 / 2) 100 2 (123 / 32) (27 / 32) (0, 2) true 20
  | 7 =>
    traceState 60 306 ⟨0, 1⟩ (431 / 2) 254 294 334 100 2 (287 / 64) (31 / 64) (4, 0) true 22
  | 8 =>
    traceState 60 60 ⟨1, 0⟩ 400 (877 / 2) (957 / 2) (1037 / 2) 100 1 (41 / 8) (1 / 8) (2, 4) true 28
  | 9 =>
    traceState 60 142 ⟨0, 1⟩ (677 / 2) 377 417 457 100 1 (369 / 64) (49 / 64) (2, 4) true 28
  | 10 =>
    traceState 60 224 ⟨0, 1⟩ 277 (631 / 2) (711 / 2) (791 / 2) 100 1 (205 / 32) (13 / 32) (2, 4) true 30
  | 11 =>
    traceState 60 306 ⟨0, 1⟩ (431 / 2) 254 294 334 100 1 (451 / 64) (3 / 64) (0, 2) true 32
  | _ =>
    traceState 126 320 ⟨1, 0⟩ (311 / 2) 194 234 274 100 1 (491 / 64) (43 / 64) (0, 2) true 32

/-- The inputs of the legs of the recorded game: the player walks 130 frames down and then
right into the first ghost, three times; the last leg stops one frame before the third
encounter. -/
def leg : Nat → List Input
  | 0 => List.replicate 41 downKey
  | 1 => List.replicate 41 downKey
  | 2 => List.replicate 41 downKey
  | 3 => List.replicate 7 downKey ++ List.replicate 34 rightKey
  | 4 => List.replicate 41 downKey
  | 5 => List.replicate 41 downKey
  | 6 => List.replicate 41 downKey
  | 7 => List.replicate 7 downKey ++ List.replicate 34 rightKey
  | 8 => List.replicate 41 downKey
  | 9 => List.replicate 41 downKey
  | 10 => List.replicate 41 downKey
  | 11 => List.replicate 7 downKey ++ List.replicate 33 rightKey
  | _ => []


/-! ## Inside a frame -/

/-- The bounds check `x >= 0 && x < mapWidth && y >= 0 && y < mapHeight` of the two movement
stages, on the cell of the position `pos`. -/
def cellInBounds (pos : Vector2) : Prop :=
  cellX pos ≥ 0 ∧ cellX pos < mapWidth ∧ cellY pos ≥ 0 ∧ cellY pos < mapHeight

/-- The same check stated on the coordinates. -/
def withinField (pos : Vector2) : Prop :=
  -40 < pos.x ∧ pos.x < 800 ∧ -40 < pos.y ∧ pos.y < 600

/-- The test `tile != WALL && tile != DOOR` of the ghost movement, on the cell of the
position `pos`, together with the bounds check before it. -/
def ghostMayEnter (g : Grid) (pos : Vector2) : Prop :=
  cellInBounds pos
    ∧ g.get? (cellY pos) (cellX pos) ≠ some .WALL
    ∧ g.get? (cellY pos) (cellX pos) ≠ some .DOOR

/-- The state of a ghost loop pass whose ghost, at index `i`, has committed its move. -/
def ghostCommitted (i : Nat) (ghost : Entity) (s : Game) : Game :=
  { s with ghosts := s.ghosts.set i { ghost with position := candidate ghost } }

/-- The state of a ghost loop pass whose ghost, at index `i`, had its move rejected. -/
def ghostRejected (rnd : Nat → Nat) (i : Nat) (ghost : Entity) (s : Game) : Game :=
  { s with
    ghosts := s.ghosts.set i { ghost with direction := rerollDirection rnd s.randomCalls }
    randomCalls := s.randomCalls + 2 }

/-- The frame that `UpdateGame` runs on `s` with input `inp` reaches the encounter test of the
ghost at index `i`: the stages before the ghost loop and the passes `0 .. i - 1` of the loop
have run, the ghost at index `i` has made its move, which left the state `u`, and `ghost` is
the element at index `i` on which `checkCollision` is about to be called. -/
def EncounterAt (file : Option (List String)) (rnd : Nat → Nat) (fuel : Nat) (inp : Input)
    (s : Game) (i : Nat) (ghost : Entity) (u : Game) : Prop :=
  ∃ (s1 v : Game) (ghost0 : Entity),
    playerMovement (playerInput inp s) = .ok s1
      ∧ i < (updatePowerUp inp.frameTime s1).ghosts.length
      ∧ ghostLoop file rnd fuel i 0 (updatePowerUp inp.frameTime s1) = .ok v
      ∧ v.ghosts[i]? = some ghost0
      ∧ ghostMovement rnd i ghost0 v = .ok u
      ∧ u.ghosts[i]? = some ghost

/-- The encounter of `EncounterAt` costs a life: the circles overlap, the player is not
powered up and the ghost is not flattened. -/
def LosesLife (ghost : Entity) (u : Game) : Prop :=
  CheckCollisionCircles u.player.position u.player.radius ghost.position ghost.radius = true
    ∧ u.player.isPoweredUp = false ∧ ghost.isFlattened = false

/-- The lives count is at least 1 and at most `maxLives`. -/
def LivesInRange (s : Game) : Prop :=
  1 ≤ s.playerLives ∧ s.playerLives ≤ maxLives

/-- The coupling of the modes: a player that is not powered up is in the normal mode. -/
def ModeCoupled (s : Game) : Prop :=
  s.player.isPoweredUp = false → NormalMode s

/-- The four directions a ghost can be given: the axis-aligned unit vectors. -/
def AxisUnit (d : Vector2) : Prop :=
  d = ⟨1, 0⟩ ∨ d = ⟨-1, 0⟩ ∨ d = ⟨0, 1⟩ ∨ d = ⟨0, -1⟩

/-! ## More sample data -/

/-- A state whose last stage sees 25000 points and three lives. -/
def richGame : Game := { sampleGame .EMPTY false (2, 4) with score := 25000 }

/-- A state whose player, one unit from the left edge of the field, heads left: the
candidate position has the x coordinate `-1`. -/
def edgeGame : Game :=
  { sampleGame .EMPTY false (2, 4) with
    player := { samplePlayer false 0 with position := ⟨1, 60⟩, direction := ⟨-1, 0⟩ } }

/-- A ghost one unit from the left edge of the field, heading left at speed `3 / 2`. -/
def edgeGhost : Entity := sampleGhost 1 60 true true

/-! ## The cells of `InitGame` -/

/-- The cells the seeding loop of `InitGame` can draw: columns 1 to 18 of rows 1 to 13. -/
def Seedable (r : Fin mapHeight) (c : Fin mapWidth) : Prop :=
  1 ≤ (r : Nat) ∧ (r : Nat) ≤ 13 ∧ 1 ≤ (c : Nat) ∧ (c : Nat) ≤ 18

/-- The three cells `map[7][9]`, `map[7][10]`, `map[7][11]` that `InitGame` writes last. -/
def FixedCell (r : Fin mapHeight) (c : Fin mapWidth) : Prop :=
  (r : Nat) = 7 ∧ ((c : Nat) = 9 ∨ (c : Nat) = 10 ∨ (c : Nat) = 11)

instance (r : Fin mapHeight) (c : Fin mapWidth) : Decidable (FixedCell r c) :=
  inferInstanceAs (Decidable ((r : Nat) = 7 ∧ ((c : Nat) = 9 ∨ (c : Nat) = 10 ∨ (c : Nat) = 11)))

/-- The number of cells of the grid that hold the tile kind `t`. -/
def countKind (g : Grid) (t : TileType) : Nat :=
  (Finset.univ.filter fun p : Fin mapHeight × Fin mapWidth => g.tile p.1 p.2 = t).card

/-- The number of cells of the grid, the three fixed cells left aside, that hold the tile
kind `t`. -/
def countKindOutside (g : Grid) (t : TileType) : Nat :=
  (Finset.univ.filter fun p : Fin mapHeight × Fin mapWidth =>
    ¬ FixedCell p.1 p.2 ∧ g.tile p.1 p.2 = t).card

/-- A map description of eight lines with a super pellet at column 10 of row 7, under the
fruit that `InitGame` places. -/
def pelletFile : Option (List String) := some ["", "", "", "", "", "", "", "..........U"]

/-- A stream of raw random values whose values number 6 and 7, the first two the seeding loop
draws after a start-up, select column 9 of row 7. -/
def doorRnd : Nat → Nat := fun n => if n = 6 then 8 else if n = 7 then 6 else 2 * n

/-- A run in which no access `map[row][col]` fell outside the array: its result is not the
fault that `Grid.read` and `Grid.write` report for such an access. -/
def NoOutOfBounds {α : Type} (r : Except Fault α) : Prop :=
  r ≠ .error .outOfBounds

/-! ## The first encounter of the recorded game -/

/-- The state of the recorded game after 163 frames, one frame before the player walks into the
first ghost with three lives. -/
def meetingState : Game :=
  traceState 126 320 ⟨1, 0⟩ (311 / 2) (391 / 2) (471 / 2) (551 / 2) 100 3 (163 / 64) (35 / 64)
    (0, 2) true 14

/-- The state of frame 164 of the recorded game after the player has moved. -/
def meetingMoved : Game :=
  traceState 128 320 ⟨1, 0⟩ (311 / 2) (391 / 2) (471 / 2) (551 / 2) 100 3 (163 / 64) (35 / 64)
    (0, 2) true 14

/-- The state of frame 164 of the recorded game in which the first ghost, which has moved to
column position 154, is tested for an encounter. -/
def meetingEncounter : Game :=
  traceState 128 320 ⟨1, 0⟩ 154 (391 / 2) (471 / 2) (551 / 2) 100 3 (163 / 64) (35 / 64)
    (0, 2) true 14

/-! ## The loss of the last life -/

/-- In the ghost loop started on the state `s2`, the pass for the ghost at index `j` takes the
player's last life: the passes `0 .. j - 1` have run, the ghost has made its move, which left
the state `u` with at most one life, the encounter costs a life, and the encounter test returns
what `InitGame` returns on the state with the life taken off. -/
def LastLifeTakenAt (file : Option (List String)) (rnd : Nat → Nat) (fuel : Nat) (s2 : Game)
    (j : Nat) : Prop :=
  ∃ (v u w : Game) (ghost0 ghost : Entity),
    ghostLoop file rnd fuel j 0 s2 = .ok v
      ∧ v.ghosts[j]? = some ghost0
      ∧ ghostMovement rnd j ghost0 v = .ok u
      ∧ u.ghosts[j]? = some ghost
      ∧ LosesLife ghost u ∧ u.playerLives ≤ 1
      ∧ checkCollision file rnd fuel j ghost u = .ok w
      ∧ InitGame file rnd fuel { u with playerLives := u.playerLives - 1 } = .ok w

/-- In the frame that `UpdateGame` runs on `s` with input `inp`, a ghost takes the player's
last life: the encounter test of some ghost is reached in a state `u` with at most one life,
the encounter costs a life, and the test returns what `InitGame` returns on the state with the
life taken off. -/
def LastLifeTaken (file : Option (List String)) (rnd : Nat → Nat) (fuel : Nat) (inp : Input)
    (s : Game) : Prop :=
  ∃ (i : Nat) (ghost : Entity) (u w : Game),
    EncounterAt file rnd fuel inp s i ghost u
      ∧ LosesLife ghost u ∧ u.playerLives ≤ 1
      ∧ checkCollision file rnd fuel i ghost u = .ok w
      ∧ InitGame file rnd fuel { u with playerLives := u.playerLives - 1 } = .ok w



/-! ## Grid accessors -/

theorem Grid.ext_tiles {g h : Grid} (H : ∀ r c, g.tile r c = h.tile r c) : g = h := by
  cases g
  cases h
  congr 1
  funext r c
  exact H r c

theorem inBounds_fin (r : Fin mapHeight) (c : Fin mapWidth) :
    inBounds ((r : Nat) : Int) ((c : Nat) : Int) := by
  have hr := r.isLt
  have hc := c.isLt
  unfold inBounds
  omega

theorem inBounds_exists {row col : Int} (h : inBounds row col) :
    ∃ (r : Fin mapHeight) (c : Fin mapWidth), row = ((r : Nat) : Int) ∧ col = ((c : Nat) : Int) := by
  unfold inBounds at h
  refine ⟨⟨row.toNat, by omega⟩, ⟨col.toNat, by omega⟩, ?_, ?_⟩ <;> simp <;> omega

theorem Grid.get?_fin (g : Grid) (r : Fin mapHeight) (c : Fin mapWidth) :
    g.get? ((r : Nat) : Int) ((c : Nat) : Int) = some (g.tile r c) := by
  unfold Grid.get?
  rw [dif_pos (inBounds_fin r c)]
  simp

theorem Grid.set?_fin (g : Grid) (r : Fin mapHeight) (c : Fin mapWidth) (t : TileType) :
    g.set? ((r : Nat) : Int) ((c : Nat) : Int) t = some (g.set r c t) := by
  unfold Grid.set?
  rw [dif_pos (inBounds_fin r c)]
  simp

theorem Grid.get?_outside (g : Grid) {row col : Int} (h : ¬ inBounds row col) :
    g.get? row col = none := by
  unfold Grid.get?
  rw [dif_neg h]

theorem Grid.read_fin (g : Grid) (r : Fin mapHeight) (c : Fin mapWidth) :
    g.read ((r : Nat) : Int) ((c : Nat) : Int) = .ok (g.tile r c) := by
  unfold Grid.read
  rw [Grid.get?_fin]

theorem Grid.write_fin (g : Grid) (r : Fin mapHeight) (c : Fin mapWidth) (t : TileType) :
    g.write ((r : Nat) : Int) ((c : Nat) : Int) t = .ok (g.set r c t) := by
  unfold Grid.write
  rw [Grid.set?_fin]

theorem Grid.set_same (g : Grid) (r : Fin mapHeight) (c : Fin mapWidth) (t : TileType) :
    (g.set r c t).tile r c = t := by
  simp [Grid.set]

theorem Grid.set_other (g : Grid) (r r1 : Fin mapHeight) (c c1 : Fin mapWidth) (t : TileType)
    (h : ¬ (r1 = r ∧ c1 = c)) : (g.set r c t).tile r1 c1 = g.tile r1 c1 := by
  simp only [Grid.set]
  rw [if_neg h]


/-! ## The star scan -/

theorem mem_allCells (p : Int × Int) :
    p ∈ allCells ↔ ∃ (r : Fin mapHeight) (c : Fin mapWidth), p = (((r : Nat) : Int), ((c : Nat) : Int)) := by
  unfold allCells
  rw [List.mem_flatMap]
  constructor
  · rintro ⟨y, hy, hp⟩
    rw [List.mem_map] at hp
    obtain ⟨x, hx, rfl⟩ := hp
    exact ⟨⟨y, List.mem_range.mp hy⟩, ⟨x, List.mem_range.mp hx⟩, rfl⟩
  · rintro ⟨r, c, rfl⟩
    exact ⟨r, List.mem_range.mpr r.isLt, List.mem_map.mpr ⟨c, List.mem_range.mpr c.isLt, rfl⟩⟩

theorem scanCells_true (g : Grid) (symbol : Int) (cells : List (Int × Int))
    (hin : ∀ p ∈ cells, ∃ (r : Fin mapHeight) (c : Fin mapWidth), p = (((r : Nat) : Int), ((c : Nat) : Int)))
    (h : ∃ (r : Fin mapHeight) (c : Fin mapWidth),
      (((r : Nat) : Int), ((c : Nat) : Int)) ∈ cells ∧ (g.tile r c).toInt = symbol) :
    scanCells g symbol cells = .ok true := by
  induction cells with
  | nil =>
    obtain ⟨r, c, hmem, _⟩ := h
    simp at hmem
  | cons p rest ih =>
    obtain ⟨r0, c0, rfl⟩ := hin _ (List.mem_cons_self _ _)
    unfold scanCells
    simp only [Grid.read_fin]
    by_cases hk : (g.tile r0 c0).toInt = symbol
    · rw [if_pos hk]
    · rw [if_neg hk]
      apply ih
      · intro p hp
        exact hin p (List.mem_cons_of_mem _ hp)
      · obtain ⟨r, c, hmem, hrc⟩ := h
        rcases List.mem_cons.mp hmem with heq | hmem
        · exfalso
          apply hk
          have h1 : (r : Nat) = (r0 : Nat) := by
            have := congrArg Prod.fst heq
            simpa using this
          have h2 : (c : Nat) = (c0 : Nat) := by
            have := congrArg Prod.snd heq
            simpa using this
          rw [← Fin.ext h1, ← Fin.ext h2]
          exact hrc
        · exact ⟨r, c, hmem, hrc⟩

theorem scanCells_false (g : Grid) (symbol : Int) (cells : List (Int × Int))
    (hin : ∀ p ∈ cells, ∃ (r : Fin mapHeight) (c : Fin mapWidth), p = (((r : Nat) : Int), ((c : Nat) : Int)))
    (h : ¬ ∃ (r : Fin mapHeight) (c : Fin mapWidth),
      (((r : Nat) : Int), ((c : Nat) : Int)) ∈ cells ∧ (g.tile r c).toInt = symbol) :
    scanCells g symbol cells = .ok false := by
  induction cells with
  | nil => rfl
  | cons p rest ih =>
    obtain ⟨r0, c0, rfl⟩ := hin _ (List.mem_cons_self _ _)
    unfold scanCells
    simp only [Grid.read_fin]
    have hk : ¬ (g.tile r0 c0).toInt = symbol := fun hk =>
      h ⟨r0, c0, List.mem_cons_self _ _, hk⟩
    rw [if_neg hk]
    apply ih
    · intro p hp
      exact hin p (List.mem_cons_of_mem _ hp)
    · rintro ⟨r, c, hmem, hrc⟩
      exact h ⟨r, c, List.mem_cons_of_mem _ hmem, hrc⟩

theorem scanCells_allCells_of_holds (g : Grid) (symbol : Int) (h : HoldsKind g symbol) :
    scanCells g symbol allCells = .ok true := by
  apply scanCells_true g symbol allCells (fun p hp => (mem_allCells p).mp hp)
  obtain ⟨r, c, hrc⟩ := h
  exact ⟨r, c, (mem_allCells _).mpr ⟨r, c, rfl⟩, hrc⟩

theorem scanCells_allCells_of_not_holds (g : Grid) (symbol : Int) (h : ¬ HoldsKind g symbol) :
    scanCells g symbol allCells = .ok false := by
  apply scanCells_false g symbol allCells (fun p hp => (mem_allCells p).mp hp)
  rintro ⟨r, c, _, hrc⟩
  exact h ⟨r, c, hrc⟩

theorem starBonus_differ (symbols : Int × Int) (g : Grid) (h : symbols.1 ≠ symbols.2) :
    starBonus symbols g = .ok 500 := by
  unfold starBonus
  rw [if_neg h]

theorem starBonus_found (symbols : Int × Int) (g : Grid) (h : symbols.1 = symbols.2)
    (hk : HoldsKind g symbols.1) : starBonus symbols g = .ok 5000 := by
  unfold starBonus
  rw [if_pos h, scanCells_allCells_of_holds g _ hk]
  rfl

theorem starBonus_missing (symbols : Int × Int) (g : Grid) (h : symbols.1 = symbols.2)
    (hk : ¬ HoldsKind g symbols.1) : starBonus symbols g = .ok 2000 := by
  unfold starBonus
  rw [if_pos h, scanCells_allCells_of_not_holds g _ hk]
  rfl

theorem starBonus_total (symbols : Int × Int) (g : Grid) :
    ∃ bonus, starBonus symbols g = .ok bonus ∧ 500 ≤ bonus := by
  by_cases h : symbols.1 = symbols.2
  · by_cases hk : HoldsKind g symbols.1
    · exact ⟨5000, starBonus_found symbols g h hk, by norm_num⟩
    · exact ⟨2000, starBonus_missing symbols g h hk, by norm_num⟩
  · exact ⟨500, starBonus_differ symbols g h, by norm_num⟩


/-! ## LoadMapFromFile -/

/-- The inner loop writes the characters of the line into row `r`, from column `k` on. -/
theorem loadColumns_eq (r : Fin mapHeight) (chars : List Char) (k : Nat) (g : Grid) :
    loadColumns ((r : Nat) : Int) chars ((k : Nat) : Int) g = .ok ⟨fun r1 c1 =>
      if r1 = r ∧ k ≤ (c1 : Nat) then
        match chars[(c1 : Nat) - k]? with
        | some tile => charToTile tile
        | none => g.tile r1 c1
      else g.tile r1 c1⟩ := by
  induction chars generalizing k g with
  | nil =>
    unfold loadColumns
    congr 1
    apply Grid.ext_tiles
    intro r1 c1
    simp only
    simp
  | cons tile rest ih =>
    unfold loadColumns
    by_cases hk : k < mapWidth
    · have hk1 : ((k : Nat) : Int) < ((mapWidth : Nat) : Int) := by omega
      rw [if_pos hk1]
      have hw := Grid.write_fin g r ⟨k, hk⟩ (charToTile tile)
      simp only at hw
      rw [hw]
      simp only
      have hcast : ((k : Nat) : Int) + 1 = (((k + 1 : Nat)) : Int) := by push_cast; rfl
      rw [hcast, ih (k + 1)]
      congr 1
      apply Grid.ext_tiles
      intro r1 c1
      simp only
      by_cases hr : r1 = r
      · subst hr
        rcases Nat.lt_trichotomy (c1 : Nat) k with hlt | heq | hgt
        · have h1 : ¬ (k + 1 ≤ (c1 : Nat)) := by omega
          have h2 : ¬ (k ≤ (c1 : Nat)) := by omega
          have h3 : ¬ (r1 = r1 ∧ c1 = (⟨k, hk⟩ : Fin mapWidth)) := by
            rintro ⟨_, h⟩
            have := congrArg Fin.val h
            simp at this
            omega
          simp only [h1, h2, and_false, if_false]
          rw [Grid.set_other _ _ _ _ _ _ h3]
        · have h1 : ¬ (k + 1 ≤ (c1 : Nat)) := by omega
          have h2 : k ≤ (c1 : Nat) := by omega
          have h3 : c1 = (⟨k, hk⟩ : Fin mapWidth) := Fin.ext heq
          simp only [h1, h2, and_false, and_true, if_false, if_true]
          rw [h3, Grid.set_same]
          simp
        · have h1 : k + 1 ≤ (c1 : Nat) := by omega
          have h2 : k ≤ (c1 : Nat) := by omega
          have h3 : ¬ (r1 = r1 ∧ c1 = (⟨k, hk⟩ : Fin mapWidth)) := by
            rintro ⟨_, h⟩
            have := congrArg Fin.val h
            simp at this
            omega
          have h4 : (c1 : Nat) - k = ((c1 : Nat) - (k + 1)) + 1 := by omega
          simp only [h1, h2, and_true, if_true]
          rw [h4, List.getElem?_cons_succ, Grid.set_other _ _ _ _ _ _ h3]
      · have h3 : ¬ (r1 = r ∧ c1 = (⟨k, hk⟩ : Fin mapWidth)) := fun h => hr h.1
        simp only [hr, false_and, if_false]
        rw [Grid.set_other _ _ _ _ _ _ h3]
    · have hk1 : ¬ ((k : Nat) : Int) < ((mapWidth : Nat) : Int) := by omega
      rw [if_neg hk1]
      congr 1
      apply Grid.ext_tiles
      intro r1 c1
      simp only
      have hc := c1.isLt
      have h2 : ¬ (k ≤ (c1 : Nat)) := by omega
      simp [h2]

/-- The outer loop loads the lines into the rows from `k` on. -/
theorem loadLines_eq (lines : List String) (k : Nat) (hk : k < mapHeight) (g : Grid) :
    loadLines lines ((k : Nat) : Int) g = .ok ⟨fun r1 c1 =>
      if k ≤ (r1 : Nat) then
        match lines[(r1 : Nat) - k]? with
        | some line =>
          match line.data[(c1 : Nat)]? with
          | some tile => charToTile tile
          | none => g.tile r1 c1
        | none => g.tile r1 c1
      else g.tile r1 c1⟩ := by
  induction lines generalizing k g with
  | nil =>
    unfold loadLines
    congr 1
    apply Grid.ext_tiles
    intro r1 c1
    simp only
    simp
  | cons line rest ih =>
    unfold loadLines
    have hcol := loadColumns_eq ⟨k, hk⟩ line.data 0 g
    simp only [Nat.cast_zero] at hcol
    rw [hcol]
    simp only
    by_cases hlast : k + 1 < mapHeight
    · have h1 : ¬ (((k : Nat) : Int) + 1 ≥ ((mapHeight : Nat) : Int)) := by omega
      rw [if_neg h1]
      have hcast : ((k : Nat) : Int) + 1 = (((k + 1 : Nat)) : Int) := by push_cast; rfl
      rw [hcast, ih (k + 1) hlast]
      congr 1
      apply Grid.ext_tiles
      intro r1 c1
      simp only
      rcases Nat.lt_trichotomy (r1 : Nat) k with hlt | heq | hgt
      · have a1 : ¬ (k + 1 ≤ (r1 : Nat)) := by omega
        have a2 : ¬ (k ≤ (r1 : Nat)) := by omega
        have a3 : ¬ (r1 = (⟨k, hk⟩ : Fin mapHeight)) := by
          intro h
          have := congrArg Fin.val h
          simp at this
          omega
        simp [a1, a2, a3]
      · have a1 : ¬ (k + 1 ≤ (r1 : Nat)) := by omega
        have a2 : k ≤ (r1 : Nat) := by omega
        have a3 : r1 = (⟨k, hk⟩ : Fin mapHeight) := Fin.ext heq
        have a4 : (r1 : Nat) - k = 0 := by omega
        simp [a1, a2, a3]
      · have a1 : k + 1 ≤ (r1 : Nat) := by omega
        have a2 : k ≤ (r1 : Nat) := by omega
        have a3 : ¬ (r1 = (⟨k, hk⟩ : Fin mapHeight)) := by
          intro h
          have := congrArg Fin.val h
          simp at this
          omega
        have a4 : (r1 : Nat) - k = ((r1 : Nat) - (k + 1)) + 1 := by omega
        simp only [a1, a2, if_true]
        rw [a4, List.getElem?_cons_succ]
        simp [a3]
    · have h1 : ((k : Nat) : Int) + 1 ≥ ((mapHeight : Nat) : Int) := by omega
      rw [if_pos h1]
      congr 1
      apply Grid.ext_tiles
      intro r1 c1
      simp only
      have hr := r1.isLt
      rcases Nat.lt_or_ge (r1 : Nat) k with hlt | hge
      · have a2 : ¬ (k ≤ (r1 : Nat)) := by omega
        have a3 : ¬ (r1 = (⟨k, hk⟩ : Fin mapHeight)) := by
          intro h
          have := congrArg Fin.val h
          simp at this
          omega
        simp [a2, a3]
      · have a2 : k ≤ (r1 : Nat) := by omega
        have a3 : r1 = (⟨k, hk⟩ : Fin mapHeight) := Fin.ext (by simp; omega)
        simp [a2, a3]

/-- The code computes the grid the specification describes, and never faults. -/
theorem LoadMapFromFile_lines (lines : List String) (g : Grid) :
    LoadMapFromFile (some lines) g = .ok (loadedGrid lines g) := by
  have h := loadLines_eq lines 0 (by decide) g
  simp only [Nat.cast_zero] at h
  show loadLines lines 0 g = .ok (loadedGrid lines g)
  rw [h]
  congr 1
  apply Grid.ext_tiles
  intro r c
  simp only
  simp [loadedGrid]

theorem LoadMapFromFile_none (g : Grid) : LoadMapFromFile none g = .ok g := rfl

theorem loadedGrid_clip (lines : List String) (g : Grid) :
    loadedGrid (clipDescription lines) g = loadedGrid lines g := by
  apply Grid.ext_tiles
  intro r c
  have hr := r.isLt
  have hc := c.isLt
  unfold loadedGrid clipDescription
  simp only
  rw [List.getElem?_map, List.getElem?_take_of_lt hr]
  cases hline : lines[(r : Nat)]? with
  | none => rfl
  | some line =>
    simp only [Option.map_some']
    rw [List.getElem?_take_of_lt hc]

theorem endsWith_elim {r : Except Fault Game} {p : Game → Bool} (h : endsWith r p = true) :
    ∃ s, r = .ok s ∧ p s = true := by
  cases r with
  | error e => simp [endsWith] at h
  | ok s => exact ⟨s, rfl, h⟩

theorem charToTile_default (tile : Char)
    (h : tile ∉ ['#', '.', 'K', 'M', 'P', 'S', 'U', 'F', 'D']) : charToTile tile = .EMPTY := by
  simp only [List.mem_cons, List.mem_singleton, not_or, List.not_mem_nil, not_false_eq_true,
    and_true] at h
  obtain ⟨h1, h2, h3, h4, h5, h6, h7, h8, h9⟩ := h
  simp [charToTile, h1, h2, h3, h4, h5, h6, h7, h8, h9]

/-- `InitGame` on a description that can be opened: the rest of the body runs on the grid the
specification describes. -/
theorem InitGame_lines (lines : List String) (rnd : Nat → Nat) (fuel : Nat) (s : Game) :
    InitGame (some lines) rnd fuel s = setUpGame rnd fuel s (loadedGrid lines s.map) := by
  unfold InitGame
  rw [LoadMapFromFile_lines]

/-! ## The player-movement stage -/

theorem playerMovement_at (s : Game) (r : Fin mapHeight) (c : Fin mapWidth)
    (hy : cellY (candidate s.player) = ((r : Nat) : Int))
    (hx : cellX (candidate s.player) = ((c : Nat) : Int)) :
    playerMovement s =
      if playerPassable (s.map.tile r c) s.player.isPoweredUp then
        collectItems ((r : Nat) : Int) ((c : Nat) : Int) (s.map.tile r c)
          { s with player := { s.player with position := candidate s.player } }
      else .ok s := by
  have hb := inBounds_fin r c
  unfold inBounds at hb
  unfold playerMovement
  simp only [hy, hx, Grid.read_fin]
  rw [if_pos (by omega)]

theorem playerMovement_outside (s : Game)
    (h : ¬ inBounds (cellY (candidate s.player)) (cellX (candidate s.player))) :
    playerMovement s = .ok s := by
  unfold playerMovement
  unfold inBounds at h
  simp only []
  rw [if_neg (by omega)]

theorem playerMovement_rejected (s : Game)
    (h : ¬ inBounds (cellY (candidate s.player)) (cellX (candidate s.player))
      ∨ s.map.get? (cellY (candidate s.player)) (cellX (candidate s.player)) = some .WALL
      ∨ (s.map.get? (cellY (candidate s.player)) (cellX (candidate s.player)) = some .DOOR
          ∧ s.player.isPoweredUp = false)) :
    playerMovement s = .ok s := by
  by_cases hb : inBounds (cellY (candidate s.player)) (cellX (candidate s.player))
  · obtain ⟨r, c, hy, hx⟩ := inBounds_exists hb
    rw [playerMovement_at s r c hy hx]
    rw [hy, hx, Grid.get?_fin] at h
    rcases h with h | h | ⟨h, hp⟩
    · exact absurd (inBounds_fin r c) h
    · rw [Option.some.injEq] at h
      simp [h, playerPassable]
    · rw [Option.some.injEq] at h
      simp [h, hp, playerPassable]
  · exact playerMovement_outside s hb

theorem entersCell_set (s s1 : Game) (r : Fin mapHeight) (c : Fin mapWidth)
    (hp : s1.player.position = candidate s.player) (hm : s1.map = s.map.set r c .EMPTY) :
    EntersCell s s1 r c := by
  refine ⟨hp, ?_, ?_⟩
  · rw [hm, Grid.set_same]
  · intro r1 c1 h
    rw [hm, Grid.set_other _ _ _ _ _ _ h]

/-- The result of the stage on a `STAR` cell, with the bonus left symbolic. -/
theorem playerMovement_star (s : Game) (r : Fin mapHeight) (c : Fin mapWidth)
    (hy : cellY (candidate s.player) = ((r : Nat) : Int))
    (hx : cellX (candidate s.player) = ((c : Nat) : Int))
    (h : s.map.tile r c = .STAR) :
    ∃ s1 bonus, playerMovement s = .ok s1 ∧ EntersCell s s1 r c
      ∧ starBonus s.centerBoxSymbols (s.map.set r c .EMPTY) = .ok bonus
      ∧ 500 ≤ bonus
      ∧ s1.score = s.score + bonus := by
  rw [playerMovement_at s r c hy hx]
  obtain ⟨bonus, hb, hge⟩ := starBonus_total s.centerBoxSymbols (s.map.set r c .EMPTY)
  simp only [h, playerPassable, collectItems, Grid.write_fin]
  refine ⟨_, bonus, ?_, entersCell_set _ { s with
      player := { s.player with position := candidate s.player }
      map := s.map.set r c .EMPTY
      score := s.score + bonus } _ _ rfl rfl, hb, hge, rfl⟩
  simp [hb]

/-- The result of the stage on a `POWER_PELLET` cell. -/
theorem playerMovement_powerPellet (s : Game) (r : Fin mapHeight) (c : Fin mapWidth)
    (hy : cellY (candidate s.player) = ((r : Nat) : Int))
    (hx : cellX (candidate s.player) = ((c : Nat) : Int))
    (h : s.map.tile r c = .POWER_PELLET) :
    playerMovement s = .ok
      { s with
        map := s.map.set r c .EMPTY
        player :=
          { s.player with
            position := candidate s.player
            isPoweredUp := true
            powerUpTimer := 10 }
        ghosts := makeVulnerable s.ghosts
        score := s.score + 50 } := by
  rw [playerMovement_at s r c hy hx]
  simp only [h, playerPassable, collectItems, Grid.write_fin]
  rfl

/-- The result of the stage on a `SUPER_PELLET` cell. -/
theorem playerMovement_superPellet (s : Game) (r : Fin mapHeight) (c : Fin mapWidth)
    (hy : cellY (candidate s.player) = ((r : Nat) : Int))
    (hx : cellX (candidate s.player) = ((c : Nat) : Int))
    (h : s.map.tile r c = .SUPER_PELLET) :
    playerMovement s = .ok
      { s with
        map := s.map.set r c .EMPTY
        player :=
          { s.player with
            position := candidate s.player
            isPoweredUp := true
            powerUpTimer := superPelletDuration
            speed := superSpeed
            radius := (tileSize : ℚ) / 2 }
        ghosts := makeFlattened s.ghosts
        score := s.score + 100 } := by
  rw [playerMovement_at s r c hy hx]
  simp only [h, playerPassable, collectItems, Grid.write_fin]
  rfl

/-- The result of the stage on a cell whose item only changes the score. -/
theorem playerMovement_plain (s : Game) (r : Fin mapHeight) (c : Fin mapWidth)
    (hy : cellY (candidate s.player) = ((r : Nat) : Int))
    (hx : cellX (candidate s.player) = ((c : Nat) : Int)) :
    (s.map.tile r c = .MAIZE → playerMovement s = .ok
      { s with
        player := { s.player with position := candidate s.player }
        map := s.map.set r c .EMPTY
        score := s.score + 100 })
    ∧ (s.map.tile r c = .KEY → playerMovement s = .ok
      { s with
        player := { s.player with position := candidate s.player }
        map := s.map.set r c .EMPTY
        score := s.score + 500 })
    ∧ (s.map.tile r c = .FRUIT → playerMovement s = .ok
      { s with
        player := { s.player with position := candidate s.player }
        map := s.map.set r c .EMPTY
        score := s.score + 1000 })
    ∧ (s.map.tile r c = .DOOR → s.player.isPoweredUp = true → playerMovement s = .ok
      { s with
        player := { s.player with position := candidate s.player }
        map := s.map.set r c .EMPTY })
    ∧ (s.map.tile r c = .EMPTY → playerMovement s = .ok
      { s with player := { s.player with position := candidate s.player } }) := by
  rw [playerMovement_at s r c hy hx]
  refine ⟨?_, ?_, ?_, ?_, ?_⟩
  · intro h
    simp only [h, playerPassable, collectItems, Grid.write_fin]
    rfl
  · intro h
    simp only [h, playerPassable, collectItems, Grid.write_fin]
    rfl
  · intro h
    simp only [h, playerPassable, collectItems, Grid.write_fin]
    rfl
  · intro h hp
    simp only [h, hp, playerPassable, collectItems, Grid.write_fin]
    rfl
  · intro h
    simp only [h, playerPassable, collectItems]
    rfl

theorem sampleGame_candidate (t : TileType) (p : Bool) (symbols : Int × Int) :
    candidate (sampleGame t p symbols).player = ⟨81, 60⟩ := by
  simp only [candidate, sampleGame, samplePlayer]
  norm_num

theorem sampleGame_cell (t : TileType) (p : Bool) (symbols : Int × Int) :
    cellY (candidate (sampleGame t p symbols).player) = (((1 : Fin mapHeight) : Nat) : Int)
      ∧ cellX (candidate (sampleGame t p symbols).player) = (((2 : Fin mapWidth) : Nat) : Int) := by
  rw [sampleGame_candidate]
  constructor <;> decide!

theorem sampleGame_tile (t : TileType) (p : Bool) (symbols : Int × Int) :
    (sampleGame t p symbols).map.tile 1 2 = t := by
  simp [sampleGame, Grid.set]

/-! ## The stages of a frame, one by one -/

theorem getRandomValue_range (rnd : Nat → Nat) (n : Nat) (lo hi : Int) (h : lo ≤ hi) :
    lo ≤ GetRandomValue rnd n lo hi ∧ GetRandomValue rnd n lo hi ≤ hi := by
  unfold GetRandomValue
  have h1 : (0 : Int) < hi - lo + 1 := by omega
  have h2 := Int.emod_nonneg (rnd n : Int) (ne_of_gt h1)
  have h3 := Int.emod_lt_of_pos (rnd n : Int) h1
  constructor <;> omega

/-- The two outcomes of the movement part of the ghost loop body. -/
theorem ghostMovement_cases (rnd : Nat → Nat) (i : Nat) (ghost : Entity) (s s1 : Game)
    (h : ghostMovement rnd i ghost s = .ok s1) :
    s1 = { s with ghosts := s.ghosts.set i { ghost with position := candidate ghost } }
    ∨ s1 = { s with
        ghosts := s.ghosts.set i { ghost with direction := rerollDirection rnd s.randomCalls }
        randomCalls := s.randomCalls + 2 } := by
  unfold ghostMovement at h
  simp only at h
  split at h
  · split at h
    · cases h
    · split at h
      · left
        cases h
        rfl
      · right
        cases h
        rfl
  · right
    cases h
    rfl

theorem resetGhosts_flags (rnd : Nat → Nat) (n : Nat) (ghosts : List Entity) :
    ∀ ghost ∈ (resetGhosts rnd n ghosts).1,
      ghost.isVulnerable = false ∧ ghost.isFlattened = false := by
  induction ghosts generalizing n with
  | nil =>
    intro ghost hg
    simp [resetGhosts] at hg
  | cons g rest ih =>
    intro ghost hg
    simp only [resetGhosts, List.mem_cons] at hg
    rcases hg with rfl | hg
    · exact ⟨rfl, rfl⟩
    · exact ih (n + 1) ghost hg

theorem normalMode_reset (rnd : Nat → Nat) (s : Game)
    (hr : s.player.radius = (tileSize : ℚ) / 3) : NormalMode (ResetPlayerPosition rnd s) :=
  ⟨rfl, hr, rfl, resetGhosts_flags rnd s.randomCalls s.ghosts⟩

/-- What `InitGame` leaves behind, whatever the state before. -/
theorem initGame_post (file : Option (List String)) (rnd : Nat → Nat) (fuel : Nat)
    (s s1 : Game) (h : InitGame file rnd fuel s = .ok s1) :
    s1.score = 0 ∧ s1.playerLives = 3
      ∧ s1.player.position = ⟨60, 60⟩
      ∧ s1.player.isPoweredUp = false
      ∧ s1.player.radius = (tileSize : ℚ) / 3
      ∧ s1.player.speed = normalSpeed
      ∧ s1.ghosts = [newGhost rnd s.randomCalls 0, newGhost rnd (s.randomCalls + 1) 1,
          newGhost rnd (s.randomCalls + 2) 2, newGhost rnd (s.randomCalls + 3) 3] := by
  unfold InitGame at h
  split at h
  · cases h
  · unfold setUpGame at h
    simp only at h
    split at h
    · cases h
    · split at h
      · cases h
      · cases h
        refine ⟨rfl, rfl, ?_, rfl, rfl, rfl, rfl⟩
        show (⟨(tileSize : ℚ) * (3 / 2), (tileSize : ℚ) * (3 / 2)⟩ : Vector2) = ⟨60, 60⟩
        norm_num

theorem normalMode_init (file : Option (List String)) (rnd : Nat → Nat) (fuel : Nat)
    (s s1 : Game) (h : InitGame file rnd fuel s = .ok s1) : NormalMode s1 := by
  obtain ⟨_, _, _, hp, hr, hs, hg⟩ := initGame_post file rnd fuel s s1 h
  refine ⟨hp, hr, hs, ?_⟩
  intro ghost hmem
  rw [hg] at hmem
  simp only [List.mem_cons, List.mem_singleton, List.not_mem_nil, or_false] at hmem
  rcases hmem with rfl | rfl | rfl | rfl <;> exact ⟨rfl, rfl⟩

theorem normalMode_ghostMovement (rnd : Nat → Nat) (i : Nat) (ghost : Entity) (s s1 : Game)
    (hg : s.ghosts[i]? = some ghost) (h : ghostMovement rnd i ghost s = .ok s1)
    (hn : NormalMode s) : NormalMode s1 := by
  obtain ⟨hp, hr, hs, hf⟩ := hn
  have hgm : ghost ∈ s.ghosts := List.getElem?_mem hg
  rcases ghostMovement_cases rnd i ghost s s1 h with rfl | rfl
  · refine ⟨hp, hr, hs, ?_⟩
    intro g1 hmem
    rcases List.mem_or_eq_of_mem_set hmem with h1 | rfl
    · exact hf g1 h1
    · exact hf ghost hgm
  · refine ⟨hp, hr, hs, ?_⟩
    intro g1 hmem
    rcases List.mem_or_eq_of_mem_set hmem with h1 | rfl
    · exact hf g1 h1
    · exact hf ghost hgm

theorem normalMode_checkCollision (file : Option (List String)) (rnd : Nat → Nat)
    (fuel i : Nat) (ghost : Entity) (s s1 : Game)
    (h : checkCollision file rnd fuel i ghost s = .ok s1) (hn : NormalMode s) :
    NormalMode s1 := by
  have hp := hn.1
  unfold checkCollision at h
  split at h
  · simp only [hp, Bool.false_and, Bool.false_eq_true, if_false, Bool.not_false,
      Bool.true_and] at h
    split at h
    · split at h
      · cases h
        exact normalMode_reset rnd _ hn.2.1
      · exact normalMode_init file rnd fuel _ s1 h
    · cases h
      exact hn
  · cases h
    exact hn

theorem normalMode_ghostBody (file : Option (List String)) (rnd : Nat → Nat) (fuel i : Nat)
    (s s1 : Game) (h : ghostBody file rnd fuel i s = .ok s1) (hn : NormalMode s) :
    NormalMode s1 := by
  unfold ghostBody at h
  split at h
  · cases h
    exact hn
  · rename_i ghost hg
    split at h
    · cases h
    · rename_i s2 hm
      have hn2 := normalMode_ghostMovement rnd i ghost s s2 hg hm hn
      split at h
      · cases h
        exact hn2
      · exact normalMode_checkCollision file rnd fuel i _ s2 s1 h hn2

theorem normalMode_ghostLoop (file : Option (List String)) (rnd : Nat → Nat) (fuel : Nat)
    (count i : Nat) (s s1 : Game) (h : ghostLoop file rnd fuel count i s = .ok s1)
    (hn : NormalMode s) : NormalMode s1 := by
  induction count generalizing i s with
  | zero =>
    unfold ghostLoop at h
    cases h
    exact hn
  | succ count ih =>
    unfold ghostLoop at h
    split at h
    · cases h
    · rename_i s2 hb
      exact ih (i + 1) s2 h (normalMode_ghostBody file rnd fuel i s s2 hb hn)

/-- The star stage touches only the map, the star timer and the count of draws. -/
theorem starSpawning_frame (rnd : Nat → Nat) (dt : ℚ) (s s1 : Game)
    (h : starSpawning rnd dt s = .ok s1) :
    s1.player = s.player ∧ s1.ghosts = s.ghosts ∧ s1.score = s.score
      ∧ s1.playerLives = s.playerLives := by
  unfold starSpawning at h
  simp only at h
  split at h
  · split at h
    · cases h
    · split at h
      · split at h
        · cases h
        · cases h
          exact ⟨rfl, rfl, rfl, rfl⟩
      · cases h
        exact ⟨rfl, rfl, rfl, rfl⟩
  · cases h
    exact ⟨rfl, rfl, rfl, rfl⟩

/-- The symbol stage touches only the symbols, their timer and the count of draws. -/
theorem updateCenterBoxSymbols_frame (rnd : Nat → Nat) (dt : ℚ) (s : Game) :
    (updateCenterBoxSymbols rnd dt s).player = s.player
      ∧ (updateCenterBoxSymbols rnd dt s).ghosts = s.ghosts
      ∧ (updateCenterBoxSymbols rnd dt s).score = s.score
      ∧ (updateCenterBoxSymbols rnd dt s).playerLives = s.playerLives := by
  unfold updateCenterBoxSymbols
  simp only
  split <;> exact ⟨rfl, rfl, rfl, rfl⟩

/-- The extra-life stage touches only the lives and the score. -/
theorem extraLife_frame (s : Game) :
    (extraLife s).player = s.player ∧ (extraLife s).ghosts = s.ghosts := by
  unfold extraLife
  split <;> exact ⟨rfl, rfl⟩

theorem normalMode_of_same {s s1 : Game} (hp : s1.player = s.player) (hg : s1.ghosts = s.ghosts)
    (hn : NormalMode s) : NormalMode s1 := by
  unfold NormalMode at *
  rw [hp, hg]
  exact hn

theorem resetPlayerPosition_lives (rnd : Nat → Nat) (s : Game) :
    (ResetPlayerPosition rnd s).playerLives = s.playerLives ∧
      (ResetPlayerPosition rnd s).score = s.score ∧
      (ResetPlayerPosition rnd s).map = s.map :=
  ⟨rfl, rfl, rfl⟩

theorem checkCollision_eat (file : Option (List String)) (rnd : Nat → Nat) (fuel i : Nat)
    (ghost : Entity) (s : Game)
    (hov : CheckCollisionCircles s.player.position s.player.radius ghost.position ghost.radius
      = true)
    (hp : s.player.isPoweredUp = true) (hv : ghost.isVulnerable = true) :
    checkCollision file rnd fuel i ghost s = .ok
      { s with
        ghosts := s.ghosts.set i
          { ghost with
            position := ghost.startPosition
            isVulnerable := false
            isFlattened := false }
        score := s.score + 200 } := by
  unfold checkCollision
  simp [hov, hp, hv]

theorem checkCollision_harm (file : Option (List String)) (rnd : Nat → Nat) (fuel i : Nat)
    (ghost : Entity) (s : Game)
    (hov : CheckCollisionCircles s.player.position s.player.radius ghost.position ghost.radius
      = true)
    (hp : s.player.isPoweredUp = false) (hf : ghost.isFlattened = false) :
    checkCollision file rnd fuel i ghost s =
      if s.playerLives - 1 > 0 then
        .ok (ResetPlayerPosition rnd { s with playerLives := s.playerLives - 1 })
      else InitGame file rnd fuel { s with playerLives := s.playerLives - 1 } := by
  unfold checkCollision
  simp [hov, hp, hf]

theorem checkCollision_ignore (file : Option (List String)) (rnd : Nat → Nat) (fuel i : Nat)
    (ghost : Entity) (s : Game)
    (h : CheckCollisionCircles s.player.position s.player.radius ghost.position ghost.radius
        = false
      ∨ (s.player.isPoweredUp = true ∧ ghost.isVulnerable = false)
      ∨ (s.player.isPoweredUp = false ∧ ghost.isFlattened = true)) :
    checkCollision file rnd fuel i ghost s = .ok s := by
  unfold checkCollision
  rcases h with h | ⟨hp, hv⟩ | ⟨hp, hf⟩
  · simp [h]
  · simp [hp, hv]
  · simp [hp, hf]


/-! ## The score through a frame -/

theorem playerMovement_score (s s1 : Game) (h : playerMovement s = .ok s1) :
    s.score ≤ s1.score := by
  by_cases hb : inBounds (cellY (candidate s.player)) (cellX (candidate s.player))
  · obtain ⟨r, c, hy, hx⟩ := inBounds_exists hb
    obtain ⟨hM, hK, hF, hD, hE⟩ := playerMovement_plain s r c hy hx
    cases ht : s.map.tile r c with
    | EMPTY =>
      rw [hE ht] at h
      cases h
      exact le_refl _
    | WALL =>
      rw [playerMovement_rejected s (Or.inr (Or.inl (by rw [hy, hx, Grid.get?_fin, ht])))] at h
      cases h
      exact le_refl _
    | DOOR =>
      cases hp : s.player.isPoweredUp with
      | false =>
        rw [playerMovement_rejected s
          (Or.inr (Or.inr ⟨by rw [hy, hx, Grid.get?_fin, ht], hp⟩))] at h
        cases h
        exact le_refl _
      | true =>
        rw [hD ht hp] at h
        cases h
        exact le_refl _
    | KEY =>
      rw [hK ht] at h
      cases h
      show s.score ≤ s.score + 500
      omega
    | MAIZE =>
      rw [hM ht] at h
      cases h
      show s.score ≤ s.score + 100
      omega
    | POWER_PELLET =>
      rw [playerMovement_powerPellet s r c hy hx ht] at h
      cases h
      show s.score ≤ s.score + 50
      omega
    | STAR =>
      obtain ⟨s2, bonus, h1, _, _, hge, hs⟩ := playerMovement_star s r c hy hx ht
      rw [h1] at h
      cases h
      rw [hs]
      omega
    | SUPER_PELLET =>
      rw [playerMovement_superPellet s r c hy hx ht] at h
      cases h
      show s.score ≤ s.score + 100
      omega
    | FRUIT =>
      rw [hF ht] at h
      cases h
      show s.score ≤ s.score + 1000
      omega
  · rw [playerMovement_outside s hb] at h
    cases h
    exact le_refl _

theorem updatePowerUp_score (dt : ℚ) (s : Game) :
    (updatePowerUp dt s).score = s.score := by
  unfold updatePowerUp
  split
  · simp only
    split <;> rfl
  · rfl

theorem freshFrom_mono {i k : Nat} {s : Game} (h : FreshFrom i s) (hik : i ≤ k) :
    FreshFrom k s := by
  obtain ⟨h1, h2, h3, h4, h5⟩ := h
  exact ⟨h1, h2, h3, h4, fun j ghost hj hg => h5 j ghost (le_trans hik hj) hg⟩

theorem newGhost_far (rnd : Nat → Nat) (n : Nat) (k : Int) (hk : 0 ≤ k) :
    400 ≤ (newGhost rnd n k).position.x ∧ (newGhost rnd n k).speed = 3 / 2
      ∧ -1 ≤ (newGhost rnd n k).direction.x
      ∧ (newGhost rnd n k).radius = (tileSize : ℚ) / 3 := by
  refine ⟨?_, rfl, ?_, rfl⟩
  · show (400 : ℚ) ≤ ((tileSize * (10 + k) : Int) : ℚ)
    have : (400 : Int) ≤ tileSize * (10 + k) := by
      show (400 : Int) ≤ 40 * (10 + k)
      omega
    exact_mod_cast this
  · show (-1 : ℚ) ≤ ((GetRandomValue rnd n 0 1 * 2 - 1 : Int) : ℚ)
    have h := (getRandomValue_range rnd n 0 1 (by decide)).1
    have : (-1 : Int) ≤ GetRandomValue rnd n 0 1 * 2 - 1 := by omega
    exact_mod_cast this

theorem freshFrom_init (file : Option (List String)) (rnd : Nat → Nat) (fuel : Nat)
    (s s1 : Game) (h : InitGame file rnd fuel s = .ok s1) (i : Nat) : FreshFrom i s1 := by
  obtain ⟨h1, h2, h3, _, h5, _, h7⟩ := initGame_post file rnd fuel s s1 h
  refine ⟨h1, h2, h3, h5, ?_⟩
  intro j ghost _ hg
  have hmem := List.getElem?_mem hg
  rw [h7] at hmem
  simp only [List.mem_cons, List.mem_singleton, List.not_mem_nil, or_false] at hmem
  rcases hmem with rfl | rfl | rfl | rfl
  · exact newGhost_far rnd _ 0 (by decide)
  · exact newGhost_far rnd _ 1 (by decide)
  · exact newGhost_far rnd _ 2 (by decide)
  · exact newGhost_far rnd _ 3 (by decide)

/-- A ghost at column 398 or beyond does not overlap a player standing at `(60, 60)`. -/
theorem no_overlap_far (pos : Vector2) (hx : 398 ≤ pos.x) :
    CheckCollisionCircles ⟨60, 60⟩ ((tileSize : ℚ) / 3) pos ((tileSize : ℚ) / 3) = false := by
  unfold CheckCollisionCircles
  rw [decide_eq_false_iff_not]
  rintro ⟨_, h⟩
  have ht : ((tileSize : Int) : ℚ) = 40 := by norm_num
  rw [ht] at h
  simp only at h
  nlinarith [mul_self_nonneg (pos.y - 60), mul_self_nonneg (pos.x - 398)]

theorem ghostMovement_keeps (rnd : Nat → Nat) (i : Nat) (ghost : Entity) (s s1 : Game)
    (h : ghostMovement rnd i ghost s = .ok s1) :
    s1.score = s.score ∧ s1.playerLives = s.playerLives ∧ s1.player = s.player
      ∧ (∀ j, j ≠ i → s1.ghosts[j]? = s.ghosts[j]?)
      ∧ ∀ ghost1, s1.ghosts[i]? = some ghost1 →
          ghost1.radius = ghost.radius
            ∧ (ghost1.position = ghost.position ∨ ghost1.position = candidate ghost) := by
  rcases ghostMovement_cases rnd i ghost s s1 h with rfl | rfl
  · refine ⟨rfl, rfl, rfl, ?_, ?_⟩
    · intro j hj
      simp [List.getElem?_set, Ne.symm hj]
    · intro ghost1 hg
      simp only [List.getElem?_set] at hg
      split at hg
      · split at hg
        · cases hg
          exact ⟨rfl, Or.inr rfl⟩
        · cases hg
      · rename_i hne
        exact absurd trivial hne
  · refine ⟨rfl, rfl, rfl, ?_, ?_⟩
    · intro j hj
      simp [List.getElem?_set, Ne.symm hj]
    · intro ghost1 hg
      simp only [List.getElem?_set] at hg
      split at hg
      · split at hg
        · cases hg
          exact ⟨rfl, Or.inl rfl⟩
        · cases hg
      · rename_i hne
        exact absurd trivial hne

/-- In a fresh state the pass for ghost `i` moves that ghost at most and harms nobody. -/
theorem ghostBody_fresh (file : Option (List String)) (rnd : Nat → Nat) (fuel i : Nat)
    (s s1 : Game) (h : ghostBody file rnd fuel i s = .ok s1) (hf : FreshFrom i s) :
    FreshFrom (i + 1) s1 := by
  unfold ghostBody at h
  split at h
  · cases h
    exact freshFrom_mono hf (Nat.le_succ i)
  · rename_i ghost hg
    split at h
    · cases h
    · rename_i s2 hm
      obtain ⟨k1, k2, k3, k4, k5⟩ := ghostMovement_keeps rnd i ghost s s2 hm
      obtain ⟨f1, f2, f3, f4, f5⟩ := hf
      have hf2 : FreshFrom (i + 1) s2 := by
        refine ⟨by rw [k1, f1], by rw [k2, f2], by rw [k3, f3], by rw [k3, f4], ?_⟩
        intro j g hj hgj
        rw [k4 j (by omega)] at hgj
        exact f5 j g (by omega) hgj
      split at h
      · cases h
        exact hf2
      · rename_i ghost1 hg1
        obtain ⟨g1, g2, g3, g4⟩ := f5 i ghost (le_refl i) hg
        obtain ⟨hr, hpos⟩ := k5 ghost1 hg1
        have hx : 398 ≤ ghost1.position.x := by
          rcases hpos with hp | hp
          · rw [hp]
            linarith
          · rw [hp]
            show 398 ≤ ghost.position.x + ghost.direction.x * ghost.speed
            rw [g2]
            linarith
        have hno : CheckCollisionCircles s2.player.position s2.player.radius
            ghost1.position ghost1.radius = false := by
          rw [k3, f3, f4, hr, g4]
          exact no_overlap_far ghost1.position hx
        rw [checkCollision_ignore file rnd fuel i ghost1 s2 (Or.inl hno)] at h
        cases h
        exact hf2

/-- The pass for ghost `i` does not lower the score unless it reinitialises the game. -/
theorem ghostBody_score (file : Option (List String)) (rnd : Nat → Nat) (fuel i : Nat)
    (base : Int) (s s1 : Game) (h : ghostBody file rnd fuel i s = .ok s1)
    (hb : base ≤ s.score) : base ≤ s1.score ∨ FreshFrom (i + 1) s1 := by
  unfold ghostBody at h
  split at h
  · cases h
    exact Or.inl hb
  · rename_i ghost hg
    split at h
    · cases h
    · rename_i s2 hm
      obtain ⟨k1, _, _, _, _⟩ := ghostMovement_keeps rnd i ghost s s2 hm
      have hb2 : base ≤ s2.score := by rw [k1]; exact hb
      split at h
      · cases h
        exact Or.inl hb2
      · rename_i ghost1 hg1
        unfold checkCollision at h
        split at h
        · split at h
          · cases h
            left
            show base ≤ s2.score + 200
            omega
          · split at h
            · simp only at h
              split at h
              · cases h
                exact Or.inl hb2
              · exact Or.inr (freshFrom_init file rnd fuel _ s1 h (i + 1))
            · cases h
              exact Or.inl hb2
        · cases h
          exact Or.inl hb2

theorem ghostLoop_score (file : Option (List String)) (rnd : Nat → Nat) (fuel : Nat)
    (base : Int) (count i : Nat) (s s1 : Game)
    (h : ghostLoop file rnd fuel count i s = .ok s1)
    (hb : base ≤ s.score ∨ FreshFrom i s) :
    base ≤ s1.score ∨ (s1.score = 0 ∧ s1.playerLives = 3) := by
  induction count generalizing i s with
  | zero =>
    unfold ghostLoop at h
    cases h
    rcases hb with hb | hf
    · exact Or.inl hb
    · exact Or.inr ⟨hf.1, hf.2.1⟩
  | succ count ih =>
    unfold ghostLoop at h
    split at h
    · cases h
    · rename_i s2 hbody
      apply ih (i + 1) s2 h
      rcases hb with hb | hf
      · exact ghostBody_score file rnd fuel i base s s2 hbody hb
      · exact Or.inr (ghostBody_fresh file rnd fuel i s s2 hbody hf)

/-- The score before the extra-life stage: not below the score at the start of the frame,
unless the game was reinitialised, and then it is 0 with three lives. -/
theorem updateBeforeExtraLife_score (file : Option (List String)) (rnd : Nat → Nat)
    (fuel : Nat) (inp : Input) (s t : Game)
    (h : updateBeforeExtraLife file rnd fuel inp s = .ok t) :
    s.score ≤ t.score ∨ (t.score = 0 ∧ t.playerLives = 3) := by
  unfold updateBeforeExtraLife at h
  split at h
  · cases h
  · rename_i s1 hmove
    simp only at h
    split at h
    · cases h
    · rename_i s3 hloop
      split at h
      · cases h
      · rename_i s4 hstar
        cases h
        have h1 : s.score ≤ s1.score := playerMovement_score (playerInput inp s) s1 hmove
        have h2 : s.score ≤ (updatePowerUp inp.frameTime s1).score := by
          rw [updatePowerUp_score]
          exact h1
        have h3 := ghostLoop_score file rnd fuel s.score _ 0 _ s3 hloop (Or.inl h2)
        obtain ⟨_, _, a3, a4⟩ := starSpawning_frame rnd inp.frameTime s3 s4 hstar
        obtain ⟨_, _, b3, b4⟩ := updateCenterBoxSymbols_frame rnd inp.frameTime s4
        rw [b3, b4, a3, a4]
        exact h3

theorem runFrames_reachable (file : Option (List String)) (rnd : Nat → Nat) (fuel : Nat)
    (inputs : List Input) (s s1 : Game) (hs : Reachable file rnd s)
    (h : runFrames file rnd fuel inputs s = .ok s1) : Reachable file rnd s1 := by
  induction inputs generalizing s with
  | nil =>
    unfold runFrames at h
    cases h
    exact hs
  | cons inp rest ih =>
    unfold runFrames at h
    split at h
    · cases h
    · rename_i s2 hstep
      exact ih s2 (Reachable.frame fuel inp s s2 hs hstep) h

theorem updateGame_of_before (file : Option (List String)) (rnd : Nat → Nat) (fuel : Nat)
    (inp : Input) (s t : Game) (h : updateBeforeExtraLife file rnd fuel inp s = .ok t) :
    UpdateGame file rnd fuel inp s = .ok (extraLife t) := by
  unfold UpdateGame
  rw [h]

theorem extraLife_score (t : Game) :
    (extraLifeFires t →
      (extraLife t).score = t.score - 10000 ∧ (extraLife t).playerLives = t.playerLives + 1)
    ∧ (¬ extraLifeFires t →
      (extraLife t).score = t.score ∧ (extraLife t).playerLives = t.playerLives) := by
  unfold extraLife extraLifeFires
  constructor
  · intro h
    rw [if_pos h]
    exact ⟨rfl, rfl⟩
  · intro h
    rw [if_neg h]
    exact ⟨rfl, rfl⟩


/-! ## The recorded game, leg by leg -/

theorem Game.sameAs_eq {a b : Game} (h : a.sameAs b = true) : a = b := by
  unfold Game.sameAs at h
  simp only [Bool.and_eq_true, decide_eq_true_eq, List.all_eq_true] at h
  obtain ⟨⟨⟨⟨⟨⟨⟨⟨h1, h2⟩, h3⟩, h4⟩, h5⟩, h6⟩, h7⟩, h8⟩, h9⟩ := h
  have hmap : a.map = b.map := by
    apply Grid.ext_tiles
    intro r c
    exact h9 r (List.mem_finRange r) c (List.mem_finRange c)
  cases a
  cases b
  simp only at h1 h2 h3 h4 h5 h6 h7 h8 hmap
  subst h1 h2 h3 h4 h5 h6 h7 h8 hmap
  rfl

/-- A leg that ends in the next checkpoint carries reachability over. -/
theorem reachable_leg (file : Option (List String)) (rnd : Nat → Nat) (fuel : Nat)
    (inputs : List Input) (s s1 : Game) (hs : Reachable file rnd s)
    (h : endsWith (runFrames file rnd fuel inputs s) (fun u => u.sameAs s1) = true) :
    Reachable file rnd s1 := by
  obtain ⟨u, hu, hsame⟩ := endsWith_elim h
  have := Game.sameAs_eq hsame
  subst this
  exact runFrames_reachable file rnd fuel inputs s u hs hu

set_option maxRecDepth 100000 in
theorem checkpoint_init :
    endsWith (InitGame maizeFile sampleRnd 50 Game.initial) (fun u => u.sameAs (checkpoint 0))
      = true := by decide!

set_option maxRecDepth 1000000 in
theorem checkpoint_leg_0 :
    endsWith (runFrames maizeFile sampleRnd 50 (leg 0) (checkpoint 0))
      (fun u => u.sameAs (checkpoint 1)) = true := by decide!

set_option maxRecDepth 1000000 in
theorem checkpoint_leg_1 :
    endsWith (runFrames maizeFile sampleRnd 50 (leg 1) (checkpoint 1))
      (fun u => u.sameAs (checkpoint 2)) = true := by decide!

set_option maxRecDepth 1000000 in
theorem checkpoint_leg_2 :
    endsWith (runFrames maizeFile sampleRnd 50 (leg 2) (checkpoint 2))
      (fun u => u.sameAs (checkpoint 3)) = true := by decide!

set_option maxRecDepth 1000000 in
theorem checkpoint_leg_3 :
    endsWith (runFrames maizeFile sampleRnd 50 (leg 3) (checkpoint 3))
      (fun u => u.sameAs (checkpoint 4)) = true := by decide!

set_option maxRecDepth 1000000 in
theorem checkpoint_leg_4 :
    endsWith (runFrames maizeFile sampleRnd 50 (leg 4) (checkpoint 4))
      (fun u => u.sameAs (checkpoint 5)) = true := by decide!

set_option maxRecDepth 1000000 in
theorem checkpoint_leg_5 :
    endsWith (runFrames maizeFile sampleRnd 50 (leg 5) (checkpoint 5))
      (fun u => u.sameAs (checkpoint 6)) = true := by decide!

set_option maxRecDepth 1000000 in
theorem checkpoint_leg_6 :
    endsWith (runFrames maizeFile sampleRnd 50 (leg 6) (checkpoint 6))
      (fun u => u.sameAs (checkpoint 7)) = true := by decide!

set_option maxRecDepth 1000000 in
theorem checkpoint_leg_7 :
    endsWith (runFrames maizeFile sampleRnd 50 (leg 7) (checkpoint 7))
      (fun u => u.sameAs (checkpoint 8)) = true := by decide!

set_option maxRecDepth 1000000 in
theorem checkpoint_leg_8 :
    endsWith (runFrames maizeFile sampleRnd 50 (leg 8) (checkpoint 8))
      (fun u => u.sameAs (checkpoint 9)) = true := by decide!

set_option maxRecDepth 1000000 in
theorem checkpoint_leg_9 :
    endsWith (runFrames maizeFile sampleRnd 50 (leg 9) (checkpoint 9))
      (fun u => u.sameAs (checkpoint 10)) = true := by decide!

set_option maxRecDepth 1000000 in
theorem checkpoint_leg_10 :
    endsWith (runFrames maizeFile sampleRnd 50 (leg 10) (checkpoint 10))
      (fun u => u.sameAs (checkpoint 11)) = true := by decide!

set_option maxRecDepth 1000000 in
theorem checkpoint_leg_11 :
    endsWith (runFrames maizeFile sampleRnd 50 (leg 11) (checkpoint 11))
      (fun u => u.sameAs (checkpoint 12)) = true := by decide!

theorem checkpoint_reachable_0 : Reachable maizeFile sampleRnd (checkpoint 0) := by
  obtain ⟨u, hu, hsame⟩ := endsWith_elim checkpoint_init
  have := Game.sameAs_eq hsame
  subst this
  exact Reachable.init 50 _ hu

theorem checkpoint_reachable_1 : Reachable maizeFile sampleRnd (checkpoint 1) :=
  reachable_leg _ _ 50 (leg 0) _ _ checkpoint_reachable_0 checkpoint_leg_0

theorem checkpoint_reachable_2 : Reachable maizeFile sampleRnd (checkpoint 2) :=
  reachable_leg _ _ 50 (leg 1) _ _ checkpoint_reachable_1 checkpoint_leg_1

theorem checkpoint_reachable_3 : Reachable maizeFile sampleRnd (checkpoint 3) :=
  reachable_leg _ _ 50 (leg 2) _ _ checkpoint_reachable_2 checkpoint_leg_2

theorem checkpoint_reachable_4 : Reachable maizeFile sampleRnd (checkpoint 4) :=
  reachable_leg _ _ 50 (leg 3) _ _ checkpoint_reachable_3 checkpoint_leg_3

theorem checkpoint_reachable_5 : Reachable maizeFile sampleRnd (checkpoint 5) :=
  reachable_leg _ _ 50 (leg 4) _ _ checkpoint_reachable_4 checkpoint_leg_4

theorem checkpoint_reachable_6 : Reachable maizeFile sampleRnd (checkpoint 6) :=
  reachable_leg _ _ 50 (leg 5) _ _ checkpoint_reachable_5 checkpoint_leg_5

theorem checkpoint_reachable_7 : Reachable maizeFile sampleRnd (checkpoint 7) :=
  reachable_leg _ _ 50 (leg 6) _ _ checkpoint_reachable_6 checkpoint_leg_6

theorem checkpoint_reachable_8 : Reachable maizeFile sampleRnd (checkpoint 8) :=
  reachable_leg _ _ 50 (leg 7) _ _ checkpoint_reachable_7 checkpoint_leg_7

theorem checkpoint_reachable_9 : Reachable maizeFile sampleRnd (checkpoint 9) :=
  reachable_leg _ _ 50 (leg 8) _ _ checkpoint_reachable_8 checkpoint_leg_8

theorem checkpoint_reachable_10 : Reachable maizeFile sampleRnd (checkpoint 10) :=
  reachable_leg _ _ 50 (leg 9) _ _ checkpoint_reachable_9 checkpoint_leg_9

theorem checkpoint_reachable_11 : Reachable maizeFile sampleRnd (checkpoint 11) :=
  reachable_leg _ _ 50 (leg 10) _ _ checkpoint_reachable_10 checkpoint_leg_10

theorem checkpoint_reachable_12 : Reachable maizeFile sampleRnd (checkpoint 12) :=
  reachable_leg _ _ 50 (leg 11) _ _ checkpoint_reachable_11 checkpoint_leg_11

/-! ## Truncation and the bounds check -/

theorem floatToInt_eq (q : ℚ) : floatToInt q = if 0 ≤ q then ⌊q⌋ else ⌈q⌉ := by
  unfold floatToInt
  by_cases h : 0 ≤ q
  · rw [if_pos h, Int.tdiv_eq_ediv (Rat.num_nonneg.mpr h) (Int.ofNat_nonneg _), Rat.floor_def]
  · rw [if_neg h]
    have hq : 0 ≤ -q := by linarith
    have h1 : ⌈q⌉ = -⌊-q⌋ := by rw [Int.floor_neg, neg_neg]
    rw [h1, Rat.floor_def, Rat.neg_num, Rat.neg_den]
    have h2 : (0 : Int) ≤ -q.num := by
      have := Rat.num_nonneg.mpr hq
      rwa [Rat.neg_num] at this
    rw [← Int.tdiv_eq_ediv h2 (Int.ofNat_nonneg _), Int.neg_tdiv, neg_neg]

theorem floatToInt_nonneg_iff (q : ℚ) : 0 ≤ floatToInt q ↔ -1 < q := by
  rw [floatToInt_eq]
  by_cases h : 0 ≤ q
  · rw [if_pos h]
    constructor
    · intro _
      linarith
    · intro _
      exact Int.floor_nonneg.mpr h
  · rw [if_neg h]
    rw [Int.le_ceil_iff]
    simp

theorem floatToInt_lt_iff (q : ℚ) (n : Int) (hn : 0 < n) : floatToInt q < n ↔ q < n := by
  rw [floatToInt_eq]
  by_cases h : 0 ≤ q
  · rw [if_pos h, Int.floor_lt]
  · rw [if_neg h]
    have hq : q < 0 := not_le.mp h
    have hn1 : (0 : ℚ) < (n : ℚ) := by exact_mod_cast hn
    constructor
    · intro _
      linarith
    · intro _
      have : ⌈q⌉ ≤ 0 := Int.ceil_le.mpr (by simpa using le_of_lt hq)
      omega

theorem floatToInt_zero_of_neg (q : ℚ) (h1 : -1 < q) (h2 : q < 0) : floatToInt q = 0 := by
  have ha := (floatToInt_nonneg_iff q).mpr h1
  have hb : floatToInt q < 1 := (floatToInt_lt_iff q 1 (by decide)).mpr (by
    have : ((1 : Int) : ℚ) = 1 := by norm_num
    rw [this]
    linarith)
  omega

theorem cellX_bounds (pos : Vector2) :
    (cellX pos ≥ 0 ∧ cellX pos < mapWidth) ↔ (-40 < pos.x ∧ pos.x < 800) := by
  unfold cellX
  rw [ge_iff_le, floatToInt_nonneg_iff, floatToInt_lt_iff _ _ (by decide)]
  have h40 : ((tileSize : Int) : ℚ) = 40 := by norm_num
  have h20 : (((mapWidth : Nat) : Int) : ℚ) = 20 := by norm_num
  rw [h40, h20, lt_div_iff₀ (by norm_num), div_lt_iff₀ (by norm_num)]
  constructor
  · rintro ⟨a, b⟩
    constructor <;> linarith
  · rintro ⟨a, b⟩
    constructor <;> linarith

theorem cellY_bounds (pos : Vector2) :
    (cellY pos ≥ 0 ∧ cellY pos < mapHeight) ↔ (-40 < pos.y ∧ pos.y < 600) := by
  unfold cellY
  rw [ge_iff_le, floatToInt_nonneg_iff, floatToInt_lt_iff _ _ (by decide)]
  have h40 : ((tileSize : Int) : ℚ) = 40 := by norm_num
  have h15 : (((mapHeight : Nat) : Int) : ℚ) = 15 := by norm_num
  rw [h40, h15, lt_div_iff₀ (by norm_num), div_lt_iff₀ (by norm_num)]
  constructor
  · rintro ⟨a, b⟩
    constructor <;> linarith
  · rintro ⟨a, b⟩
    constructor <;> linarith

theorem cellInBounds_iff (pos : Vector2) : cellInBounds pos ↔ withinField pos := by
  unfold cellInBounds withinField
  rw [← and_assoc, cellX_bounds, cellY_bounds, and_assoc]

theorem cellX_zero (pos : Vector2) (h1 : -40 < pos.x) (h2 : pos.x < 0) : cellX pos = 0 := by
  unfold cellX
  apply floatToInt_zero_of_neg
  · have h40 : ((tileSize : Int) : ℚ) = 40 := by norm_num
    rw [h40, lt_div_iff₀ (by norm_num)]
    linarith
  · have h40 : ((tileSize : Int) : ℚ) = 40 := by norm_num
    rw [h40, div_lt_iff₀ (by norm_num)]
    linarith

theorem cellY_zero (pos : Vector2) (h1 : -40 < pos.y) (h2 : pos.y < 0) : cellY pos = 0 := by
  unfold cellY
  apply floatToInt_zero_of_neg
  · have h40 : ((tileSize : Int) : ℚ) = 40 := by norm_num
    rw [h40, lt_div_iff₀ (by norm_num)]
    linarith
  · have h40 : ((tileSize : Int) : ℚ) = 40 := by norm_num
    rw [h40, div_lt_iff₀ (by norm_num)]
    linarith

theorem cellInBounds_inBounds (pos : Vector2) :
    cellInBounds pos ↔ inBounds (cellY pos) (cellX pos) := by
  unfold cellInBounds inBounds
  constructor
  · rintro ⟨a, b, c, d⟩
    exact ⟨c, d, a, b⟩
  · rintro ⟨a, b, c, d⟩
    exact ⟨c, d, a, b⟩

/-! ## The movement stages, case by case -/

theorem collectItems_total (r : Fin mapHeight) (c : Fin mapWidth) (t : TileType) (s : Game) :
    ∃ s1, collectItems ((r : Nat) : Int) ((c : Nat) : Int) t s = .ok s1
      ∧ s1.player.position = s.player.position
      ∧ s1.playerLives = s.playerLives
      ∧ s1.ghosts.length = s.ghosts.length := by
  cases t <;> unfold collectItems <;> simp only [Grid.write_fin]
  · exact ⟨_, rfl, rfl, rfl, rfl⟩
  · exact ⟨_, rfl, rfl, rfl, rfl⟩
  · by_cases hp : s.player.isPoweredUp = true
    · rw [if_pos hp]
      exact ⟨_, rfl, rfl, rfl, rfl⟩
    · rw [if_neg hp]
      exact ⟨_, rfl, rfl, rfl, rfl⟩
  · exact ⟨_, rfl, rfl, rfl, rfl⟩
  · exact ⟨_, rfl, rfl, rfl, rfl⟩
  · exact ⟨_, rfl, rfl, rfl, by simp [makeVulnerable]⟩
  · obtain ⟨bonus, hb, _⟩ := starBonus_total s.centerBoxSymbols (s.map.set r c .EMPTY)
    rw [hb]
    exact ⟨_, rfl, rfl, rfl, rfl⟩
  · exact ⟨_, rfl, rfl, rfl, by simp [makeFlattened]⟩
  · exact ⟨_, rfl, rfl, rfl, rfl⟩

theorem playerMovement_total (s : Game) :
    ∃ s1, playerMovement s = .ok s1
      ∧ s1.playerLives = s.playerLives
      ∧ s1.ghosts.length = s.ghosts.length
      ∧ (s1.player.position = s.player.position
          ∨ (s1.player.position = candidate s.player ∧ cellInBounds (candidate s.player))) := by
  by_cases hb : inBounds (cellY (candidate s.player)) (cellX (candidate s.player))
  · obtain ⟨r, c, hr, hc⟩ := inBounds_exists hb
    rw [playerMovement_at s r c hr hc]
    by_cases hp : playerPassable (s.map.tile r c) s.player.isPoweredUp = true
    · rw [if_pos hp]
      obtain ⟨s1, h1, h2, h3, h4⟩ := collectItems_total r c (s.map.tile r c)
        { s with player := { s.player with position := candidate s.player } }
      exact ⟨s1, h1, h3, h4, Or.inr ⟨h2, (cellInBounds_inBounds _).mpr hb⟩⟩
    · rw [if_neg hp]
      exact ⟨s, rfl, rfl, rfl, Or.inl rfl⟩
  · rw [playerMovement_outside s hb]
    exact ⟨s, rfl, rfl, rfl, Or.inl rfl⟩

theorem ghostMovement_enter (rnd : Nat → Nat) (i : Nat) (ghost : Entity) (s : Game)
    (h : ghostMayEnter s.map (candidate ghost)) :
    ghostMovement rnd i ghost s = .ok (ghostCommitted i ghost s) := by
  obtain ⟨hb, hw, hd⟩ := h
  have hb1 := hb
  unfold cellInBounds at hb1
  obtain ⟨r, c, hr, hc⟩ := inBounds_exists ((cellInBounds_inBounds _).mp hb)
  rw [hr, hc, Grid.get?_fin] at hw hd
  unfold ghostMovement
  simp only
  rw [if_pos hb1, hr, hc, Grid.read_fin]
  simp only
  rw [if_pos ⟨fun e => hw (by rw [e]), fun e => hd (by rw [e])⟩]
  rfl

theorem ghostMovement_stay (rnd : Nat → Nat) (i : Nat) (ghost : Entity) (s : Game)
    (h : ¬ ghostMayEnter s.map (candidate ghost)) :
    ghostMovement rnd i ghost s = .ok (ghostRejected rnd i ghost s) := by
  unfold ghostMovement
  simp only
  by_cases hb : cellInBounds (candidate ghost)
  · have hb1 := hb
    unfold cellInBounds at hb1
    obtain ⟨r, c, hr, hc⟩ := inBounds_exists ((cellInBounds_inBounds _).mp hb)
    rw [if_pos hb1, hr, hc, Grid.read_fin]
    simp only
    have hn : ¬ (s.map.tile r c ≠ .WALL ∧ s.map.tile r c ≠ .DOOR) := by
      rintro ⟨hw, hd⟩
      apply h
      refine ⟨hb, ?_, ?_⟩
      · rw [hr, hc, Grid.get?_fin]
        exact fun e => hw (Option.some.inj e)
      · rw [hr, hc, Grid.get?_fin]
        exact fun e => hd (Option.some.inj e)
    rw [if_neg hn]
    rfl
  · have hb1 := hb
    unfold cellInBounds at hb1
    rw [if_neg hb1]
    rfl

theorem getRandomValue_bit (rnd : Nat → Nat) (n : Nat) :
    GetRandomValue rnd n 0 1 = 0 ∨ GetRandomValue rnd n 0 1 = 1 := by
  obtain ⟨h1, h2⟩ := getRandomValue_range rnd n 0 1 (by decide)
  omega

theorem rerollDirection_table (rnd : Nat → Nat) (n : Nat) :
    (GetRandomValue rnd n 0 1 = 0 → GetRandomValue rnd (n + 1) 0 1 = 0 →
        rerollDirection rnd n = ⟨-1, 0⟩)
    ∧ (GetRandomValue rnd n 0 1 = 0 → GetRandomValue rnd (n + 1) 0 1 = 1 →
        rerollDirection rnd n = ⟨1, 0⟩)
    ∧ (GetRandomValue rnd n 0 1 = 1 → GetRandomValue rnd (n + 1) 0 1 = 0 →
        rerollDirection rnd n = ⟨0, -1⟩)
    ∧ (GetRandomValue rnd n 0 1 = 1 → GetRandomValue rnd (n + 1) 0 1 = 1 →
        rerollDirection rnd n = ⟨0, 1⟩) := by
  refine ⟨?_, ?_, ?_, ?_⟩ <;> intro h1 h2 <;> unfold rerollDirection <;> rw [h1, h2] <;>
    norm_num

theorem rerollDirection_axis (rnd : Nat → Nat) (n : Nat) : AxisUnit (rerollDirection rnd n) := by
  obtain ⟨t1, t2, t3, t4⟩ := rerollDirection_table rnd n
  unfold AxisUnit
  rcases getRandomValue_bit rnd n with h1 | h1 <;>
    rcases getRandomValue_bit rnd (n + 1) with h2 | h2
  · exact Or.inr (Or.inl (t1 h1 h2))
  · exact Or.inl (t2 h1 h2)
  · exact Or.inr (Or.inr (Or.inr (t3 h1 h2)))
  · exact Or.inr (Or.inr (Or.inl (t4 h1 h2)))

theorem randomHorizontal_axis (rnd : Nat → Nat) (n : Nat) : AxisUnit (randomHorizontal rnd n) := by
  unfold AxisUnit randomHorizontal
  rcases getRandomValue_bit rnd n with h | h <;> rw [h]
  · right; left; norm_num
  · left; norm_num


/-! ## InitGame: the seeding loop and the fixed cells -/

theorem seed_draw (rnd : Nat → Nat) (n : Nat) :
    ∃ (r : Fin mapHeight) (c : Fin mapWidth),
      GetRandomValue rnd (n + 1) 1 ((mapHeight : Int) - 2) = ((r : Nat) : Int)
        ∧ GetRandomValue rnd n 1 ((mapWidth : Int) - 2) = ((c : Nat) : Int)
        ∧ Seedable r c := by
  obtain ⟨hx1, hx2⟩ := getRandomValue_range rnd n 1 ((mapWidth : Int) - 2) (by decide)
  obtain ⟨hy1, hy2⟩ := getRandomValue_range rnd (n + 1) 1 ((mapHeight : Int) - 2) (by decide)
  have e1 : ((mapWidth : Nat) : Int) - 2 = 18 := by decide
  have e2 : ((mapHeight : Nat) : Int) - 2 = 13 := by decide
  generalize GetRandomValue rnd n 1 ((mapWidth : Int) - 2) = x at hx1 hx2 ⊢
  generalize GetRandomValue rnd (n + 1) 1 ((mapHeight : Int) - 2) = y at hy1 hy2 ⊢
  rw [e1] at hx2
  rw [e2] at hy2
  have hb : inBounds y x := by
    unfold inBounds
    simp only [Nat.cast_ofNat]
    omega
  obtain ⟨r, c, hr, hc⟩ := inBounds_exists hb
  refine ⟨r, c, hr, hc, ?_⟩
  rw [hr] at hy1 hy2
  rw [hc] at hx1 hx2
  unfold Seedable
  omega

theorem seedSuperPellets_zero (rnd : Nat → Nat) (count n : Nat) (g : Grid) :
    seedSuperPellets rnd 0 count n g
      = if count < 2 then .error .outOfFuel else .ok (g, n) := rfl

theorem seedSuperPellets_succ (rnd : Nat → Nat) (fuel count n : Nat) (g : Grid) :
    seedSuperPellets rnd (fuel + 1) count n g
      = if count < 2 then
          match g.read (GetRandomValue rnd (n + 1) 1 ((mapHeight : Int) - 2))
              (GetRandomValue rnd n 1 ((mapWidth : Int) - 2)) with
          | .error e => .error e
          | .ok t =>
            if t = .EMPTY then
              match g.write (GetRandomValue rnd (n + 1) 1 ((mapHeight : Int) - 2))
                  (GetRandomValue rnd n 1 ((mapWidth : Int) - 2)) .SUPER_PELLET with
              | .error e => .error e
              | .ok g1 => seedSuperPellets rnd fuel (count + 1) (n + 2) g1
            else seedSuperPellets rnd fuel count (n + 2) g
        else .ok (g, n) := rfl

theorem seedSuperPellets_done (rnd : Nat → Nat) (fuel count n : Nat) (g : Grid)
    (h : 2 ≤ count) : seedSuperPellets rnd fuel count n g = .ok (g, n) := by
  cases fuel
  · rw [seedSuperPellets_zero, if_neg (by omega)]
  · rw [seedSuperPellets_succ, if_neg (by omega)]

theorem seedSuperPellets_one (rnd : Nat → Nat) (fuel : Nat) :
    ∀ (n : Nat) (g : Grid),
      seedSuperPellets rnd fuel 1 n g = .error .outOfFuel
        ∨ ∃ (r : Fin mapHeight) (c : Fin mapWidth) (n1 : Nat),
            Seedable r c ∧ g.tile r c = .EMPTY
              ∧ seedSuperPellets rnd fuel 1 n g = .ok (g.set r c .SUPER_PELLET, n1) := by
  induction fuel with
  | zero =>
    intro n g
    left
    rw [seedSuperPellets_zero, if_pos (by decide)]
  | succ fuel ih =>
    intro n g
    obtain ⟨r, c, hr, hc, hs⟩ := seed_draw rnd n
    rw [seedSuperPellets_succ, if_pos (by decide), hr, hc, Grid.read_fin]
    simp only
    by_cases he : g.tile r c = .EMPTY
    · rw [if_pos he, Grid.write_fin]
      simp only
      right
      exact ⟨r, c, n + 2, hs, he, seedSuperPellets_done rnd fuel 2 (n + 2) _ (by decide)⟩
    · rw [if_neg he]
      exact ih (n + 2) g

theorem seedSuperPellets_two (rnd : Nat → Nat) (fuel : Nat) :
    ∀ (n : Nat) (g : Grid),
      seedSuperPellets rnd fuel 0 n g = .error .outOfFuel
        ∨ ∃ (r1 r2 : Fin mapHeight) (c1 c2 : Fin mapWidth) (n1 : Nat),
            Seedable r1 c1 ∧ Seedable r2 c2 ∧ ¬ (r2 = r1 ∧ c2 = c1)
              ∧ g.tile r1 c1 = .EMPTY ∧ g.tile r2 c2 = .EMPTY
              ∧ seedSuperPellets rnd fuel 0 n g
                  = .ok ((g.set r1 c1 .SUPER_PELLET).set r2 c2 .SUPER_PELLET, n1) := by
  induction fuel with
  | zero =>
    intro n g
    left
    rw [seedSuperPellets_zero, if_pos (by decide)]
  | succ fuel ih =>
    intro n g
    obtain ⟨r, c, hr, hc, hs⟩ := seed_draw rnd n
    rw [seedSuperPellets_succ, if_pos (by decide), hr, hc, Grid.read_fin]
    simp only
    by_cases he : g.tile r c = .EMPTY
    · rw [if_pos he, Grid.write_fin]
      simp only
      rcases seedSuperPellets_one rnd fuel (n + 2) (g.set r c .SUPER_PELLET) with h | h
      · left
        exact h
      · right
        obtain ⟨r2, c2, n1, hs2, he2, h2⟩ := h
        have hne : ¬ (r2 = r ∧ c2 = c) := by
          rintro ⟨rfl, rfl⟩
          rw [Grid.set_same] at he2
          cases he2
        rw [Grid.set_other _ _ _ _ _ _ hne] at he2
        exact ⟨r, r2, c, c2, n1, hs, hs2, hne, he, he2, h2⟩
    · rw [if_neg he]
      exact ih (n + 2) g

theorem placeFruitAndDoors_eq (g : Grid) :
    placeFruitAndDoors g = .ok (((g.set 7 9 .DOOR).set 7 10 .FRUIT).set 7 11 .DOOR) := by
  have h1 : g.write 7 9 .DOOR = .ok (g.set 7 9 .DOOR) := Grid.write_fin g 7 9 .DOOR
  have h2 : (g.set 7 9 .DOOR).write 7 10 .FRUIT = .ok ((g.set 7 9 .DOOR).set 7 10 .FRUIT) :=
    Grid.write_fin _ 7 10 .FRUIT
  have h3 : ((g.set 7 9 .DOOR).set 7 10 .FRUIT).write 7 11 .DOOR
      = .ok (((g.set 7 9 .DOOR).set 7 10 .FRUIT).set 7 11 .DOOR) := Grid.write_fin _ 7 11 .DOOR
  unfold placeFruitAndDoors
  rw [h1]
  simp only
  rw [h2]
  simp only
  rw [h3]

theorem placeFruitAndDoors_tiles (g : Grid) (r : Fin mapHeight) (c : Fin mapWidth) :
    (((g.set 7 9 .DOOR).set 7 10 .FRUIT).set 7 11 .DOOR).tile r c
      = if r = 7 ∧ c = 9 then .DOOR
        else if r = 7 ∧ c = 10 then .FRUIT
        else if r = 7 ∧ c = 11 then .DOOR
        else g.tile r c := by
  unfold Grid.set
  simp only
  by_cases h11 : r = 7 ∧ c = 11
  · obtain ⟨rfl, rfl⟩ := h11
    simp
  · rw [if_neg h11, if_neg h11]
    by_cases h10 : r = 7 ∧ c = 10
    · obtain ⟨rfl, rfl⟩ := h10
      simp
    · rw [if_neg h10, if_neg h10]

theorem LoadMapFromFile_total (file : Option (List String)) (g : Grid) :
    ∃ g0, LoadMapFromFile file g = .ok g0 := by
  cases file with
  | none => exact ⟨g, rfl⟩
  | some lines => exact ⟨_, LoadMapFromFile_lines lines g⟩

theorem setUpGame_cases (rnd : Nat → Nat) (fuel : Nat) (s : Game) (g0 : Grid) :
    setUpGame rnd fuel s g0 = .error .outOfFuel
      ∨ ∃ (r1 r2 : Fin mapHeight) (c1 c2 : Fin mapWidth) (s1 : Game),
          Seedable r1 c1 ∧ Seedable r2 c2 ∧ ¬ (r2 = r1 ∧ c2 = c1)
            ∧ g0.tile r1 c1 = .EMPTY ∧ g0.tile r2 c2 = .EMPTY
            ∧ setUpGame rnd fuel s g0 = .ok s1
            ∧ s1.map = ((((g0.set r1 c1 .SUPER_PELLET).set r2 c2 .SUPER_PELLET).set 7 9
                .DOOR).set 7 10 .FRUIT).set 7 11 .DOOR
            ∧ seedSuperPellets rnd fuel 0 (s.randomCalls + 6) g0
                = .ok ((g0.set r1 c1 .SUPER_PELLET).set r2 c2 .SUPER_PELLET,
                    s1.randomCalls) := by
  unfold setUpGame
  simp only
  rcases seedSuperPellets_two rnd fuel (s.randomCalls + 6) g0 with h | h
  · left
    rw [h]
  · right
    obtain ⟨r1, r2, c1, c2, n1, hs1, hs2, hne, he1, he2, h⟩ := h
    rw [h]
    simp only
    rw [placeFruitAndDoors_eq]
    exact ⟨r1, r2, c1, c2, _, hs1, hs2, hne, he1, he2, rfl, rfl, rfl⟩

theorem initGame_map (file : Option (List String)) (rnd : Nat → Nat) (fuel : Nat)
    (s s1 : Game) (g0 : Grid) (hload : LoadMapFromFile file s.map = .ok g0)
    (h : InitGame file rnd fuel s = .ok s1) :
    ∃ (r1 r2 : Fin mapHeight) (c1 c2 : Fin mapWidth),
      Seedable r1 c1 ∧ Seedable r2 c2 ∧ ¬ (r2 = r1 ∧ c2 = c1)
        ∧ g0.tile r1 c1 = .EMPTY ∧ g0.tile r2 c2 = .EMPTY
        ∧ s1.map = ((((g0.set r1 c1 .SUPER_PELLET).set r2 c2 .SUPER_PELLET).set 7 9
            .DOOR).set 7 10 .FRUIT).set 7 11 .DOOR
        ∧ seedSuperPellets rnd fuel 0 (s.randomCalls + 6) g0
            = .ok ((g0.set r1 c1 .SUPER_PELLET).set r2 c2 .SUPER_PELLET, s1.randomCalls) := by
  unfold InitGame at h
  rw [hload] at h
  simp only at h
  rcases setUpGame_cases rnd fuel s g0 with
    e | ⟨r1, r2, c1, c2, s2, hs1, hs2, hne, he1, he2, e, hm, hseed⟩
  · rw [e] at h
    cases h
  · rw [e] at h
    cases h
    exact ⟨r1, r2, c1, c2, hs1, hs2, hne, he1, he2, hm, hseed⟩

theorem initGame_fields (file : Option (List String)) (rnd : Nat → Nat) (fuel : Nat)
    (s s1 : Game) (h : InitGame file rnd fuel s = .ok s1) :
    s1.starTimer = 0 ∧ s1.symbolChangeTimer = 0
      ∧ s1.centerBoxSymbols
          = (GetRandomValue rnd (s.randomCalls + 4) 0 (numSymbols - 1),
             GetRandomValue rnd (s.randomCalls + 5) 0 (numSymbols - 1))
      ∧ s1.player.direction = ⟨1, 0⟩
      ∧ s1.player.startPosition = ⟨60, 60⟩ := by
  unfold InitGame at h
  split at h
  · cases h
  · unfold setUpGame at h
    simp only at h
    split at h
    · cases h
    · split at h
      · cases h
      · cases h
        refine ⟨rfl, rfl, rfl, rfl, ?_⟩
        show (⟨(tileSize : ℚ) * (3 / 2), (tileSize : ℚ) * (3 / 2)⟩ : Vector2) = ⟨60, 60⟩
        norm_num

theorem initGame_no_outOfBounds (file : Option (List String)) (rnd : Nat → Nat) (fuel : Nat)
    (s : Game) : InitGame file rnd fuel s = .error .outOfFuel
      ∨ ∃ s1, InitGame file rnd fuel s = .ok s1 := by
  obtain ⟨g0, hload⟩ := LoadMapFromFile_total file s.map
  unfold InitGame
  rw [hload]
  simp only
  rcases setUpGame_cases rnd fuel s g0 with e | ⟨_, _, _, _, s1, _, _, _, _, _, e, _⟩
  · left
    exact e
  · right
    exact ⟨s1, e⟩

theorem newGhost_place (rnd : Nat → Nat) (n : Nat) (i : Nat) :
    (newGhost rnd n (i : Int)).position = ⟨40 * (10 + (i : ℚ)), 320⟩
      ∧ (newGhost rnd n (i : Int)).startPosition = ⟨40 * (10 + (i : ℚ)), 320⟩
      ∧ (newGhost rnd n (i : Int)).isVulnerable = false
      ∧ (newGhost rnd n (i : Int)).isFlattened = false
      ∧ AxisUnit (newGhost rnd n (i : Int)).direction := by
  refine ⟨?_, ?_, rfl, rfl, randomHorizontal_axis rnd n⟩
  · unfold newGhost
    simp only [Vector2.mk.injEq]
    push_cast
    norm_num
  · unfold newGhost
    simp only [Vector2.mk.injEq]
    push_cast
    norm_num

theorem initGame_ghosts (file : Option (List String)) (rnd : Nat → Nat) (fuel : Nat)
    (s s1 : Game) (h : InitGame file rnd fuel s = .ok s1) :
    s1.ghosts.length = 4
      ∧ ∀ (i : Nat) (ghost : Entity), s1.ghosts[i]? = some ghost →
          ghost.position = ⟨40 * (10 + (i : ℚ)), 320⟩
            ∧ ghost.startPosition = ⟨40 * (10 + (i : ℚ)), 320⟩
            ∧ ghost.isVulnerable = false ∧ ghost.isFlattened = false
            ∧ AxisUnit ghost.direction := by
  obtain ⟨_, _, _, _, _, _, hg⟩ := initGame_post file rnd fuel s s1 h
  rw [hg]
  refine ⟨rfl, ?_⟩
  intro i ghost hi
  match i, hi with
  | 0, hi =>
    cases hi
    exact newGhost_place rnd _ 0
  | 1, hi =>
    cases hi
    exact newGhost_place rnd _ 1
  | 2, hi =>
    cases hi
    exact newGhost_place rnd _ 2
  | 3, hi =>
    cases hi
    exact newGhost_place rnd _ 3
  | k + 4, hi =>
    simp at hi

theorem fixedCell_iff (r : Fin mapHeight) (c : Fin mapWidth) :
    FixedCell r c ↔ (r = 7 ∧ c = 9) ∨ (r = 7 ∧ c = 10) ∨ (r = 7 ∧ c = 11) := by
  unfold FixedCell
  simp only [Fin.ext_iff]
  constructor
  · rintro ⟨h, h9 | h10 | h11⟩
    · exact Or.inl ⟨h, h9⟩
    · exact Or.inr (Or.inl ⟨h, h10⟩)
    · exact Or.inr (Or.inr ⟨h, h11⟩)
  · rintro (⟨h, h9⟩ | ⟨h, h10⟩ | ⟨h, h11⟩)
    · exact ⟨h, Or.inl h9⟩
    · exact ⟨h, Or.inr (Or.inl h10)⟩
    · exact ⟨h, Or.inr (Or.inr h11)⟩

theorem placed_outside (g : Grid) (r : Fin mapHeight) (c : Fin mapWidth)
    (h : ¬ FixedCell r c) :
    (((g.set 7 9 .DOOR).set 7 10 .FRUIT).set 7 11 .DOOR).tile r c = g.tile r c := by
  rw [fixedCell_iff] at h
  rw [placeFruitAndDoors_tiles, if_neg (fun e => h (Or.inl e)),
    if_neg (fun e => h (Or.inr (Or.inl e))), if_neg (fun e => h (Or.inr (Or.inr e)))]

theorem placed_fixed (g : Grid) (r : Fin mapHeight) (c : Fin mapWidth) (h : FixedCell r c) :
    (((g.set 7 9 .DOOR).set 7 10 .FRUIT).set 7 11 .DOOR).tile r c ≠ .SUPER_PELLET := by
  rw [fixedCell_iff] at h
  rw [placeFruitAndDoors_tiles]
  rcases h with ⟨rfl, rfl⟩ | ⟨rfl, rfl⟩ | ⟨rfl, rfl⟩ <;> simp

theorem seeded_tiles (g : Grid) (r1 r2 r : Fin mapHeight) (c1 c2 c : Fin mapWidth) :
    ((g.set r1 c1 .SUPER_PELLET).set r2 c2 .SUPER_PELLET).tile r c
      = if (r = r1 ∧ c = c1) ∨ (r = r2 ∧ c = c2) then .SUPER_PELLET else g.tile r c := by
  unfold Grid.set
  simp only
  by_cases h2 : r = r2 ∧ c = c2
  · rw [if_pos h2, if_pos (Or.inr h2)]
  · rw [if_neg h2]
    by_cases h1 : r = r1 ∧ c = c1
    · rw [if_pos h1, if_pos (Or.inl h1)]
    · rw [if_neg h1, if_neg (by tauto)]

theorem countKind_seeded (g0 : Grid) (r1 r2 : Fin mapHeight) (c1 c2 : Fin mapWidth)
    (hne : ¬ (r2 = r1 ∧ c2 = c1))
    (he1 : g0.tile r1 c1 = .EMPTY) (he2 : g0.tile r2 c2 = .EMPTY)
    (hf1 : ¬ FixedCell r1 c1) (hf2 : ¬ FixedCell r2 c2) :
    countKind (((((g0.set r1 c1 .SUPER_PELLET).set r2 c2 .SUPER_PELLET).set 7 9
        .DOOR).set 7 10 .FRUIT).set 7 11 .DOOR) .SUPER_PELLET
      = countKindOutside g0 .SUPER_PELLET + 2 := by
  unfold countKind countKindOutside
  have hset : (Finset.univ.filter fun p : Fin mapHeight × Fin mapWidth =>
      (((((g0.set r1 c1 .SUPER_PELLET).set r2 c2 .SUPER_PELLET).set 7 9
        .DOOR).set 7 10 .FRUIT).set 7 11 .DOOR).tile p.1 p.2 = .SUPER_PELLET)
      = insert (r1, c1) (insert (r2, c2) (Finset.univ.filter
          fun p : Fin mapHeight × Fin mapWidth =>
            ¬ FixedCell p.1 p.2 ∧ g0.tile p.1 p.2 = .SUPER_PELLET)) := by
    ext ⟨r, c⟩
    simp only [Finset.mem_filter, Finset.mem_univ, true_and, Finset.mem_insert, Prod.mk.injEq]
    by_cases hf : FixedCell r c
    · have hp := placed_fixed ((g0.set r1 c1 .SUPER_PELLET).set r2 c2 .SUPER_PELLET) r c hf
      constructor
      · intro h
        exact absurd h hp
      · rintro (⟨rfl, rfl⟩ | ⟨rfl, rfl⟩ | ⟨h, _⟩)
        · exact absurd hf hf1
        · exact absurd hf hf2
        · exact absurd hf h
    · rw [placed_outside _ r c hf, seeded_tiles]
      by_cases hc : (r = r1 ∧ c = c1) ∨ (r = r2 ∧ c = c2)
      · rw [if_pos hc]
        constructor
        · intro _
          rcases hc with h | h
          · exact Or.inl h
          · exact Or.inr (Or.inl h)
        · intro _
          rfl
      · rw [if_neg hc]
        constructor
        · intro h
          exact Or.inr (Or.inr ⟨hf, h⟩)
        · rintro (h | h | ⟨_, h⟩)
          · exact absurd (Or.inl h) hc
          · exact absurd (Or.inr h) hc
          · exact h
  rw [hset, Finset.card_insert_of_not_mem, Finset.card_insert_of_not_mem]
  · simp only [Finset.mem_filter, Finset.mem_univ, true_and, not_and]
    intro _
    rw [he2]
    decide
  · simp only [Finset.mem_insert, Prod.mk.injEq, Finset.mem_filter, Finset.mem_univ, true_and,
      not_or, not_and]
    refine ⟨fun a b => hne ⟨a.symm, b.symm⟩, ?_⟩
    intro _
    rw [he1]
    decide


/-! ## No access outside the grid -/

theorem noOutOfBounds_ok {α : Type} (a : α) : NoOutOfBounds (Except.ok a : Except Fault α) := by
  intro h
  cases h

theorem initGame_safe (file : Option (List String)) (rnd : Nat → Nat) (fuel : Nat) (s : Game) :
    NoOutOfBounds (InitGame file rnd fuel s) := by
  rcases initGame_no_outOfBounds file rnd fuel s with e | ⟨s1, e⟩ <;> rw [e] <;> intro h <;>
    cases h

theorem ghostMovement_total (rnd : Nat → Nat) (i : Nat) (ghost : Entity) (s : Game) :
    ∃ s1, ghostMovement rnd i ghost s = .ok s1 := by
  by_cases h : ghostMayEnter s.map (candidate ghost)
  · exact ⟨_, ghostMovement_enter rnd i ghost s h⟩
  · exact ⟨_, ghostMovement_stay rnd i ghost s h⟩

theorem checkCollision_safe (file : Option (List String)) (rnd : Nat → Nat) (fuel i : Nat)
    (ghost : Entity) (s : Game) : NoOutOfBounds (checkCollision file rnd fuel i ghost s) := by
  unfold checkCollision
  split
  · split
    · exact noOutOfBounds_ok _
    · split
      · simp only
        split
        · exact noOutOfBounds_ok _
        · exact initGame_safe file rnd fuel _
      · exact noOutOfBounds_ok _
  · exact noOutOfBounds_ok _

theorem ghostBody_safe (file : Option (List String)) (rnd : Nat → Nat) (fuel i : Nat)
    (s : Game) : NoOutOfBounds (ghostBody file rnd fuel i s) := by
  unfold ghostBody
  split
  · exact noOutOfBounds_ok _
  · rename_i ghost _
    obtain ⟨s1, h1⟩ := ghostMovement_total rnd i ghost s
    rw [h1]
    simp only
    split
    · exact noOutOfBounds_ok _
    · exact checkCollision_safe file rnd fuel i _ s1

theorem ghostLoop_safe (file : Option (List String)) (rnd : Nat → Nat) (fuel : Nat)
    (count : Nat) : ∀ (i : Nat) (s : Game), NoOutOfBounds (ghostLoop file rnd fuel count i s) := by
  induction count with
  | zero =>
    intro i s
    unfold ghostLoop
    exact noOutOfBounds_ok _
  | succ count ih =>
    intro i s
    unfold ghostLoop
    have hb := ghostBody_safe file rnd fuel i s
    split
    · rename_i e he
      intro h
      cases h
      exact hb he
    · exact ih _ _

theorem star_draw (rnd : Nat → Nat) (n : Nat) :
    ∃ (r : Fin mapHeight) (c : Fin mapWidth),
      GetRandomValue rnd (n + 1) 6 8 = ((r : Nat) : Int)
        ∧ GetRandomValue rnd n 9 10 = ((c : Nat) : Int)
        ∧ 6 ≤ (r : Nat) ∧ (r : Nat) ≤ 8 ∧ 9 ≤ (c : Nat) ∧ (c : Nat) ≤ 10 := by
  obtain ⟨hx1, hx2⟩ := getRandomValue_range rnd n 9 10 (by decide)
  obtain ⟨hy1, hy2⟩ := getRandomValue_range rnd (n + 1) 6 8 (by decide)
  generalize GetRandomValue rnd n 9 10 = x at hx1 hx2 ⊢
  generalize GetRandomValue rnd (n + 1) 6 8 = y at hy1 hy2 ⊢
  have hb : inBounds y x := by
    unfold inBounds
    simp only [Nat.cast_ofNat]
    omega
  obtain ⟨r, c, hr, hc⟩ := inBounds_exists hb
  refine ⟨r, c, hr, hc, ?_⟩
  rw [hr] at hy1 hy2
  rw [hc] at hx1 hx2
  omega

theorem starSpawning_total (rnd : Nat → Nat) (dt : ℚ) (s : Game) :
    ∃ s1, starSpawning rnd dt s = .ok s1 := by
  unfold starSpawning
  simp only
  split
  · obtain ⟨r, c, hr, hc, _⟩ := star_draw rnd s.randomCalls
    rw [hr, hc, Grid.read_fin]
    simp only
    split
    · rw [Grid.write_fin]
      exact ⟨_, rfl⟩
    · exact ⟨_, rfl⟩
  · exact ⟨_, rfl⟩

theorem updateBeforeExtraLife_safe (file : Option (List String)) (rnd : Nat → Nat)
    (fuel : Nat) (inp : Input) (s : Game) :
    NoOutOfBounds (updateBeforeExtraLife file rnd fuel inp s) := by
  unfold updateBeforeExtraLife
  obtain ⟨s1, h1, _⟩ := playerMovement_total (playerInput inp s)
  rw [h1]
  simp only
  have hl := ghostLoop_safe file rnd fuel (updatePowerUp inp.frameTime s1).ghosts.length 0
    (updatePowerUp inp.frameTime s1)
  split
  · rename_i e he
    intro h
    cases h
    exact hl he
  · rename_i s3 _
    obtain ⟨s4, h4⟩ := starSpawning_total rnd inp.frameTime s3
    rw [h4]
    exact noOutOfBounds_ok _

theorem updateGame_safe (file : Option (List String)) (rnd : Nat → Nat) (fuel : Nat)
    (inp : Input) (s : Game) : NoOutOfBounds (UpdateGame file rnd fuel inp s) := by
  unfold UpdateGame
  have hb := updateBeforeExtraLife_safe file rnd fuel inp s
  split
  · rename_i e he
    intro h
    cases h
    exact hb he
  · exact noOutOfBounds_ok _


/-! ## The first encounter of the recorded game -/

set_option maxRecDepth 1000000 in
theorem meeting_run :
    endsWith (runFrames maizeFile sampleRnd 50
        (List.replicate 7 downKey ++ List.replicate 33 rightKey) (checkpoint 3))
      (fun u => u.sameAs meetingState) = true := by decide!

theorem meeting_reachable : Reachable maizeFile sampleRnd meetingState :=
  reachable_leg _ _ 50 (List.replicate 7 downKey ++ List.replicate 33 rightKey) _ _
    checkpoint_reachable_3 meeting_run

set_option maxRecDepth 100000 in
theorem meeting_encounter :
    EncounterAt maizeFile sampleRnd 50 rightKey meetingState 0 (traceGhost 0 154)
      meetingEncounter := by
  have h1 : endsWith (playerMovement (playerInput rightKey meetingState))
      (fun x => x.sameAs meetingMoved) = true := by decide!
  obtain ⟨s1, hs1, hsame1⟩ := endsWith_elim h1
  have e1 := Game.sameAs_eq hsame1
  subst e1
  have h2 : endsWith (ghostMovement sampleRnd 0 (traceGhost 0 (311 / 2))
      (updatePowerUp rightKey.frameTime meetingMoved))
      (fun x => x.sameAs meetingEncounter) = true := by decide!
  obtain ⟨u, hu, hsame2⟩ := endsWith_elim h2
  have e2 := Game.sameAs_eq hsame2
  subst e2
  exact ⟨_, updatePowerUp rightKey.frameTime meetingMoved, traceGhost 0 (311 / 2), hs1,
    by decide!, rfl, by decide!, hu, by decide!⟩

theorem meeting_losesLife : LosesLife (traceGhost 0 154) meetingEncounter := by
  unfold LosesLife
  decide!


/-! ## Claims about the player-movement stage -/

/-- C2. When the cell of the player's candidate position is outside the grid, holds `WALL`,
or holds `DOOR` while the player is not powered up, the player-movement stage returns the
state it was given: position, tile map, score and all mode flags are unchanged. -/
theorem blocked_move_changes_nothing (s : Game)
    (h : ¬ inBounds (cellY (candidate s.player)) (cellX (candidate s.player))
      ∨ s.map.get? (cellY (candidate s.player)) (cellX (candidate s.player)) = some .WALL
      ∨ (s.map.get? (cellY (candidate s.player)) (cellX (candidate s.player)) = some .DOOR
          ∧ s.player.isPoweredUp = false)) :
    playerMovement s = .ok s :=
  playerMovement_rejected s h

/-- Witness of C2: a player in front of a door, not powered up. -/
theorem blocked_move_changes_nothing_witness :
    ((sampleGame .DOOR false (2, 4)).map.get?
          (cellY (candidate (sampleGame .DOOR false (2, 4)).player))
          (cellX (candidate (sampleGame .DOOR false (2, 4)).player)) = some .DOOR
        ∧ (sampleGame .DOOR false (2, 4)).player.isPoweredUp = false)
      ∧ playerMovement (sampleGame .DOOR false (2, 4)) = .ok (sampleGame .DOOR false (2, 4)) :=
  have h : (sampleGame .DOOR false (2, 4)).map.get?
          (cellY (candidate (sampleGame .DOOR false (2, 4)).player))
          (cellX (candidate (sampleGame .DOOR false (2, 4)).player)) = some .DOOR
        ∧ (sampleGame .DOOR false (2, 4)).player.isPoweredUp = false := by
    constructor <;> decide!
  ⟨h, blocked_move_changes_nothing _ (Or.inr (Or.inr h))⟩

/-- C3. When the player's candidate position falls in the in-bounds cell `(r, c)`, the
player-movement stage commits the move, sets the cell to `EMPTY`, leaves the other cells
alone and adds 100 for `MAIZE`, 500 for `KEY`, 50 for `POWER_PELLET`, 100 for `SUPER_PELLET`,
1000 for `FRUIT`, nothing for a `DOOR` entered while powered up, and the star bonus for
`STAR`; on an `EMPTY` cell only the position changes. -/
theorem collectible_move (s : Game) (r : Fin mapHeight) (c : Fin mapWidth)
    (hy : cellY (candidate s.player) = ((r : Nat) : Int))
    (hx : cellX (candidate s.player) = ((c : Nat) : Int)) :
    (s.map.tile r c = .MAIZE →
      ∃ s1, playerMovement s = .ok s1 ∧ EntersCell s s1 r c ∧ s1.score = s.score + 100)
    ∧ (s.map.tile r c = .KEY →
      ∃ s1, playerMovement s = .ok s1 ∧ EntersCell s s1 r c ∧ s1.score = s.score + 500)
    ∧ (s.map.tile r c = .POWER_PELLET →
      ∃ s1, playerMovement s = .ok s1 ∧ EntersCell s s1 r c ∧ s1.score = s.score + 50)
    ∧ (s.map.tile r c = .SUPER_PELLET →
      ∃ s1, playerMovement s = .ok s1 ∧ EntersCell s s1 r c ∧ s1.score = s.score + 100)
    ∧ (s.map.tile r c = .FRUIT →
      ∃ s1, playerMovement s = .ok s1 ∧ EntersCell s s1 r c ∧ s1.score = s.score + 1000)
    ∧ (s.map.tile r c = .DOOR → s.player.isPoweredUp = true →
      ∃ s1, playerMovement s = .ok s1 ∧ EntersCell s s1 r c ∧ s1.score = s.score)
    ∧ (s.map.tile r c = .STAR →
      ∃ s1 bonus, playerMovement s = .ok s1 ∧ EntersCell s s1 r c
        ∧ starBonus s.centerBoxSymbols (s.map.set r c .EMPTY) = .ok bonus
        ∧ s1.score = s.score + bonus)
    ∧ (s.map.tile r c = .EMPTY →
      playerMovement s
        = .ok { s with player := { s.player with position := candidate s.player } }) := by
  obtain ⟨hM, hK, hF, hD, hE⟩ := playerMovement_plain s r c hy hx
  refine ⟨?_, ?_, ?_, ?_, ?_, ?_, ?_, hE⟩
  · intro h
    exact ⟨_, hM h, entersCell_set _ _ _ _ rfl rfl, rfl⟩
  · intro h
    exact ⟨_, hK h, entersCell_set _ _ _ _ rfl rfl, rfl⟩
  · intro h
    exact ⟨_, playerMovement_powerPellet s r c hy hx h, entersCell_set _ _ _ _ rfl rfl, rfl⟩
  · intro h
    exact ⟨_, playerMovement_superPellet s r c hy hx h, entersCell_set _ _ _ _ rfl rfl, rfl⟩
  · intro h
    exact ⟨_, hF h, entersCell_set _ _ _ _ rfl rfl, rfl⟩
  · intro h hp
    exact ⟨_, hD h hp, entersCell_set _ _ _ _ rfl rfl, rfl⟩
  · intro h
    obtain ⟨s1, bonus, h1, h2, h3, _, h5⟩ := playerMovement_star s r c hy hx h
    exact ⟨s1, bonus, h1, h2, h3, h5⟩

/-- Witness of C3: the player steps onto a `MAIZE` cell with score 700. -/
theorem collectible_move_witness :
    (cellY (candidate (sampleGame .MAIZE false (2, 4)).player) = (((1 : Fin mapHeight) : Nat) : Int)
      ∧ cellX (candidate (sampleGame .MAIZE false (2, 4)).player)
          = (((2 : Fin mapWidth) : Nat) : Int))
    ∧ ∃ s1, playerMovement (sampleGame .MAIZE false (2, 4)) = .ok s1
        ∧ EntersCell (sampleGame .MAIZE false (2, 4)) s1 1 2
        ∧ s1.score = (sampleGame .MAIZE false (2, 4)).score + 100 :=
  ⟨sampleGame_cell _ _ _,
    (collectible_move (sampleGame .MAIZE false (2, 4)) 1 2
      (sampleGame_cell _ _ _).1 (sampleGame_cell _ _ _).2).1 (sampleGame_tile _ _ _)⟩

/-! ## The star bonus and the two pellets -/

theorem holdsKind_after_clearing (g : Grid) (r : Fin mapHeight) (c : Fin mapWidth) (k : Int)
    (hstar : g.tile r c = .STAR) (hk : k ≤ 5) :
    HoldsKind (g.set r c .EMPTY) k ↔ (HoldsKind g k ∨ k = 0) := by
  constructor
  · rintro ⟨r1, c1, h⟩
    by_cases hrc : r1 = r ∧ c1 = c
    · right
      obtain ⟨rfl, rfl⟩ := hrc
      rw [Grid.set_same] at h
      exact h.symm
    · left
      rw [Grid.set_other _ _ _ _ _ _ hrc] at h
      exact ⟨r1, c1, h⟩
  · rintro (⟨r1, c1, h⟩ | hz)
    · by_cases hrc : r1 = r ∧ c1 = c
      · obtain ⟨rfl, rfl⟩ := hrc
        rw [hstar] at h
        exfalso
        have : k = 6 := h.symm
        omega
      · exact ⟨r1, c1, by rw [Grid.set_other _ _ _ _ _ _ hrc]; exact h⟩
    · exact ⟨r, c, by rw [Grid.set_same, hz]; rfl⟩

theorem noEmptyCell_elim (g : Grid) (h : noEmptyCell g = true) : ¬ HoldsKind g 0 := by
  rintro ⟨r, c, hk⟩
  cases g with
  | mk tile =>
    simp only [noEmptyCell, List.all_eq_true, decide_eq_true_eq] at h
    have hne := h r (List.mem_finRange r) c (List.mem_finRange c)
    apply hne
    simp only at hk
    cases ht : tile r c <;> rw [ht] at hk <;> simp [TileType.toInt] at hk

/-- C4, as stated, fails, and on a reachable state: after `InitGame` on the description
`starLines` with the draws of `sixRnd`, both symbols are 0, the player's next candidate position
lies in cell `(1, 1)`, which holds a star, and no cell of the map holds the kind of index 0
(`EMPTY`); the player-movement stage still adds 5000, not 2000. -/
theorem star_bonus_counterexample :
    ∃ s s1, Reachable (some starLines) sixRnd s
      ∧ cellY (candidate s.player) = (((1 : Fin mapHeight) : Nat) : Int)
      ∧ cellX (candidate s.player) = (((1 : Fin mapWidth) : Nat) : Int)
      ∧ s.map.tile 1 1 = .STAR
      ∧ s.centerBoxSymbols = (0, 0)
      ∧ ¬ HoldsKind s.map 0
      ∧ playerMovement s = .ok s1
      ∧ s1.score = s.score + 5000
      ∧ s1.score ≠ s.score + 2000 := by
  have h : endsWith (setUpGame sixRnd 50 Game.initial (loadedGrid starLines Game.initial.map))
      (fun s =>
        decide (cellY (candidate s.player) = (((1 : Fin mapHeight) : Nat) : Int)
          ∧ cellX (candidate s.player) = (((1 : Fin mapWidth) : Nat) : Int)
          ∧ s.map.tile 1 1 = .STAR ∧ s.centerBoxSymbols = (0, 0))
        && noEmptyCell s.map) = true := by decide!
  rw [← InitGame_lines] at h
  obtain ⟨s, hs, hp⟩ := endsWith_elim h
  simp only [Bool.and_eq_true, decide_eq_true_eq] at hp
  obtain ⟨⟨hy, hx, hstar, hsym⟩, hno⟩ := hp
  obtain ⟨s1, bonus, h1, _, h3, _, h5⟩ := playerMovement_star s 1 1 hy hx hstar
  have hk : HoldsKind (s.map.set 1 1 .EMPTY) s.centerBoxSymbols.1 :=
    ⟨1, 1, by rw [Grid.set_same, hsym]; rfl⟩
  rw [starBonus_found _ _ (by rw [hsym]) hk] at h3
  cases h3
  exact ⟨s, s1, Reachable.init 50 s hs, hy, hx, hstar, hsym, noEmptyCell_elim s.map hno, h1, h5,
    by rw [h5]; omega⟩

/-- C4, amended. When the player collects a `STAR` with centre-box symbols `(s0, s1)`, `s0`
in 0..5, the score grows by 500 if `s0 ≠ s1`; if `s0 = s1` it grows by 5000 when some cell of
the map holds the kind of index `s0` or `s0 = 0` (the star's cell is set to `EMPTY` before the
scan, so the scan always finds an `EMPTY` cell), and by 2000 otherwise. -/
theorem star_bonus_rule (s : Game) (r : Fin mapHeight) (c : Fin mapWidth)
    (hy : cellY (candidate s.player) = ((r : Nat) : Int))
    (hx : cellX (candidate s.player) = ((c : Nat) : Int))
    (hstar : s.map.tile r c = .STAR)
    (h0 : 0 ≤ s.centerBoxSymbols.1 ∧ s.centerBoxSymbols.1 ≤ 5) :
    ∃ s1, playerMovement s = .ok s1 ∧ EntersCell s s1 r c
      ∧ (s.centerBoxSymbols.1 ≠ s.centerBoxSymbols.2 → s1.score = s.score + 500)
      ∧ (s.centerBoxSymbols.1 = s.centerBoxSymbols.2 →
          (HoldsKind s.map s.centerBoxSymbols.1 ∨ s.centerBoxSymbols.1 = 0) →
          s1.score = s.score + 5000)
      ∧ (s.centerBoxSymbols.1 = s.centerBoxSymbols.2 →
          ¬ (HoldsKind s.map s.centerBoxSymbols.1 ∨ s.centerBoxSymbols.1 = 0) →
          s1.score = s.score + 2000) := by
  have hiff := holdsKind_after_clearing s.map r c s.centerBoxSymbols.1 hstar h0.2
  obtain ⟨s1, bonus, hrun, hent, hbonus, _, hscore⟩ := playerMovement_star s r c hy hx hstar
  refine ⟨s1, hrun, hent, ?_, ?_, ?_⟩
  · intro hne
    rw [starBonus_differ _ _ hne] at hbonus
    cases hbonus
    exact hscore
  · intro heq hk
    rw [starBonus_found _ _ heq (hiff.mpr hk)] at hbonus
    cases hbonus
    exact hscore
  · intro heq hk
    rw [starBonus_missing _ _ heq (fun h => hk (hiff.mp h))] at hbonus
    cases hbonus
    exact hscore

/-- Witness of C4 amended: a star collected with symbols `(3, 3)` on a grid without `KEY`. -/
theorem star_bonus_rule_witness :
    (cellY (candidate (sampleGame .STAR false (3, 3)).player) = (((1 : Fin mapHeight) : Nat) : Int)
      ∧ cellX (candidate (sampleGame .STAR false (3, 3)).player)
          = (((2 : Fin mapWidth) : Nat) : Int))
    ∧ (sampleGame .STAR false (3, 3)).map.tile 1 2 = .STAR
    ∧ ((0 : Int) ≤ (sampleGame .STAR false (3, 3)).centerBoxSymbols.1
        ∧ (sampleGame .STAR false (3, 3)).centerBoxSymbols.1 ≤ 5)
    ∧ ∃ s1, playerMovement (sampleGame .STAR false (3, 3)) = .ok s1
      ∧ EntersCell (sampleGame .STAR false (3, 3)) s1 1 2
      ∧ ((sampleGame .STAR false (3, 3)).centerBoxSymbols.1
            ≠ (sampleGame .STAR false (3, 3)).centerBoxSymbols.2 →
          s1.score = (sampleGame .STAR false (3, 3)).score + 500)
      ∧ ((sampleGame .STAR false (3, 3)).centerBoxSymbols.1
            = (sampleGame .STAR false (3, 3)).centerBoxSymbols.2 →
          (HoldsKind (sampleGame .STAR false (3, 3)).map
              (sampleGame .STAR false (3, 3)).centerBoxSymbols.1
            ∨ (sampleGame .STAR false (3, 3)).centerBoxSymbols.1 = 0) →
          s1.score = (sampleGame .STAR false (3, 3)).score + 5000)
      ∧ ((sampleGame .STAR false (3, 3)).centerBoxSymbols.1
            = (sampleGame .STAR false (3, 3)).centerBoxSymbols.2 →
          ¬ (HoldsKind (sampleGame .STAR false (3, 3)).map
              (sampleGame .STAR false (3, 3)).centerBoxSymbols.1
            ∨ (sampleGame .STAR false (3, 3)).centerBoxSymbols.1 = 0) →
          s1.score = (sampleGame .STAR false (3, 3)).score + 2000) :=
  ⟨sampleGame_cell _ _ _, sampleGame_tile _ _ _, by decide,
    star_bonus_rule (sampleGame .STAR false (3, 3)) 1 2
      (sampleGame_cell _ _ _).1 (sampleGame_cell _ _ _).2 (sampleGame_tile _ _ _) (by decide)⟩

/-- C5. When the player's committed move enters a `POWER_PELLET` cell, the stage sets
`isPoweredUp` and `powerUpTimer = 10` on the player, sets `isVulnerable` on every ghost, keeps
every ghost's `isFlattened`, and keeps the player's speed and radius; this holds whether or not
the player was already powered up. -/
theorem power_pellet_effect (s : Game) (r : Fin mapHeight) (c : Fin mapWidth)
    (hy : cellY (candidate s.player) = ((r : Nat) : Int))
    (hx : cellX (candidate s.player) = ((c : Nat) : Int))
    (h : s.map.tile r c = .POWER_PELLET) :
    ∃ s1, playerMovement s = .ok s1
      ∧ s1.player.isPoweredUp = true
      ∧ s1.player.powerUpTimer = 10
      ∧ (∀ ghost ∈ s1.ghosts, ghost.isVulnerable = true)
      ∧ s1.ghosts.map (fun ghost => ghost.isFlattened)
          = s.ghosts.map (fun ghost => ghost.isFlattened)
      ∧ s1.player.speed = s.player.speed
      ∧ s1.player.radius = s.player.radius := by
  refine ⟨_, playerMovement_powerPellet s r c hy hx h, rfl, rfl, ?_, ?_, rfl, rfl⟩
  · intro ghost hg
    simp only [makeVulnerable, List.mem_map] at hg
    obtain ⟨g0, _, rfl⟩ := hg
    rfl
  · simp only [makeVulnerable, List.map_map]
    rfl

/-- Witness of C5: a powered-up player (timer 4) takes a power pellet; one ghost is
flattened, the other is not. -/
theorem power_pellet_effect_witness :
    (cellY (candidate (sampleGame .POWER_PELLET true (2, 4)).player)
        = (((1 : Fin mapHeight) : Nat) : Int)
      ∧ cellX (candidate (sampleGame .POWER_PELLET true (2, 4)).player)
          = (((2 : Fin mapWidth) : Nat) : Int))
    ∧ (sampleGame .POWER_PELLET true (2, 4)).map.tile 1 2 = .POWER_PELLET
    ∧ ∃ s1, playerMovement (sampleGame .POWER_PELLET true (2, 4)) = .ok s1
      ∧ s1.player.isPoweredUp = true
      ∧ s1.player.powerUpTimer = 10
      ∧ (∀ ghost ∈ s1.ghosts, ghost.isVulnerable = true)
      ∧ s1.ghosts.map (fun ghost => ghost.isFlattened)
          = (sampleGame .POWER_PELLET true (2, 4)).ghosts.map (fun ghost => ghost.isFlattened)
      ∧ s1.player.speed = (sampleGame .POWER_PELLET true (2, 4)).player.speed
      ∧ s1.player.radius = (sampleGame .POWER_PELLET true (2, 4)).player.radius :=
  ⟨sampleGame_cell _ _ _, sampleGame_tile _ _ _,
    power_pellet_effect (sampleGame .POWER_PELLET true (2, 4)) 1 2
      (sampleGame_cell _ _ _).1 (sampleGame_cell _ _ _).2 (sampleGame_tile _ _ _)⟩

/-- C6. When the player's committed move enters a `SUPER_PELLET` cell, the stage sets
`isPoweredUp`, `powerUpTimer = 15`, `speed = superSpeed = 3` and `radius = tileSize / 2 = 20`
on the player, sets `isFlattened` on every ghost and keeps every ghost's `isVulnerable`; this
holds whether or not the player was already powered up. -/
theorem super_pellet_effect (s : Game) (r : Fin mapHeight) (c : Fin mapWidth)
    (hy : cellY (candidate s.player) = ((r : Nat) : Int))
    (hx : cellX (candidate s.player) = ((c : Nat) : Int))
    (h : s.map.tile r c = .SUPER_PELLET) :
    ∃ s1, playerMovement s = .ok s1
      ∧ s1.player.isPoweredUp = true
      ∧ s1.player.powerUpTimer = 15
      ∧ s1.player.speed = superSpeed ∧ s1.player.speed = 3
      ∧ s1.player.radius = (tileSize : ℚ) / 2 ∧ s1.player.radius = 20
      ∧ (∀ ghost ∈ s1.ghosts, ghost.isFlattened = true)
      ∧ s1.ghosts.map (fun ghost => ghost.isVulnerable)
          = s.ghosts.map (fun ghost => ghost.isVulnerable) := by
  refine ⟨_, playerMovement_superPellet s r c hy hx h, rfl, rfl, rfl, rfl, rfl, ?_, ?_, ?_⟩
  · show ((tileSize : Int) : ℚ) / 2 = 20
    norm_num
  · intro ghost hg
    simp only [makeFlattened, List.mem_map] at hg
    obtain ⟨g0, _, rfl⟩ := hg
    rfl
  · simp only [makeFlattened, List.map_map]
    rfl

/-- Witness of C6: a powered-up player (timer 4) takes a super pellet; one ghost is
vulnerable, the other is not. -/
theorem super_pellet_effect_witness :
    (cellY (candidate (sampleGame .SUPER_PELLET true (2, 4)).player)
        = (((1 : Fin mapHeight) : Nat) : Int)
      ∧ cellX (candidate (sampleGame .SUPER_PELLET true (2, 4)).player)
          = (((2 : Fin mapWidth) : Nat) : Int))
    ∧ (sampleGame .SUPER_PELLET true (2, 4)).map.tile 1 2 = .SUPER_PELLET
    ∧ ∃ s1, playerMovement (sampleGame .SUPER_PELLET true (2, 4)) = .ok s1
      ∧ s1.player.isPoweredUp = true
      ∧ s1.player.powerUpTimer = 15
      ∧ s1.player.speed = superSpeed ∧ s1.player.speed = 3
      ∧ s1.player.radius = (tileSize : ℚ) / 2 ∧ s1.player.radius = 20
      ∧ (∀ ghost ∈ s1.ghosts, ghost.isFlattened = true)
      ∧ s1.ghosts.map (fun ghost => ghost.isVulnerable)
          = (sampleGame .SUPER_PELLET true (2, 4)).ghosts.map (fun ghost => ghost.isVulnerable) :=
  ⟨sampleGame_cell _ _ _, sampleGame_tile _ _ _,
    super_pellet_effect (sampleGame .SUPER_PELLET true (2, 4)) 1 2
      (sampleGame_cell _ _ _).1 (sampleGame_cell _ _ _).2 (sampleGame_tile _ _ _)⟩

/-! ## The encounter step -/

/-- C1. For a ghost at index `i` whose circle overlaps the player's after its move, whatever
the triple (`isPoweredUp`, `isVulnerable`, `isFlattened`) is, the encounter step does one of:
(1) powered up and vulnerable, flattened or not: the ghost goes to its start position with
both flags cleared and its direction kept, the score grows by 200, and lives, player, map and
the other ghosts are unchanged; (2) otherwise, not powered up and not flattened: lives drop by
one, then `ResetPlayerPosition` runs if lives remain and `InitGame` if not; (3) in every other
case the state is unchanged. -/
theorem encounter_table (file : Option (List String)) (rnd : Nat → Nat) (fuel i : Nat)
    (ghost : Entity) (s : Game) (p v f : Bool)
    (hg : s.ghosts[i]? = some ghost)
    (hov : CheckCollisionCircles s.player.position s.player.radius ghost.position ghost.radius
      = true)
    (hp : s.player.isPoweredUp = p) (hv : ghost.isVulnerable = v) (hf : ghost.isFlattened = f) :
    (p = true ∧ v = true →
      ∃ s1 ghost1, checkCollision file rnd fuel i ghost s = .ok s1
        ∧ s1.ghosts[i]? = some ghost1
        ∧ ghost1.position = ghost.startPosition
        ∧ ghost1.isVulnerable = false
        ∧ ghost1.isFlattened = false
        ∧ ghost1.direction = ghost.direction
        ∧ s1.score = s.score + 200
        ∧ s1.playerLives = s.playerLives
        ∧ s1.player = s.player
        ∧ s1.map = s.map
        ∧ ∀ j, j ≠ i → s1.ghosts[j]? = s.ghosts[j]?)
    ∧ (¬ (p = true ∧ v = true) ∧ p = false ∧ f = false →
      (0 < s.playerLives - 1 →
        checkCollision file rnd fuel i ghost s
            = .ok (ResetPlayerPosition rnd { s with playerLives := s.playerLives - 1 })
          ∧ (ResetPlayerPosition rnd { s with playerLives := s.playerLives - 1 }).playerLives
            = s.playerLives - 1)
      ∧ (¬ 0 < s.playerLives - 1 →
        checkCollision file rnd fuel i ghost s
          = InitGame file rnd fuel { s with playerLives := s.playerLives - 1 }))
    ∧ (¬ (p = true ∧ v = true) ∧ ¬ (p = false ∧ f = false) →
      checkCollision file rnd fuel i ghost s = .ok s) := by
  subst hp hv hf
  refine ⟨?_, ?_, ?_⟩
  · rintro ⟨hp, hv⟩
    have hi : i < s.ghosts.length := by
      rcases Nat.lt_or_ge i s.ghosts.length with h | h
      · exact h
      · rw [List.getElem?_eq_none h] at hg
        cases hg
    refine ⟨_, { ghost with
        position := ghost.startPosition
        isVulnerable := false
        isFlattened := false }, checkCollision_eat file rnd fuel i ghost s hov hp hv, ?_,
      rfl, rfl, rfl, rfl, rfl, rfl, rfl, rfl, ?_⟩
    · simp [List.getElem?_set, hi]
    · intro j hj
      simp [List.getElem?_set, Ne.symm hj]
  · rintro ⟨_, hp, hf⟩
    have h := checkCollision_harm file rnd fuel i ghost s hov hp hf
    constructor
    · intro hl
      rw [h, if_pos hl]
      exact ⟨rfl, rfl⟩
    · intro hl
      rw [h, if_neg hl]
  · rintro ⟨h1, h2⟩
    apply checkCollision_ignore
    right
    cases hp : s.player.isPoweredUp <;> cases hv : ghost.isVulnerable
      <;> cases hf : ghost.isFlattened <;> simp_all

/-- Witness of C1: powered up, ghost vulnerable and flattened at once. -/
theorem encounter_table_witness :
    (encounterGame true true true 3).ghosts[0]? = some (sampleGhost 70 60 true true)
    ∧ CheckCollisionCircles (encounterGame true true true 3).player.position
        (encounterGame true true true 3).player.radius
        (sampleGhost 70 60 true true).position (sampleGhost 70 60 true true).radius = true
    ∧ ∃ s1 ghost1,
        checkCollision none sampleRnd 50 0 (sampleGhost 70 60 true true)
            (encounterGame true true true 3) = .ok s1
        ∧ s1.ghosts[0]? = some ghost1
        ∧ ghost1.position = (sampleGhost 70 60 true true).startPosition
        ∧ ghost1.isVulnerable = false
        ∧ ghost1.isFlattened = false
        ∧ ghost1.direction = (sampleGhost 70 60 true true).direction
        ∧ s1.score = (encounterGame true true true 3).score + 200
        ∧ s1.playerLives = (encounterGame true true true 3).playerLives
        ∧ s1.player = (encounterGame true true true 3).player
        ∧ s1.map = (encounterGame true true true 3).map
        ∧ ∀ j, j ≠ 0 → s1.ghosts[j]? = (encounterGame true true true 3).ghosts[j]? :=
  ⟨rfl, by decide!,
    (encounter_table none sampleRnd 50 0 (sampleGhost 70 60 true true)
      (encounterGame true true true 3) true true true rfl (by decide!) rfl rfl rfl).1
      ⟨rfl, rfl⟩⟩

/-! ## Claims about LoadMapFromFile -/

/-- C8. For every list of lines and every in-bounds cell `(r, c)` such that line `r` exists
and has a character number `c`, after `LoadMapFromFile` the cell holds the kind mapped from
that character (`#` WALL, `.` EMPTY, `K` KEY, `M` MAIZE, `P` POWER_PELLET, `S` STAR,
`U` SUPER_PELLET, `F` FRUIT, `D` DOOR, anything else EMPTY); the lines from the 16th on and
the characters from the 21st on of a line have no effect on the grid. -/
theorem load_follows_description (lines : List String) (g : Grid)
    (r : Fin mapHeight) (c : Fin mapWidth) (line : String) (tile : Char)
    (hline : lines[(r : Nat)]? = some line) (htile : line.data[(c : Nat)]? = some tile) :
    (∃ g1, LoadMapFromFile (some lines) g = .ok g1 ∧ g1.tile r c = charToTile tile)
    ∧ (charToTile '#' = .WALL ∧ charToTile '.' = .EMPTY ∧ charToTile 'K' = .KEY
        ∧ charToTile 'M' = .MAIZE ∧ charToTile 'P' = .POWER_PELLET ∧ charToTile 'S' = .STAR
        ∧ charToTile 'U' = .SUPER_PELLET ∧ charToTile 'F' = .FRUIT ∧ charToTile 'D' = .DOOR
        ∧ ∀ other : Char, other ∉ ['#', '.', 'K', 'M', 'P', 'S', 'U', 'F', 'D'] →
            charToTile other = .EMPTY)
    ∧ LoadMapFromFile (some lines) g = LoadMapFromFile (some (clipDescription lines)) g := by
  refine ⟨⟨_, LoadMapFromFile_lines lines g, ?_⟩,
    ⟨rfl, rfl, rfl, rfl, rfl, rfl, rfl, rfl, rfl, charToTile_default⟩, ?_⟩
  · simp only [loadedGrid, hline, htile]
  · rw [LoadMapFromFile_lines, LoadMapFromFile_lines, loadedGrid_clip]

/-- Witness of C8: the second character of the third line. -/
theorem load_follows_description_witness :
    ["", "####", "#K.M##"][(((2 : Fin mapHeight)) : Nat)]? = some "#K.M##"
    ∧ "#K.M##".data[(((1 : Fin mapWidth)) : Nat)]? = some 'K'
    ∧ (∃ g1, LoadMapFromFile (some ["", "####", "#K.M##"]) wallsAndStar = .ok g1
        ∧ g1.tile 2 1 = charToTile 'K')
    ∧ (charToTile '#' = .WALL ∧ charToTile '.' = .EMPTY ∧ charToTile 'K' = .KEY
        ∧ charToTile 'M' = .MAIZE ∧ charToTile 'P' = .POWER_PELLET ∧ charToTile 'S' = .STAR
        ∧ charToTile 'U' = .SUPER_PELLET ∧ charToTile 'F' = .FRUIT ∧ charToTile 'D' = .DOOR
        ∧ ∀ other : Char, other ∉ ['#', '.', 'K', 'M', 'P', 'S', 'U', 'F', 'D'] →
            charToTile other = .EMPTY)
    ∧ LoadMapFromFile (some ["", "####", "#K.M##"]) wallsAndStar
        = LoadMapFromFile (some (clipDescription ["", "####", "#K.M##"])) wallsAndStar :=
  ⟨rfl, rfl,
    load_follows_description ["", "####", "#K.M##"] wallsAndStar 2 1 "#K.M##" 'K' rfl rfl⟩

/-- C9, as stated, fails for a reload: the grid left by a first `InitGame` holds `DOOR` in
column 9 of row 7; a reload from a description that cannot be opened, or from the one-line
description `#`, leaves that cell `DOOR`, although it is out of the source's range. -/
theorem reload_counterexample :
    ∃ s g1 g2, InitGame none sampleRnd 50 Game.initial = .ok s
      ∧ LoadMapFromFile none s.map = .ok g1 ∧ g1.tile 7 9 = .DOOR ∧ g1.tile 7 9 ≠ .EMPTY
      ∧ ["#"][(((7 : Fin mapHeight)) : Nat)]? = none
      ∧ LoadMapFromFile (some ["#"]) s.map = .ok g2 ∧ g2.tile 7 9 = .DOOR ∧ g2.tile 7 9 ≠ .EMPTY := by
  have h : endsWith (InitGame none sampleRnd 50 Game.initial)
      (fun s => decide (s.map.tile 7 9 = .DOOR)) = true := by decide!
  obtain ⟨s, hs, hd⟩ := endsWith_elim h
  have hd1 : s.map.tile 7 9 = .DOOR := of_decide_eq_true hd
  refine ⟨s, s.map, loadedGrid ["#"] s.map, hs, rfl, hd1, by rw [hd1]; decide, rfl,
    LoadMapFromFile_lines _ _, ?_, ?_⟩
  · simp only [loadedGrid]
    exact hd1
  · simp only [loadedGrid]
    rw [hd1]
    decide

/-- C9, amended. After `LoadMapFromFile` every in-bounds cell that is out of the source's
range (its row is missing from the description, or its line has at most that many characters)
holds what it held before the call, and when the description cannot be opened the whole grid
is what it was before the call; so these cells are `EMPTY` when the grid was all `EMPTY` before,
as it is at the first load at start-up. -/
theorem load_keeps_cells_out_of_range (lines : List String) (g : Grid)
    (r : Fin mapHeight) (c : Fin mapWidth)
    (hout : lines.length ≤ (r : Nat)
      ∨ ∃ line, lines[(r : Nat)]? = some line ∧ line.length ≤ (c : Nat)) :
    (∃ g1, LoadMapFromFile (some lines) g = .ok g1 ∧ g1.tile r c = g.tile r c
        ∧ (g = Grid.zero → g1.tile r c = .EMPTY))
    ∧ LoadMapFromFile none g = .ok g
    ∧ (g = Grid.zero → ∀ (r1 : Fin mapHeight) (c1 : Fin mapWidth), g.tile r1 c1 = .EMPTY) := by
  have hcell : (loadedGrid lines g).tile r c = g.tile r c := by
    rcases hout with h | ⟨line, hline, hlen⟩
    · simp only [loadedGrid, List.getElem?_eq_none h]
    · have : line.data[(c : Nat)]? = none := List.getElem?_eq_none hlen
      simp only [loadedGrid, hline, this]
  refine ⟨⟨_, LoadMapFromFile_lines lines g, hcell, ?_⟩, rfl, ?_⟩
  · intro hz
    rw [hcell, hz]
    rfl
  · intro hz r1 c1
    rw [hz]
    rfl

/-- Witness of C9 amended: a one-line description over a grid of walls. -/
theorem load_keeps_cells_out_of_range_witness :
    (["#"].length ≤ (((7 : Fin mapHeight)) : Nat)
      ∨ ∃ line, ["#"][(((7 : Fin mapHeight)) : Nat)]? = some line
          ∧ line.length ≤ (((9 : Fin mapWidth)) : Nat))
    ∧ (∃ g1, LoadMapFromFile (some ["#"]) wallsAndStar = .ok g1
        ∧ g1.tile 7 9 = wallsAndStar.tile 7 9
        ∧ (wallsAndStar = Grid.zero → g1.tile 7 9 = .EMPTY))
    ∧ LoadMapFromFile none wallsAndStar = .ok wallsAndStar
    ∧ (wallsAndStar = Grid.zero →
        ∀ (r1 : Fin mapHeight) (c1 : Fin mapWidth), wallsAndStar.tile r1 c1 = .EMPTY) :=
  ⟨Or.inl (by decide),
    load_keeps_cells_out_of_range ["#"] wallsAndStar 7 9 (Or.inl (by decide))⟩

/-! ## Expiry of the power-up -/

theorem updatePowerUp_expired (dt : ℚ) (s : Game) (hp : s.player.isPoweredUp = true)
    (he : s.player.powerUpTimer - dt ≤ 0) : NormalMode (updatePowerUp dt s) := by
  unfold updatePowerUp
  simp only [hp, if_true, he]
  refine ⟨rfl, rfl, rfl, ?_⟩
  intro ghost hg
  simp only [clearGhostModes, List.mem_map] at hg
  obtain ⟨g0, _, rfl⟩ := hg
  exact ⟨rfl, rfl⟩

theorem updatePowerUp_running (dt : ℚ) (s : Game) (hp : s.player.isPoweredUp = true)
    (he : 0 < s.player.powerUpTimer - dt) :
    updatePowerUp dt s
      = { s with player := { s.player with powerUpTimer := s.player.powerUpTimer - dt } } := by
  unfold updatePowerUp
  simp only [hp, if_true, not_le.mpr he, if_false]

/-- The frame after the power-up stage preserves the normal mode. -/
theorem normalMode_rest_of_frame (file : Option (List String)) (rnd : Nat → Nat) (fuel : Nat)
    (inp : Input) (s s1 s2 : Game)
    (hmove : playerMovement (playerInput inp s) = .ok s1)
    (hrun : UpdateGame file rnd fuel inp s = .ok s2)
    (hn : NormalMode (updatePowerUp inp.frameTime s1)) : NormalMode s2 := by
  unfold UpdateGame at hrun
  split at hrun
  · cases hrun
  · rename_i t ht
    cases hrun
    unfold updateBeforeExtraLife at ht
    rw [hmove] at ht
    simp only at ht
    split at ht
    · cases ht
    · rename_i s3 hloop
      split at ht
      · cases ht
      · rename_i s4 hstar
        cases ht
        have h3 := normalMode_ghostLoop file rnd fuel _ 0 _ s3 hloop hn
        obtain ⟨hp4, hg4, _, _⟩ := starSpawning_frame rnd inp.frameTime s3 s4 hstar
        have h4 := normalMode_of_same hp4 hg4 h3
        obtain ⟨hp5, hg5, _, _⟩ := updateCenterBoxSymbols_frame rnd inp.frameTime s4
        have h5 := normalMode_of_same hp5 hg5 h4
        exact normalMode_of_same (extraLife_frame _).1 (extraLife_frame _).2 h5

/-- C7. In a frame in which, at the power-up stage, the player is powered up and the timer
minus the frame time is at most 0, the state at the end of that `UpdateGame` call has the
player not powered up, with radius `tileSize / 3` and speed `normalSpeed = 2`, and every ghost
neither vulnerable nor flattened; and when the remaining time stays positive the power-up stage
changes nothing but the timer. -/
theorem power_up_expiry (file : Option (List String)) (rnd : Nat → Nat) (fuel : Nat)
    (inp : Input) (s s1 s2 : Game)
    (hmove : playerMovement (playerInput inp s) = .ok s1)
    (hpow : s1.player.isPoweredUp = true)
    (hexp : s1.player.powerUpTimer - inp.frameTime ≤ 0)
    (hrun : UpdateGame file rnd fuel inp s = .ok s2) :
    (s2.player.isPoweredUp = false
      ∧ s2.player.radius = (tileSize : ℚ) / 3
      ∧ s2.player.speed = normalSpeed ∧ s2.player.speed = 2
      ∧ ∀ ghost ∈ s2.ghosts, ghost.isVulnerable = false ∧ ghost.isFlattened = false)
    ∧ ∀ (dt : ℚ) (u : Game), u.player.isPoweredUp = true → 0 < u.player.powerUpTimer - dt →
        updatePowerUp dt u
          = { u with player := { u.player with powerUpTimer := u.player.powerUpTimer - dt } } := by
  obtain ⟨h1, h2, h3, h4⟩ := normalMode_rest_of_frame file rnd fuel inp s s1 s2 hmove hrun
    (updatePowerUp_expired inp.frameTime s1 hpow hexp)
  exact ⟨⟨h1, h2, h3, h3, h4⟩, updatePowerUp_running⟩

/-- Witness of C7: a powered-up player (timer 4) facing a wall, a frame of 5 seconds, one
ghost flattened and the other vulnerable. -/
theorem power_up_expiry_witness :
    ∃ s2, playerMovement (playerInput (idleInput 5) (sampleGame .WALL true (2, 4)))
        = .ok (playerInput (idleInput 5) (sampleGame .WALL true (2, 4)))
      ∧ (playerInput (idleInput 5) (sampleGame .WALL true (2, 4))).player.isPoweredUp = true
      ∧ (playerInput (idleInput 5) (sampleGame .WALL true (2, 4))).player.powerUpTimer
          - (idleInput 5).frameTime ≤ 0
      ∧ UpdateGame none sampleRnd 50 (idleInput 5) (sampleGame .WALL true (2, 4)) = .ok s2
      ∧ (s2.player.isPoweredUp = false
        ∧ s2.player.radius = (tileSize : ℚ) / 3
        ∧ s2.player.speed = normalSpeed ∧ s2.player.speed = 2
        ∧ ∀ ghost ∈ s2.ghosts, ghost.isVulnerable = false ∧ ghost.isFlattened = false) := by
  have hmove : playerMovement (playerInput (idleInput 5) (sampleGame .WALL true (2, 4)))
      = .ok (playerInput (idleInput 5) (sampleGame .WALL true (2, 4))) :=
    playerMovement_rejected _ (Or.inr (Or.inl (by decide!)))
  have hexp : (playerInput (idleInput 5) (sampleGame .WALL true (2, 4))).player.powerUpTimer
      - (idleInput 5).frameTime ≤ 0 := by decide!
  have hok : endsWith (UpdateGame none sampleRnd 50 (idleInput 5) (sampleGame .WALL true (2, 4)))
      (fun _ => true) = true := by decide!
  obtain ⟨s2, hrun, _⟩ := endsWith_elim hok
  exact ⟨s2, hmove, rfl, hexp, hrun,
    (power_up_expiry none sampleRnd 50 (idleInput 5) (sampleGame .WALL true (2, 4)) _ s2
      hmove rfl hexp hrun).1⟩

/-! ## The extra life, the ghost movement and the bounds check -/

/-- C12. The last stage of `UpdateGame` is `extraLife`, applied once to the state `u` the
other stages leave: for every score and lives value it yields lives + 1 and score - 10000
when score >= 10000 and lives < 5, and leaves the state as it is otherwise; a score of 20000
or more is still at least 10000 after the stage, which has added one life only. -/
theorem extra_life_step (t : Game) :
    (t.score ≥ 10000 ∧ t.playerLives < 5 →
        (extraLife t).playerLives = t.playerLives + 1 ∧ (extraLife t).score = t.score - 10000)
    ∧ (¬ (t.score ≥ 10000 ∧ t.playerLives < 5) → extraLife t = t)
    ∧ (t.score ≥ 20000 → t.playerLives < 5 →
        (extraLife t).playerLives = t.playerLives + 1 ∧ (extraLife t).score ≥ 10000)
    ∧ ∀ (file : Option (List String)) (rnd : Nat → Nat) (fuel : Nat) (inp : Input)
        (s s1 : Game), UpdateGame file rnd fuel inp s = .ok s1 →
          ∃ u, updateBeforeExtraLife file rnd fuel inp s = .ok u ∧ s1 = extraLife u := by
  refine ⟨?_, ?_, ?_, ?_⟩
  · intro h
    unfold extraLife
    rw [if_pos h]
    exact ⟨rfl, rfl⟩
  · intro h
    unfold extraLife
    rw [if_neg h]
  · intro h1 h2
    have h : t.score ≥ 10000 ∧ t.playerLives < maxLives := ⟨by omega, h2⟩
    unfold extraLife
    rw [if_pos h]
    refine ⟨rfl, ?_⟩
    show t.score - 10000 ≥ 10000
    omega
  · intro file rnd fuel inp s s1 h
    unfold UpdateGame at h
    split at h
    · cases h
    · rename_i u hu
      cases h
      exact ⟨u, hu, rfl⟩

/-- Witness of C12: 25000 points and three lives become 15000 points and four lives. -/
theorem extra_life_step_witness :
    (richGame.score ≥ 20000 ∧ richGame.playerLives < 5)
      ∧ (extraLife richGame).playerLives = 4 ∧ (extraLife richGame).score ≥ 10000 :=
  ⟨by decide, (extra_life_step richGame).2.2.1 (by decide) (by decide)⟩

/-- C16. The ghost-movement step commits the candidate position `position + direction * speed`
exactly when the candidate's cell passes the bounds check and holds neither `WALL` nor `DOOR`,
whatever the flags of the player and of the ghost; otherwise the position stays, the direction
becomes the one drawn by two random values (the first picks the axis, the second the sign),
which is one of (1,0), (-1,0), (0,1), (0,-1); the map and the score stay as they are in both
cases. -/
theorem ghost_movement_rule (rnd : Nat → Nat) (i : Nat) (ghost : Entity) (s : Game) :
    (ghostMayEnter s.map (candidate ghost) →
        ghostMovement rnd i ghost s
          = .ok { s with ghosts := s.ghosts.set i { ghost with position := candidate ghost } })
    ∧ (¬ ghostMayEnter s.map (candidate ghost) →
        ghostMovement rnd i ghost s
          = .ok { s with
                  ghosts := s.ghosts.set i
                    { ghost with direction := rerollDirection rnd s.randomCalls }
                  randomCalls := s.randomCalls + 2 })
    ∧ AxisUnit (rerollDirection rnd s.randomCalls)
    ∧ ((GetRandomValue rnd s.randomCalls 0 1 = 0 →
          GetRandomValue rnd (s.randomCalls + 1) 0 1 = 0 →
            rerollDirection rnd s.randomCalls = ⟨-1, 0⟩)
      ∧ (GetRandomValue rnd s.randomCalls 0 1 = 0 →
          GetRandomValue rnd (s.randomCalls + 1) 0 1 = 1 →
            rerollDirection rnd s.randomCalls = ⟨1, 0⟩)
      ∧ (GetRandomValue rnd s.randomCalls 0 1 = 1 →
          GetRandomValue rnd (s.randomCalls + 1) 0 1 = 0 →
            rerollDirection rnd s.randomCalls = ⟨0, -1⟩)
      ∧ (GetRandomValue rnd s.randomCalls 0 1 = 1 →
          GetRandomValue rnd (s.randomCalls + 1) 0 1 = 1 →
            rerollDirection rnd s.randomCalls = ⟨0, 1⟩))
    ∧ ∀ s1, ghostMovement rnd i ghost s = .ok s1 →
        s1.map = s.map ∧ s1.score = s.score ∧ s1.player = s.player
          ∧ s1.playerLives = s.playerLives := by
  refine ⟨ghostMovement_enter rnd i ghost s, ghostMovement_stay rnd i ghost s,
    rerollDirection_axis rnd s.randomCalls, rerollDirection_table rnd s.randomCalls, ?_⟩
  intro s1 h
  rcases ghostMovement_cases rnd i ghost s s1 h with e | e <;> rw [e] <;>
    exact ⟨rfl, rfl, rfl, rfl⟩

/-- Witness of C16: a vulnerable and flattened ghost heading left from `(70, 60)` on an empty
grid, next to a powered-up player, moves to `(137 / 2, 60)`. -/
theorem ghost_movement_rule_witness :
    ghostMayEnter (encounterGame true true true 3).map (candidate (sampleGhost 70 60 true true))
      ∧ ghostMovement sampleRnd 0 (sampleGhost 70 60 true true) (encounterGame true true true 3)
          = .ok { encounterGame true true true 3 with
                  ghosts := (encounterGame true true true 3).ghosts.set 0
                    { sampleGhost 70 60 true true with
                      position := candidate (sampleGhost 70 60 true true) } }
      ∧ candidate (sampleGhost 70 60 true true) = ⟨137 / 2, 60⟩ := by
  have h : ghostMayEnter (encounterGame true true true 3).map
      (candidate (sampleGhost 70 60 true true)) := by
    unfold ghostMayEnter cellInBounds
    decide!
  exact ⟨h, (ghost_movement_rule sampleRnd 0 (sampleGhost 70 60 true true)
    (encounterGame true true true 3)).1 h, by decide!⟩

/-- C20. The cell index is `(int)(coordinate / 40)`, truncated toward zero, so the bounds check
of the two movement stages accepts a position exactly when -40 < x < 800 and -40 < y < 600;
a candidate outside is rejected, for the player and for a ghost; every position the player
or a ghost moves to satisfies the bounds; a coordinate in (-40, 0) gives the cell index 0, and
the candidate is committed when its cell is passable. -/
theorem truncating_bounds_check (pos : Vector2) :
    ((cellX pos ≥ 0 ∧ cellX pos < mapWidth ∧ cellY pos ≥ 0 ∧ cellY pos < mapHeight)
        ↔ (-40 < pos.x ∧ pos.x < 800 ∧ -40 < pos.y ∧ pos.y < 600))
    ∧ (-40 < pos.x → pos.x < 0 → cellX pos = 0)
    ∧ (-40 < pos.y → pos.y < 0 → cellY pos = 0)
    ∧ (∀ (s : Game), candidate s.player = pos → ¬ withinField pos → playerMovement s = .ok s)
    ∧ (∀ (rnd : Nat → Nat) (i : Nat) (ghost : Entity) (s : Game), candidate ghost = pos →
        ¬ withinField pos → ghostMovement rnd i ghost s = .ok (ghostRejected rnd i ghost s))
    ∧ (∀ (s s1 : Game), candidate s.player = pos → playerMovement s = .ok s1 →
        s1.player.position ≠ s.player.position →
          s1.player.position = pos ∧ withinField pos)
    ∧ (∀ (rnd : Nat → Nat) (i : Nat) (ghost ghost1 : Entity) (s s1 : Game),
        candidate ghost = pos → ghostMovement rnd i ghost s = .ok s1 →
        s1.ghosts[i]? = some ghost1 → ghost1.position ≠ ghost.position →
          ghost1.position = pos ∧ withinField pos)
    ∧ (∀ (s : Game) (r : Fin mapHeight) (c : Fin mapWidth), candidate s.player = pos →
        cellY pos = ((r : Nat) : Int) → cellX pos = ((c : Nat) : Int) →
        playerPassable (s.map.tile r c) s.player.isPoweredUp = true →
          ∃ s1, playerMovement s = .ok s1 ∧ s1.player.position = pos)
    ∧ (∀ (rnd : Nat → Nat) (i : Nat) (ghost : Entity) (s : Game) (r : Fin mapHeight)
        (c : Fin mapWidth), candidate ghost = pos →
        cellY pos = ((r : Nat) : Int) → cellX pos = ((c : Nat) : Int) →
        s.map.tile r c ≠ .WALL → s.map.tile r c ≠ .DOOR →
          ghostMovement rnd i ghost s = .ok (ghostCommitted i ghost s)) := by
  refine ⟨cellInBounds_iff pos, cellX_zero pos, cellY_zero pos, ?_, ?_, ?_, ?_, ?_, ?_⟩
  · intro s hc hw
    apply playerMovement_outside
    rw [hc, ← cellInBounds_inBounds, cellInBounds_iff]
    exact hw
  · intro rnd i ghost s hc hw
    apply ghostMovement_stay
    rintro ⟨hb, _⟩
    rw [hc, cellInBounds_iff] at hb
    exact hw hb
  · intro s s1 hc h hne
    obtain ⟨s2, h2, _, _, hpos⟩ := playerMovement_total s
    rw [h2] at h
    cases h
    rcases hpos with e | ⟨e, hb⟩
    · exact absurd e hne
    · rw [hc] at e hb
      exact ⟨e, (cellInBounds_iff pos).mp hb⟩
  · intro rnd i ghost ghost1 s s1 hc h hg hne
    by_cases hm : ghostMayEnter s.map (candidate ghost)
    · rw [ghostMovement_enter rnd i ghost s hm] at h
      cases h
      have hb := (cellInBounds_iff _).mp hm.1
      rw [hc] at hb
      unfold ghostCommitted at hg
      simp only at hg
      by_cases hi : i < s.ghosts.length
      · rw [List.getElem?_set_eq_of_lt _ hi] at hg
        cases hg
        exact ⟨hc, hb⟩
      · rw [List.getElem?_eq_none (by simpa using hi)] at hg
        cases hg
    · rw [ghostMovement_stay rnd i ghost s hm] at h
      cases h
      unfold ghostRejected at hg
      simp only at hg
      by_cases hi : i < s.ghosts.length
      · rw [List.getElem?_set_eq_of_lt _ hi] at hg
        cases hg
        exact absurd rfl hne
      · rw [List.getElem?_eq_none (by simpa using hi)] at hg
        cases hg
  · intro s r c hc hy hx hp
    rw [← hc] at hy hx
    rw [playerMovement_at s r c hy hx, if_pos hp]
    obtain ⟨s1, h1, h2, _, _⟩ := collectItems_total r c (s.map.tile r c)
      { s with player := { s.player with position := candidate s.player } }
    exact ⟨s1, h1, by rw [h2, ← hc]⟩
  · intro rnd i ghost s r c hc hy hx hw hd
    rw [← hc] at hy hx
    apply ghostMovement_enter
    refine ⟨?_, ?_, ?_⟩
    · rw [cellInBounds_inBounds, hy, hx]
      exact inBounds_fin r c
    · rw [hy, hx, Grid.get?_fin]
      exact fun e => hw (Option.some.inj e)
    · rw [hy, hx, Grid.get?_fin]
      exact fun e => hd (Option.some.inj e)

/-- Witness of C20: the candidate `(-1, 60)` of a player one unit from the left edge lies in
column 0 and is committed. -/
theorem truncating_bounds_check_witness :
    candidate edgeGame.player = ⟨-1, 60⟩
      ∧ (-40 < (-1 : ℚ) ∧ (-1 : ℚ) < 0)
      ∧ cellX ⟨-1, 60⟩ = 0
      ∧ ∃ s1, playerMovement edgeGame = .ok s1 ∧ s1.player.position = ⟨-1, 60⟩ := by
  have hc : candidate edgeGame.player = ⟨-1, 60⟩ := by decide!
  have hx : -40 < (-1 : ℚ) ∧ (-1 : ℚ) < 0 := by norm_num
  exact ⟨hc, hx, (truncating_bounds_check ⟨-1, 60⟩).2.1 hx.1 hx.2,
    (truncating_bounds_check ⟨-1, 60⟩).2.2.2.2.2.2.2.1 edgeGame 1 0 hc (by decide!) (by decide!)
      (by decide!)⟩


/-! ## Full reinitialisation -/

/-- C14. Whatever the state before, the map description and the random values, when
`InitGame` finishes: score 0, three lives, both timers 0, both centre-box symbols in 0..5, the
player at (60, 60) facing (1, 0) with speed 2, radius `tileSize / 3` and not powered up,
exactly four ghosts, ghost `i` at (40 * (10 + i), 320) neither vulnerable nor flattened, and
the cells of row 7 in columns 9, 10, 11 hold `DOOR`, `FRUIT`, `DOOR`. -/
theorem full_reinitialization (file : Option (List String)) (rnd : Nat → Nat) (fuel : Nat)
    (s s1 : Game) (h : InitGame file rnd fuel s = .ok s1) :
    s1.score = 0 ∧ s1.playerLives = 3 ∧ s1.starTimer = 0 ∧ s1.symbolChangeTimer = 0
      ∧ (0 ≤ s1.centerBoxSymbols.1 ∧ s1.centerBoxSymbols.1 ≤ 5)
      ∧ (0 ≤ s1.centerBoxSymbols.2 ∧ s1.centerBoxSymbols.2 ≤ 5)
      ∧ s1.player.position = ⟨60, 60⟩ ∧ s1.player.direction = ⟨1, 0⟩
      ∧ s1.player.speed = 2 ∧ s1.player.radius = (tileSize : ℚ) / 3
      ∧ s1.player.isPoweredUp = false
      ∧ s1.ghosts.length = 4
      ∧ (∀ (i : Nat) (ghost : Entity), s1.ghosts[i]? = some ghost →
          ghost.position = ⟨40 * (10 + (i : ℚ)), 320⟩
            ∧ ghost.isVulnerable = false ∧ ghost.isFlattened = false)
      ∧ s1.map.tile 7 9 = .DOOR ∧ s1.map.tile 7 10 = .FRUIT ∧ s1.map.tile 7 11 = .DOOR := by
  obtain ⟨a1, a2, a3, a4, a5, a6, _⟩ := initGame_post file rnd fuel s s1 h
  obtain ⟨b1, b2, b3, b4, _⟩ := initGame_fields file rnd fuel s s1 h
  obtain ⟨c1, c2⟩ := initGame_ghosts file rnd fuel s s1 h
  obtain ⟨g0, hload⟩ := LoadMapFromFile_total file s.map
  obtain ⟨r1, r2, k1, k2, _, _, _, _, _, hm, _⟩ := initGame_map file rnd fuel s s1 g0 hload h
  have d1 := getRandomValue_range rnd (s.randomCalls + 4) 0 (numSymbols - 1) (by decide)
  have d2 := getRandomValue_range rnd (s.randomCalls + 5) 0 (numSymbols - 1) (by decide)
  have e5 : numSymbols - 1 = 5 := by decide
  rw [e5] at d1 d2
  rw [e5] at b3
  refine ⟨a1, a2, b1, b2, ?_, ?_, a3, b4, a6, a5, a4, c1, ?_, ?_, ?_, ?_⟩
  · rw [b3]
    exact d1
  · rw [b3]
    exact d2
  · intro i ghost hi
    obtain ⟨p1, _, p3, p4, _⟩ := c2 i ghost hi
    exact ⟨p1, p3, p4⟩
  · rw [hm, placeFruitAndDoors_tiles]
    simp
  · rw [hm, placeFruitAndDoors_tiles]
    simp
  · rw [hm, placeFruitAndDoors_tiles]
    simp

/-- Witness of C14: `InitGame` at the start of the recorded game finishes. -/
theorem full_reinitialization_witness :
    ∃ s1, InitGame maizeFile sampleRnd 50 Game.initial = .ok s1
      ∧ s1.score = 0 ∧ s1.playerLives = 3 ∧ s1.starTimer = 0 ∧ s1.symbolChangeTimer = 0
      ∧ (0 ≤ s1.centerBoxSymbols.1 ∧ s1.centerBoxSymbols.1 ≤ 5)
      ∧ (0 ≤ s1.centerBoxSymbols.2 ∧ s1.centerBoxSymbols.2 ≤ 5)
      ∧ s1.player.position = ⟨60, 60⟩ ∧ s1.player.direction = ⟨1, 0⟩
      ∧ s1.player.speed = 2 ∧ s1.player.radius = (tileSize : ℚ) / 3
      ∧ s1.player.isPoweredUp = false
      ∧ s1.ghosts.length = 4
      ∧ (∀ (i : Nat) (ghost : Entity), s1.ghosts[i]? = some ghost →
          ghost.position = ⟨40 * (10 + (i : ℚ)), 320⟩
            ∧ ghost.isVulnerable = false ∧ ghost.isFlattened = false)
      ∧ s1.map.tile 7 9 = .DOOR ∧ s1.map.tile 7 10 = .FRUIT ∧ s1.map.tile 7 11 = .DOOR := by
  obtain ⟨u, hu, _⟩ := endsWith_elim checkpoint_init
  exact ⟨u, hu, full_reinitialization maizeFile sampleRnd 50 Game.initial u hu⟩

/-! ## The seeding of the super pellets -/

/-- C15, as stated, fails: with a super pellet at column 10 of row 7 in the description, the
freshly loaded map holds one super pellet; the seeding loop adds two, at column 13 of row 2
and column 17 of row 6, and the fruit replaces the one of the description, so the grid at the
end of `InitGame` holds two super pellets, not three. -/
theorem seeding_count_counterexample :
    ∃ g0 s1, LoadMapFromFile pelletFile Game.initial.map = .ok g0
      ∧ InitGame pelletFile sampleRnd 50 Game.initial = .ok s1
      ∧ countKind g0 .SUPER_PELLET = 1
      ∧ countKind s1.map .SUPER_PELLET = 2
      ∧ s1.map.tile 2 13 = .SUPER_PELLET ∧ s1.map.tile 6 17 = .SUPER_PELLET
      ∧ s1.map.tile 7 10 = .FRUIT
      ∧ countKind s1.map .SUPER_PELLET ≠ countKind g0 .SUPER_PELLET + 2 := by
  have hload : LoadMapFromFile pelletFile Game.initial.map
      = .ok (loadedGrid ["", "", "", "", "", "", "", "..........U"] Game.initial.map) :=
    LoadMapFromFile_lines _ _
  have h0 : countKind (loadedGrid ["", "", "", "", "", "", "", "..........U"]
      Game.initial.map) .SUPER_PELLET = 1 := by decide!
  have h : endsWith (InitGame pelletFile sampleRnd 50 Game.initial)
      (fun u => decide (countKind u.map .SUPER_PELLET = 2
        ∧ u.map.tile 2 13 = .SUPER_PELLET ∧ u.map.tile 6 17 = .SUPER_PELLET
        ∧ u.map.tile 7 10 = .FRUIT)) = true := by decide!
  obtain ⟨s1, hs1, hp⟩ := endsWith_elim h
  obtain ⟨a1, a2, a3, a4⟩ := of_decide_eq_true hp
  refine ⟨_, s1, hload, hs1, h0, a1, a2, a3, a4, ?_⟩
  rw [a1, h0]
  decide

/-- The case the amended C15 leaves aside: on the empty start-up grid, with the first two
draws of the seeding loop selecting column 9 of row 7, the loop seeds that cell and the door
written afterwards replaces the super pellet: the grid at the end of `InitGame` holds one
super pellet. -/
theorem seeded_pellet_overwritten :
    ∃ s1, InitGame none doorRnd 50 Game.initial = .ok s1
      ∧ GetRandomValue doorRnd 6 1 ((mapWidth : Int) - 2) = 9
      ∧ GetRandomValue doorRnd 7 1 ((mapHeight : Int) - 2) = 7
      ∧ Game.initial.map.tile 7 9 = .EMPTY
      ∧ s1.map.tile 7 9 = .DOOR
      ∧ countKind Game.initial.map .SUPER_PELLET = 0
      ∧ countKind s1.map .SUPER_PELLET = 1 := by
  have h : endsWith (InitGame none doorRnd 50 Game.initial)
      (fun u => decide (u.map.tile 7 9 = .DOOR ∧ countKind u.map .SUPER_PELLET = 1))
      = true := by decide!
  obtain ⟨s1, hs1, hp⟩ := endsWith_elim h
  obtain ⟨a1, a2⟩ := of_decide_eq_true hp
  exact ⟨s1, hs1, by decide, by decide, rfl, a1, by decide!, a2⟩

/-- C15, amended. When `InitGame` finishes, its seeding loop has turned exactly two cells into
`SUPER_PELLET`: two different cells of columns 1..18 and rows 1..13 that were `EMPTY` after
the map was loaded; the final grid is the seeded one with `DOOR`, `FRUIT`, `DOOR` written into
columns 9, 10, 11 of row 7; and when neither seeded cell is one of these three cells, both
hold `SUPER_PELLET` at the end of `InitGame`, whose grid then holds exactly two more
`SUPER_PELLET` cells than the freshly loaded map held outside those three cells. -/
theorem seeding_rule (file : Option (List String)) (rnd : Nat → Nat) (fuel : Nat)
    (s s1 : Game) (g0 : Grid) (hload : LoadMapFromFile file s.map = .ok g0)
    (h : InitGame file rnd fuel s = .ok s1) :
    ∃ (r1 r2 : Fin mapHeight) (c1 c2 : Fin mapWidth),
      ¬ (r2 = r1 ∧ c2 = c1) ∧ Seedable r1 c1 ∧ Seedable r2 c2
        ∧ g0.tile r1 c1 = .EMPTY ∧ g0.tile r2 c2 = .EMPTY
        ∧ seedSuperPellets rnd fuel 0 (s.randomCalls + 6) g0
            = .ok ((g0.set r1 c1 .SUPER_PELLET).set r2 c2 .SUPER_PELLET, s1.randomCalls)
        ∧ s1.map = ((((g0.set r1 c1 .SUPER_PELLET).set r2 c2 .SUPER_PELLET).set 7 9
            .DOOR).set 7 10 .FRUIT).set 7 11 .DOOR
        ∧ (¬ FixedCell r1 c1 → ¬ FixedCell r2 c2 →
            s1.map.tile r1 c1 = .SUPER_PELLET ∧ s1.map.tile r2 c2 = .SUPER_PELLET
              ∧ countKind s1.map .SUPER_PELLET = countKindOutside g0 .SUPER_PELLET + 2) := by
  obtain ⟨r1, r2, c1, c2, hs1, hs2, hne, he1, he2, hm, hseed⟩ :=
    initGame_map file rnd fuel s s1 g0 hload h
  refine ⟨r1, r2, c1, c2, hne, hs1, hs2, he1, he2, hseed, hm, ?_⟩
  intro hf1 hf2
  rw [hm]
  refine ⟨?_, ?_, countKind_seeded g0 r1 r2 c1 c2 hne he1 he2 hf1 hf2⟩
  · rw [placed_outside _ _ _ hf1, seeded_tiles, if_pos (Or.inl ⟨rfl, rfl⟩)]
  · rw [placed_outside _ _ _ hf2, seeded_tiles, if_pos (Or.inr ⟨rfl, rfl⟩)]

/-- Witness of C15 amended: the description with a super pellet under the fruit; the two
seeded cells are column 13 of row 2 and column 17 of row 6, and the count at the end is
0 + 2. -/
theorem seeding_rule_witness :
    ∃ g0 s1, LoadMapFromFile pelletFile Game.initial.map = .ok g0
      ∧ InitGame pelletFile sampleRnd 50 Game.initial = .ok s1
      ∧ countKindOutside g0 .SUPER_PELLET = 0 ∧ countKind s1.map .SUPER_PELLET = 2
      ∧ ∃ (r1 r2 : Fin mapHeight) (c1 c2 : Fin mapWidth),
        ¬ (r2 = r1 ∧ c2 = c1) ∧ Seedable r1 c1 ∧ Seedable r2 c2
          ∧ g0.tile r1 c1 = .EMPTY ∧ g0.tile r2 c2 = .EMPTY
          ∧ seedSuperPellets sampleRnd 50 0 (Game.initial.randomCalls + 6) g0
              = .ok ((g0.set r1 c1 .SUPER_PELLET).set r2 c2 .SUPER_PELLET, s1.randomCalls)
          ∧ s1.map = ((((g0.set r1 c1 .SUPER_PELLET).set r2 c2 .SUPER_PELLET).set 7 9
              .DOOR).set 7 10 .FRUIT).set 7 11 .DOOR
          ∧ (¬ FixedCell r1 c1 → ¬ FixedCell r2 c2 →
              s1.map.tile r1 c1 = .SUPER_PELLET ∧ s1.map.tile r2 c2 = .SUPER_PELLET
                ∧ countKind s1.map .SUPER_PELLET = countKindOutside g0 .SUPER_PELLET + 2) := by
  have hload : LoadMapFromFile pelletFile Game.initial.map
      = .ok (loadedGrid ["", "", "", "", "", "", "", "..........U"] Game.initial.map) :=
    LoadMapFromFile_lines _ _
  have hok : endsWith (InitGame pelletFile sampleRnd 50 Game.initial)
      (fun u => decide (countKind u.map .SUPER_PELLET = 2)) = true := by decide!
  obtain ⟨s1, hs1, hp⟩ := endsWith_elim hok
  exact ⟨_, s1, hload, hs1, by decide!, of_decide_eq_true hp,
    seeding_rule pelletFile sampleRnd 50 Game.initial s1 _ hload hs1⟩


/-! ## Properties kept by every stage of a frame -/

theorem ghostBody_preserves (P : Game → Prop) (file : Option (List String)) (rnd : Nat → Nat)
    (fuel : Nat)
    (hmv : ∀ (i : Nat) (ghost : Entity) (s s1 : Game), s.ghosts[i]? = some ghost →
      ghostMovement rnd i ghost s = .ok s1 → P s → P s1)
    (hcc : ∀ (i : Nat) (ghost : Entity) (s s1 : Game), s.ghosts[i]? = some ghost →
      checkCollision file rnd fuel i ghost s = .ok s1 → P s → P s1)
    (i : Nat) (s s1 : Game) (h : ghostBody file rnd fuel i s = .ok s1) (hp : P s) : P s1 := by
  unfold ghostBody at h
  split at h
  · cases h
    exact hp
  · rename_i ghost hg
    split at h
    · cases h
    · rename_i s2 hm
      have hp2 := hmv i ghost s s2 hg hm hp
      split at h
      · cases h
        exact hp2
      · rename_i ghost1 hg1
        exact hcc i ghost1 s2 s1 hg1 h hp2

theorem ghostLoop_preserves (P : Game → Prop) (file : Option (List String)) (rnd : Nat → Nat)
    (fuel : Nat)
    (hmv : ∀ (i : Nat) (ghost : Entity) (s s1 : Game), s.ghosts[i]? = some ghost →
      ghostMovement rnd i ghost s = .ok s1 → P s → P s1)
    (hcc : ∀ (i : Nat) (ghost : Entity) (s s1 : Game), s.ghosts[i]? = some ghost →
      checkCollision file rnd fuel i ghost s = .ok s1 → P s → P s1)
    (count : Nat) :
    ∀ (i : Nat) (s s1 : Game), ghostLoop file rnd fuel count i s = .ok s1 → P s → P s1 := by
  induction count with
  | zero =>
    intro i s s1 h hp
    unfold ghostLoop at h
    cases h
    exact hp
  | succ count ih =>
    intro i s s1 h hp
    unfold ghostLoop at h
    split at h
    · cases h
    · rename_i s2 hb
      exact ih (i + 1) s2 s1 h (ghostBody_preserves P file rnd fuel hmv hcc i s s2 hb hp)

theorem updateGame_preserves (P : Game → Prop) (file : Option (List String))
    (rnd : Nat → Nat) (fuel : Nat)
    (hin : ∀ (inp : Input) (s : Game), P s → P (playerInput inp s))
    (hpm : ∀ (s s1 : Game), playerMovement s = .ok s1 → P s → P s1)
    (hpu : ∀ (dt : ℚ) (s : Game), P s → P (updatePowerUp dt s))
    (hmv : ∀ (i : Nat) (ghost : Entity) (s s1 : Game), s.ghosts[i]? = some ghost →
      ghostMovement rnd i ghost s = .ok s1 → P s → P s1)
    (hcc : ∀ (i : Nat) (ghost : Entity) (s s1 : Game), s.ghosts[i]? = some ghost →
      checkCollision file rnd fuel i ghost s = .ok s1 → P s → P s1)
    (hst : ∀ (dt : ℚ) (s s1 : Game), starSpawning rnd dt s = .ok s1 → P s → P s1)
    (hsy : ∀ (dt : ℚ) (s : Game), P s → P (updateCenterBoxSymbols rnd dt s))
    (hex : ∀ (s : Game), P s → P (extraLife s))
    (inp : Input) (s s1 : Game) (h : UpdateGame file rnd fuel inp s = .ok s1) (hp : P s) :
    P s1 := by
  unfold UpdateGame at h
  split at h
  · cases h
  · rename_i t ht
    cases h
    apply hex
    unfold updateBeforeExtraLife at ht
    split at ht
    · cases ht
    · rename_i s2 hm
      simp only at ht
      split at ht
      · cases ht
      · rename_i s3 hloop
        split at ht
        · cases ht
        · rename_i s4 hstar
          cases ht
          apply hsy
          apply hst _ _ _ hstar
          apply ghostLoop_preserves P file rnd fuel hmv hcc _ _ _ _ hloop
          apply hpu
          exact hpm _ _ hm (hin inp s hp)

theorem encounterAt_preserves (P : Game → Prop) (file : Option (List String))
    (rnd : Nat → Nat) (fuel : Nat)
    (hin : ∀ (inp : Input) (s : Game), P s → P (playerInput inp s))
    (hpm : ∀ (s s1 : Game), playerMovement s = .ok s1 → P s → P s1)
    (hpu : ∀ (dt : ℚ) (s : Game), P s → P (updatePowerUp dt s))
    (hmv : ∀ (i : Nat) (ghost : Entity) (s s1 : Game), s.ghosts[i]? = some ghost →
      ghostMovement rnd i ghost s = .ok s1 → P s → P s1)
    (hcc : ∀ (i : Nat) (ghost : Entity) (s s1 : Game), s.ghosts[i]? = some ghost →
      checkCollision file rnd fuel i ghost s = .ok s1 → P s → P s1)
    (inp : Input) (s : Game) (i : Nat) (ghost : Entity) (u : Game)
    (h : EncounterAt file rnd fuel inp s i ghost u) (hp : P s) : P u := by
  obtain ⟨s1, v, ghost0, hm, _, hloop, hg0, hmove, _⟩ := h
  apply hmv i ghost0 v u hg0 hmove
  apply ghostLoop_preserves P file rnd fuel hmv hcc _ _ _ _ hloop
  apply hpu
  exact hpm _ _ hm (hin inp s hp)

theorem reachable_preserves (P : Game → Prop) (file : Option (List String))
    (rnd : Nat → Nat)
    (hinit : ∀ (fuel : Nat) (s s1 : Game), InitGame file rnd fuel s = .ok s1 → P s1)
    (hframe : ∀ (fuel : Nat) (inp : Input) (s s1 : Game),
      UpdateGame file rnd fuel inp s = .ok s1 → P s → P s1)
    (s : Game) (h : Reachable file rnd s) : P s := by
  induction h with
  | init fuel s hs => exact hinit fuel _ s hs
  | frame fuel inp s s1 _ hs ih => exact hframe fuel inp s s1 hs ih

/-! ## The lives count -/

theorem updatePowerUp_lives (dt : ℚ) (s : Game) :
    (updatePowerUp dt s).playerLives = s.playerLives := by
  unfold updatePowerUp
  split
  · simp only
    split <;> rfl
  · rfl

theorem checkCollision_lives (file : Option (List String)) (rnd : Nat → Nat) (fuel i : Nat)
    (ghost : Entity) (s s1 : Game) (h : checkCollision file rnd fuel i ghost s = .ok s1)
    (hl : LivesInRange s) : LivesInRange s1 := by
  unfold LivesInRange at hl ⊢
  unfold checkCollision at h
  split at h
  · split at h
    · cases h
      exact hl
    · split at h
      · simp only at h
        split at h
        · rename_i hpos
          cases h
          rw [(resetPlayerPosition_lives rnd _).1]
          simp only at hpos ⊢
          omega
        · obtain ⟨_, h3, _⟩ := initGame_post file rnd fuel _ s1 h
          rw [h3]
          decide
      · cases h
        exact hl
  · cases h
    exact hl

theorem extraLife_lives (s : Game) (hl : LivesInRange s) : LivesInRange (extraLife s) := by
  unfold LivesInRange at hl ⊢
  unfold extraLife
  split
  · rename_i h
    simp only
    have := h.2
    omega
  · exact hl

theorem livesInRange_frame (file : Option (List String)) (rnd : Nat → Nat) (fuel : Nat)
    (inp : Input) (s s1 : Game) (h : UpdateGame file rnd fuel inp s = .ok s1)
    (hl : LivesInRange s) : LivesInRange s1 := by
  refine updateGame_preserves LivesInRange file rnd fuel ?_ ?_ ?_ ?_ ?_ ?_ ?_ ?_ inp s s1 h hl
  · intro inp s hp
    exact hp
  · intro s s1 h hp
    obtain ⟨s2, h2, hlives, _⟩ := playerMovement_total s
    rw [h2] at h
    cases h
    unfold LivesInRange at hp ⊢
    rw [hlives]
    exact hp
  · intro dt s hp
    unfold LivesInRange at hp ⊢
    rw [updatePowerUp_lives]
    exact hp
  · intro i ghost s s1 _ h hp
    obtain ⟨_, hlives, _⟩ := ghostMovement_keeps rnd i ghost s s1 h
    unfold LivesInRange at hp ⊢
    rw [hlives]
    exact hp
  · intro i ghost s s1 _ h hp
    exact checkCollision_lives file rnd fuel i ghost s s1 h hp
  · intro dt s s1 h hp
    obtain ⟨_, _, _, hlives⟩ := starSpawning_frame rnd dt s s1 h
    unfold LivesInRange at hp ⊢
    rw [hlives]
    exact hp
  · intro dt s hp
    obtain ⟨_, _, _, hlives⟩ := updateCenterBoxSymbols_frame rnd dt s
    unfold LivesInRange at hp ⊢
    rw [hlives]
    exact hp
  · exact extraLife_lives

theorem livesInRange_init (file : Option (List String)) (rnd : Nat → Nat) (fuel : Nat)
    (s s1 : Game) (h : InitGame file rnd fuel s = .ok s1) : LivesInRange s1 := by
  obtain ⟨_, h3, _⟩ := initGame_post file rnd fuel s s1 h
  unfold LivesInRange
  rw [h3]
  decide

theorem livesInRange_reachable (file : Option (List String)) (rnd : Nat → Nat) (s : Game)
    (h : Reachable file rnd s) : LivesInRange s :=
  reachable_preserves LivesInRange file rnd (livesInRange_init file rnd)
    (livesInRange_frame file rnd) s h

theorem livesInRange_encounter (file : Option (List String)) (rnd : Nat → Nat) (fuel : Nat)
    (inp : Input) (s : Game) (i : Nat) (ghost : Entity) (u : Game)
    (h : EncounterAt file rnd fuel inp s i ghost u) (hl : LivesInRange s) :
    LivesInRange u := by
  refine encounterAt_preserves LivesInRange file rnd fuel ?_ ?_ ?_ ?_ ?_ inp s i ghost u h hl
  · intro inp s hp
    exact hp
  · intro s s1 h hp
    obtain ⟨s2, h2, hlives, _⟩ := playerMovement_total s
    rw [h2] at h
    cases h
    unfold LivesInRange at hp ⊢
    rw [hlives]
    exact hp
  · intro dt s hp
    unfold LivesInRange at hp ⊢
    rw [updatePowerUp_lives]
    exact hp
  · intro i ghost s s1 _ h hp
    obtain ⟨_, hlives, _⟩ := ghostMovement_keeps rnd i ghost s s1 h
    unfold LivesInRange at hp ⊢
    rw [hlives]
    exact hp
  · intro i ghost s s1 _ h hp
    exact checkCollision_lives file rnd fuel i ghost s s1 h hp

/-! ## The coupling of the modes -/

theorem modeCoupled_of_fields {s s1 : Game}
    (h1 : s1.player.isPoweredUp = s.player.isPoweredUp)
    (h2 : s1.player.radius = s.player.radius) (h3 : s1.player.speed = s.player.speed)
    (h4 : s1.ghosts = s.ghosts) (hc : ModeCoupled s) : ModeCoupled s1 := by
  intro hnp
  rw [h1] at hnp
  obtain ⟨a, b, c, d⟩ := hc hnp
  refine ⟨?_, ?_, ?_, ?_⟩
  · rw [h1]
    exact a
  · rw [h2]
    exact b
  · rw [h3]
    exact c
  · rw [h4]
    exact d

theorem modeCoupled_of_powered {s : Game} (h : s.player.isPoweredUp = true) :
    ModeCoupled s := by
  intro hnp
  rw [h] at hnp
  cases hnp

theorem collectItems_modes (r : Fin mapHeight) (c : Fin mapWidth) (t : TileType)
    (s s1 : Game) (h : collectItems ((r : Nat) : Int) ((c : Nat) : Int) t s = .ok s1) :
    s1.player.isPoweredUp = true
      ∨ (s1.player.isPoweredUp = s.player.isPoweredUp ∧ s1.player.radius = s.player.radius
          ∧ s1.player.speed = s.player.speed ∧ s1.ghosts = s.ghosts) := by
  cases t <;> unfold collectItems at h <;> simp only [Grid.write_fin] at h
  · cases h
    exact Or.inr ⟨rfl, rfl, rfl, rfl⟩
  · cases h
    exact Or.inr ⟨rfl, rfl, rfl, rfl⟩
  · split at h
    · cases h
      exact Or.inr ⟨rfl, rfl, rfl, rfl⟩
    · cases h
      exact Or.inr ⟨rfl, rfl, rfl, rfl⟩
  · cases h
    exact Or.inr ⟨rfl, rfl, rfl, rfl⟩
  · cases h
    exact Or.inr ⟨rfl, rfl, rfl, rfl⟩
  · cases h
    exact Or.inl rfl
  · obtain ⟨bonus, hb, _⟩ := starBonus_total s.centerBoxSymbols (s.map.set r c .EMPTY)
    rw [hb] at h
    cases h
    exact Or.inr ⟨rfl, rfl, rfl, rfl⟩
  · cases h
    exact Or.inl rfl
  · cases h
    exact Or.inr ⟨rfl, rfl, rfl, rfl⟩

theorem modeCoupled_playerMovement (s s1 : Game) (h : playerMovement s = .ok s1)
    (hc : ModeCoupled s) : ModeCoupled s1 := by
  by_cases hb : inBounds (cellY (candidate s.player)) (cellX (candidate s.player))
  · obtain ⟨r, c, hr, hcol⟩ := inBounds_exists hb
    rw [playerMovement_at s r c hr hcol] at h
    split at h
    · rcases collectItems_modes r c _ _ s1 h with hp | ⟨h1, h2, h3, h4⟩
      · exact modeCoupled_of_powered hp
      · exact modeCoupled_of_fields h1 h2 h3 h4 hc
    · cases h
      exact hc
  · rw [playerMovement_outside s hb] at h
    cases h
    exact hc

theorem modeCoupled_updatePowerUp (dt : ℚ) (s : Game) (hc : ModeCoupled s) :
    ModeCoupled (updatePowerUp dt s) := by
  by_cases hp : s.player.isPoweredUp = true
  · by_cases he : s.player.powerUpTimer - dt ≤ 0
    · intro _
      exact updatePowerUp_expired dt s hp he
    · rw [updatePowerUp_running dt s hp (not_le.mp he)]
      exact modeCoupled_of_powered hp
  · have : updatePowerUp dt s = s := by
      unfold updatePowerUp
      rw [if_neg hp]
    rw [this]
    exact hc

theorem checkCollision_powered (file : Option (List String)) (rnd : Nat → Nat) (fuel i : Nat)
    (ghost : Entity) (s s1 : Game) (h : checkCollision file rnd fuel i ghost s = .ok s1)
    (hp : s.player.isPoweredUp = true) : s1.player.isPoweredUp = true := by
  unfold checkCollision at h
  split at h
  · split at h
    · cases h
      exact hp
    · split at h
      · rename_i hh
        rw [hp] at hh
        simp at hh
      · cases h
        exact hp
  · cases h
    exact hp

theorem modeCoupled_ghostMovement (rnd : Nat → Nat) (i : Nat) (ghost : Entity) (s s1 : Game)
    (hg : s.ghosts[i]? = some ghost) (h : ghostMovement rnd i ghost s = .ok s1)
    (hc : ModeCoupled s) : ModeCoupled s1 := by
  by_cases hp : s.player.isPoweredUp = true
  · obtain ⟨_, _, hpl, _⟩ := ghostMovement_keeps rnd i ghost s s1 h
    apply modeCoupled_of_powered
    rw [hpl]
    exact hp
  · intro _
    exact normalMode_ghostMovement rnd i ghost s s1 hg h (hc (by simpa using hp))

theorem modeCoupled_checkCollision (file : Option (List String)) (rnd : Nat → Nat)
    (fuel i : Nat) (ghost : Entity) (s s1 : Game)
    (h : checkCollision file rnd fuel i ghost s = .ok s1) (hc : ModeCoupled s) :
    ModeCoupled s1 := by
  by_cases hp : s.player.isPoweredUp = true
  · exact modeCoupled_of_powered (checkCollision_powered file rnd fuel i ghost s s1 h hp)
  · intro _
    exact normalMode_checkCollision file rnd fuel i ghost s s1 h (hc (by simpa using hp))

theorem modeCoupled_frame (file : Option (List String)) (rnd : Nat → Nat) (fuel : Nat)
    (inp : Input) (s s1 : Game) (h : UpdateGame file rnd fuel inp s = .ok s1)
    (hc : ModeCoupled s) : ModeCoupled s1 := by
  refine updateGame_preserves ModeCoupled file rnd fuel ?_ ?_ ?_ ?_ ?_ ?_ ?_ ?_ inp s s1 h hc
  · intro inp s hp
    exact modeCoupled_of_fields rfl rfl rfl rfl hp
  · exact modeCoupled_playerMovement
  · exact modeCoupled_updatePowerUp
  · exact modeCoupled_ghostMovement rnd
  · intro i ghost s s1 _ h hp
    exact modeCoupled_checkCollision file rnd fuel i ghost s s1 h hp
  · intro dt s s1 h hp
    obtain ⟨h1, h2, _, _⟩ := starSpawning_frame rnd dt s s1 h
    exact modeCoupled_of_fields (by rw [h1]) (by rw [h1]) (by rw [h1]) h2 hp
  · intro dt s hp
    obtain ⟨h1, h2, _, _⟩ := updateCenterBoxSymbols_frame rnd dt s
    exact modeCoupled_of_fields (by rw [h1]) (by rw [h1]) (by rw [h1]) h2 hp
  · intro s hp
    obtain ⟨h1, h2⟩ := extraLife_frame s
    exact modeCoupled_of_fields (by rw [h1]) (by rw [h1]) (by rw [h1]) h2 hp

theorem modeCoupled_reachable (file : Option (List String)) (rnd : Nat → Nat) (s : Game)
    (h : Reachable file rnd s) : ModeCoupled s :=
  reachable_preserves ModeCoupled file rnd
    (fun fuel s0 s1 hs _ => normalMode_init file rnd fuel s0 s1 hs)
    (modeCoupled_frame file rnd) s h

theorem modeCoupled_encounter (file : Option (List String)) (rnd : Nat → Nat) (fuel : Nat)
    (inp : Input) (s : Game) (i : Nat) (ghost : Entity) (u : Game)
    (h : EncounterAt file rnd fuel inp s i ghost u) (hc : ModeCoupled s) :
    ModeCoupled u := by
  refine encounterAt_preserves ModeCoupled file rnd fuel ?_ ?_ ?_ ?_ ?_ inp s i ghost u h hc
  · intro inp s hp
    exact modeCoupled_of_fields rfl rfl rfl rfl hp
  · exact modeCoupled_playerMovement
  · exact modeCoupled_updatePowerUp
  · exact modeCoupled_ghostMovement rnd
  · intro i ghost s s1 _ h hp
    exact modeCoupled_checkCollision file rnd fuel i ghost s s1 h hp

/-! ## The soft reset -/

theorem resetGhosts_spec (rnd : Nat → Nat) (ghosts : List Entity) :
    ∀ (n : Nat), (resetGhosts rnd n ghosts).1.length = ghosts.length
      ∧ ∀ (j : Nat) (ghost1 : Entity), (resetGhosts rnd n ghosts).1[j]? = some ghost1 →
          ∃ ghost0, ghosts[j]? = some ghost0
            ∧ ghost1.position = ghost0.startPosition
            ∧ ghost1.startPosition = ghost0.startPosition
            ∧ AxisUnit ghost1.direction
            ∧ ghost1.isVulnerable = false ∧ ghost1.isFlattened = false := by
  induction ghosts with
  | nil =>
    intro n
    refine ⟨rfl, ?_⟩
    intro j ghost1 h
    simp [resetGhosts] at h
  | cons ghost rest ih =>
    intro n
    obtain ⟨hlen, hrest⟩ := ih (n + 1)
    refine ⟨?_, ?_⟩
    · simp only [resetGhosts, List.length_cons, hlen]
    · intro j ghost1 h
      cases j with
      | zero =>
        simp only [resetGhosts, List.getElem?_cons_zero, Option.some.injEq] at h
        subst h
        exact ⟨ghost, List.getElem?_cons_zero, rfl, rfl, randomHorizontal_axis rnd n, rfl, rfl⟩
      | succ j =>
        simp only [resetGhosts, List.getElem?_cons_succ] at h
        obtain ⟨ghost0, h0, hrest0⟩ := hrest j ghost1 h
        exact ⟨ghost0, by simpa using h0, hrest0⟩

theorem resetPlayerPosition_spec (rnd : Nat → Nat) (s : Game) :
    (ResetPlayerPosition rnd s).player.position = s.player.startPosition
      ∧ (ResetPlayerPosition rnd s).player.direction = ⟨1, 0⟩
      ∧ (ResetPlayerPosition rnd s).player.isPoweredUp = false
      ∧ (ResetPlayerPosition rnd s).player.speed = normalSpeed
      ∧ (ResetPlayerPosition rnd s).player.radius = s.player.radius
      ∧ (ResetPlayerPosition rnd s).ghosts.length = s.ghosts.length
      ∧ (∀ (j : Nat) (ghost1 : Entity), (ResetPlayerPosition rnd s).ghosts[j]? = some ghost1 →
          ∃ ghost0, s.ghosts[j]? = some ghost0
            ∧ ghost1.position = ghost0.startPosition
            ∧ ghost1.startPosition = ghost0.startPosition
            ∧ AxisUnit ghost1.direction
            ∧ ghost1.isVulnerable = false ∧ ghost1.isFlattened = false) := by
  obtain ⟨hlen, hrest⟩ := resetGhosts_spec rnd s.ghosts s.randomCalls
  exact ⟨rfl, rfl, rfl, rfl, rfl, hlen, hrest⟩

theorem encounterAt_member (file : Option (List String)) (rnd : Nat → Nat) (fuel : Nat)
    (inp : Input) (s : Game) (i : Nat) (ghost : Entity) (u : Game)
    (h : EncounterAt file rnd fuel inp s i ghost u) : ghost ∈ u.ghosts := by
  obtain ⟨_, _, _, _, _, _, _, _, hg⟩ := h
  exact List.getElem?_mem hg

theorem ghostLoop_append (file : Option (List String)) (rnd : Nat → Nat) (fuel : Nat)
    (a b : Nat) : ∀ (i : Nat) (s : Game),
      ghostLoop file rnd fuel (a + b) i s
        = match ghostLoop file rnd fuel a i s with
          | .error e => .error e
          | .ok s1 => ghostLoop file rnd fuel b (i + a) s1 := by
  induction a with
  | zero =>
    intro i s
    simp only [Nat.zero_add, Nat.add_zero]
    rfl
  | succ a ih =>
    intro i s
    have e : a + 1 + b = (a + b) + 1 := by omega
    rw [e]
    show (match ghostBody file rnd fuel i s with
        | Except.error e => Except.error e
        | Except.ok s1 => ghostLoop file rnd fuel (a + b) (i + 1) s1)
      = match (match ghostBody file rnd fuel i s with
          | Except.error e => (Except.error e : Except Fault Game)
          | Except.ok s1 => ghostLoop file rnd fuel a (i + 1) s1) with
        | Except.error e => Except.error e
        | Except.ok s1 => ghostLoop file rnd fuel b (i + (a + 1)) s1
    cases ghostBody file rnd fuel i s with
    | error e => rfl
    | ok s2 =>
      simp only
      rw [ih (i + 1) s2]
      have e2 : i + 1 + a = i + (a + 1) := by omega
      rw [e2]

theorem encounterAt_in_loop (file : Option (List String)) (rnd : Nat → Nat) (fuel : Nat)
    (inp : Input) (s : Game) (i : Nat) (ghost : Entity) (u : Game)
    (h : EncounterAt file rnd fuel inp s i ghost u) :
    ∃ s1, playerMovement (playerInput inp s) = .ok s1
      ∧ ghostLoop file rnd fuel (updatePowerUp inp.frameTime s1).ghosts.length 0
          (updatePowerUp inp.frameTime s1)
        = match checkCollision file rnd fuel i ghost u with
          | .error e => .error e
          | .ok w =>
            ghostLoop file rnd fuel ((updatePowerUp inp.frameTime s1).ghosts.length - i - 1)
              (i + 1) w := by
  obtain ⟨s1, v, ghost0, hm, hlt, hloop, hg0, hmove, hg⟩ := h
  refine ⟨s1, hm, ?_⟩
  have e : (updatePowerUp inp.frameTime s1).ghosts.length
      = i + (((updatePowerUp inp.frameTime s1).ghosts.length - i - 1) + 1) := by omega
  have hbody : ghostBody file rnd fuel i v = checkCollision file rnd fuel i ghost u := by
    unfold ghostBody
    rw [hg0]
    simp only
    rw [hmove]
    simp only
    rw [hg]
  have hstep : ∀ (k : Nat), ghostLoop file rnd fuel (k + 1) i v
      = match ghostBody file rnd fuel i v with
        | .error e => .error e
        | .ok w => ghostLoop file rnd fuel k (i + 1) w := fun _ => rfl
  nth_rewrite 1 [e]
  rw [ghostLoop_append, hloop]
  simp only [Nat.zero_add]
  rw [hstep, hbody]


/-! ## Safety of the grid accesses -/

/-- C17. For every map description, input, frame time and stream of random values (each draw
lies in the range requested from the generator), no read or write of the grid made by
`LoadMapFromFile`, `InitGame` or `UpdateGame` falls outside columns [0, 20) and rows [0, 15):
the load always succeeds, `InitGame` and `UpdateGame` never report an access out of bounds,
the cells drawn for the seeding and for the star lie in columns 1..18, rows 1..13 and
columns 9..10, rows 6..8, and the accessors report that fault exactly for an index outside
the array. -/
theorem grid_access_safety (file : Option (List String)) (rnd : Nat → Nat) (fuel : Nat)
    (inp : Input) (s : Game) :
    (∃ g0, LoadMapFromFile file s.map = .ok g0)
    ∧ NoOutOfBounds (InitGame file rnd fuel s)
    ∧ NoOutOfBounds (UpdateGame file rnd fuel inp s)
    ∧ (∀ (n : Nat), ∃ (r : Fin mapHeight) (c : Fin mapWidth),
        GetRandomValue rnd (n + 1) 1 ((mapHeight : Int) - 2) = ((r : Nat) : Int)
          ∧ GetRandomValue rnd n 1 ((mapWidth : Int) - 2) = ((c : Nat) : Int)
          ∧ Seedable r c)
    ∧ (∀ (n : Nat), ∃ (r : Fin mapHeight) (c : Fin mapWidth),
        GetRandomValue rnd (n + 1) 6 8 = ((r : Nat) : Int)
          ∧ GetRandomValue rnd n 9 10 = ((c : Nat) : Int)
          ∧ 6 ≤ (r : Nat) ∧ (r : Nat) ≤ 8 ∧ 9 ≤ (c : Nat) ∧ (c : Nat) ≤ 10)
    ∧ (∀ (g : Grid) (row col : Int),
        (g.read row col = .error .outOfBounds ↔ ¬ inBounds row col)
          ∧ ∀ (t : TileType), g.write row col t = .error .outOfBounds ↔ ¬ inBounds row col) := by
  refine ⟨LoadMapFromFile_total file s.map, initGame_safe file rnd fuel s,
    updateGame_safe file rnd fuel inp s, seed_draw rnd, star_draw rnd, ?_⟩
  intro g row col
  by_cases hb : inBounds row col
  · obtain ⟨r, c, rfl, rfl⟩ := inBounds_exists hb
    refine ⟨?_, ?_⟩
    · rw [Grid.read_fin]
      simp [hb]
    · intro t
      rw [Grid.write_fin]
      simp [hb]
  · refine ⟨?_, ?_⟩
    · unfold Grid.read
      rw [Grid.get?_outside g hb]
      simp [hb]
    · intro t
      unfold Grid.write Grid.set?
      rw [dif_neg hb]
      simp [hb]

/-! ## The lives count -/

/-- C11. In every state reachable from the initial `InitGame` by frames of `UpdateGame`,
whatever the inputs, frame times and random values, 0 <= playerLives <= maxLives = 5; and the
extra-life stage never raises a lives count of at most 5 above 5. -/
theorem lives_bound (file : Option (List String)) (rnd : Nat → Nat) (s : Game)
    (h : Reachable file rnd s) :
    (0 ≤ s.playerLives ∧ s.playerLives ≤ maxLives ∧ s.playerLives ≤ 5)
      ∧ ∀ (t : Game), t.playerLives ≤ 5 → (extraLife t).playerLives ≤ 5 := by
  obtain ⟨h1, h2⟩ := livesInRange_reachable file rnd s h
  refine ⟨⟨by omega, h2, h2⟩, ?_⟩
  intro t ht
  unfold extraLife
  split
  · rename_i hf
    have hlt : t.playerLives < 5 := hf.2
    show t.playerLives + 1 ≤ 5
    omega
  · exact ht

/-- Witness of C11: the state of the recorded game after the first life was lost. -/
theorem lives_bound_witness :
    Reachable maizeFile sampleRnd (checkpoint 4)
      ∧ (0 ≤ (checkpoint 4).playerLives ∧ (checkpoint 4).playerLives ≤ maxLives
          ∧ (checkpoint 4).playerLives ≤ 5)
      ∧ ∀ (t : Game), t.playerLives ≤ 5 → (extraLife t).playerLives ≤ 5 :=
  ⟨checkpoint_reachable_4, lives_bound maizeFile sampleRnd (checkpoint 4) checkpoint_reachable_4⟩

/-- C19. In every state reachable from the initial `InitGame`, that is at the end of every
frame, playerLives >= 1; and in every encounter test of every ghost of a frame that starts in
such a state the lives are at least 1 before and after the test: when the test takes the last
life, its result is the result of `InitGame`, with three lives and score 0. -/
theorem lives_never_rest_at_zero (file : Option (List String)) (rnd : Nat → Nat) (s : Game)
    (h : Reachable file rnd s) :
    1 ≤ s.playerLives
      ∧ ∀ (fuel : Nat) (inp : Input) (i : Nat) (ghost : Entity) (u w : Game),
          EncounterAt file rnd fuel inp s i ghost u →
          checkCollision file rnd fuel i ghost u = .ok w →
            1 ≤ u.playerLives ∧ 1 ≤ w.playerLives
              ∧ (LosesLife ghost u → u.playerLives = 1 →
                  InitGame file rnd fuel { u with playerLives := u.playerLives - 1 } = .ok w
                    ∧ w.playerLives = 3 ∧ w.score = 0) := by
  have hl := livesInRange_reachable file rnd s h
  refine ⟨hl.1, ?_⟩
  intro fuel inp i ghost u w he hc
  have hu := livesInRange_encounter file rnd fuel inp s i ghost u he hl
  have hw := checkCollision_lives file rnd fuel i ghost u w hc hu
  refine ⟨hu.1, hw.1, ?_⟩
  intro hlose hone
  obtain ⟨hov, hp, hf⟩ := hlose
  rw [checkCollision_harm file rnd fuel i ghost u hov hp hf, if_neg (by omega)] at hc
  obtain ⟨h0, h3, _⟩ := initGame_post file rnd fuel _ w hc
  exact ⟨hc, h3, h0⟩

/-- Witness of C19: the last state of the recorded game, with one life left. -/
theorem lives_never_rest_at_zero_witness :
    Reachable maizeFile sampleRnd (checkpoint 12)
      ∧ 1 ≤ (checkpoint 12).playerLives
      ∧ ∀ (fuel : Nat) (inp : Input) (i : Nat) (ghost : Entity) (u w : Game),
          EncounterAt maizeFile sampleRnd fuel inp (checkpoint 12) i ghost u →
          checkCollision maizeFile sampleRnd fuel i ghost u = .ok w →
            1 ≤ u.playerLives ∧ 1 ≤ w.playerLives
              ∧ (LosesLife ghost u → u.playerLives = 1 →
                  InitGame maizeFile sampleRnd fuel { u with playerLives := u.playerLives - 1 }
                      = .ok w
                    ∧ w.playerLives = 3 ∧ w.score = 0) :=
  ⟨checkpoint_reachable_12,
    lives_never_rest_at_zero maizeFile sampleRnd (checkpoint 12) checkpoint_reachable_12⟩

/-! ## The coupling of the modes -/

/-- C18. In every state reachable from the initial `InitGame`, that is at the end of every
frame: if the player is not powered up, then no ghost is vulnerable, no ghost is flattened,
the radius is `tileSize / 3` and the speed is `normalSpeed`. The same holds in every encounter
test of a frame that starts in such a state, so the case of a player not powered up meeting a
flattened ghost does not arise, and `ResetPlayerPosition` runs with the normal radius. -/
theorem mode_coupling (file : Option (List String)) (rnd : Nat → Nat) (s : Game)
    (h : Reachable file rnd s) :
    (s.player.isPoweredUp = false →
        (∀ ghost ∈ s.ghosts, ghost.isVulnerable = false ∧ ghost.isFlattened = false)
          ∧ s.player.radius = (tileSize : ℚ) / 3 ∧ s.player.speed = normalSpeed)
      ∧ ∀ (fuel : Nat) (inp : Input) (i : Nat) (ghost : Entity) (u : Game),
          EncounterAt file rnd fuel inp s i ghost u → u.player.isPoweredUp = false →
            ghost.isFlattened = false ∧ ghost.isVulnerable = false
              ∧ u.player.radius = (tileSize : ℚ) / 3 ∧ u.player.speed = normalSpeed
              ∧ ∀ (lives : Int),
                  (ResetPlayerPosition rnd { u with playerLives := lives }).player.radius
                    = (tileSize : ℚ) / 3 := by
  have hc := modeCoupled_reachable file rnd s h
  refine ⟨?_, ?_⟩
  · intro hnp
    obtain ⟨_, hr, hs, hg⟩ := hc hnp
    exact ⟨hg, hr, hs⟩
  · intro fuel inp i ghost u he hnp
    obtain ⟨_, hr, hs, hg⟩ := modeCoupled_encounter file rnd fuel inp s i ghost u he hc hnp
    obtain ⟨hv, hf⟩ := hg ghost (encounterAt_member file rnd fuel inp s i ghost u he)
    exact ⟨hf, hv, hr, hs, fun _ => hr⟩

/-- Witness of C18: the state of the recorded game one frame before the first encounter,
and the encounter test of that frame. -/
theorem mode_coupling_witness :
    Reachable maizeFile sampleRnd meetingState
      ∧ meetingState.player.isPoweredUp = false
      ∧ EncounterAt maizeFile sampleRnd 50 rightKey meetingState 0 (traceGhost 0 154)
          meetingEncounter
      ∧ meetingEncounter.player.isPoweredUp = false
      ∧ ((∀ ghost ∈ meetingState.ghosts, ghost.isVulnerable = false ∧ ghost.isFlattened = false)
          ∧ meetingState.player.radius = (tileSize : ℚ) / 3
          ∧ meetingState.player.speed = normalSpeed)
      ∧ ((traceGhost 0 154).isFlattened = false ∧ (traceGhost 0 154).isVulnerable = false
          ∧ meetingEncounter.player.radius = (tileSize : ℚ) / 3
          ∧ meetingEncounter.player.speed = normalSpeed
          ∧ ∀ (lives : Int),
              (ResetPlayerPosition sampleRnd
                { meetingEncounter with playerLives := lives }).player.radius
                = (tileSize : ℚ) / 3) :=
  ⟨meeting_reachable, rfl, meeting_encounter, rfl,
    (mode_coupling maizeFile sampleRnd meetingState meeting_reachable).1 rfl,
    (mode_coupling maizeFile sampleRnd meetingState meeting_reachable).2 50 rightKey 0
      (traceGhost 0 154) meetingEncounter meeting_encounter rfl⟩

/-! ## The soft reset -/

/-- C13. In a frame that starts in a state reachable from initialisation, when the encounter
test of a ghost costs a life that is not the last one, the test runs `ResetPlayerPosition`, and
the ghost loop goes on from its result `r`: the player is at its start position with direction
(1, 0), not powered up, with speed `normalSpeed` = 2 and radius `tileSize / 3`; every ghost is
at its own start position with an axis-aligned unit direction, neither vulnerable nor
flattened; the score, the decremented lives count and the map are those just before the
reset. -/
theorem soft_reset (file : Option (List String)) (rnd : Nat → Nat) (fuel : Nat) (inp : Input)
    (s : Game) (i : Nat) (ghost : Entity) (u : Game) (h : Reachable file rnd s)
    (he : EncounterAt file rnd fuel inp s i ghost u) (hl : LosesLife ghost u)
    (hn : u.playerLives - 1 > 0) :
    ∃ r, r = ResetPlayerPosition rnd { u with playerLives := u.playerLives - 1 }
      ∧ checkCollision file rnd fuel i ghost u = .ok r
      ∧ (∃ s1, playerMovement (playerInput inp s) = .ok s1
          ∧ ghostLoop file rnd fuel (updatePowerUp inp.frameTime s1).ghosts.length 0
              (updatePowerUp inp.frameTime s1)
            = ghostLoop file rnd fuel ((updatePowerUp inp.frameTime s1).ghosts.length - i - 1)
                (i + 1) r)
      ∧ r.player.position = u.player.startPosition
      ∧ r.player.startPosition = u.player.startPosition
      ∧ r.player.direction = ⟨1, 0⟩
      ∧ r.player.isPoweredUp = false
      ∧ r.player.speed = normalSpeed ∧ r.player.speed = 2
      ∧ r.player.radius = (tileSize : ℚ) / 3
      ∧ r.ghosts.length = u.ghosts.length
      ∧ (∀ (j : Nat) (ghost1 : Entity), r.ghosts[j]? = some ghost1 →
          ∃ ghost0, u.ghosts[j]? = some ghost0
            ∧ ghost1.position = ghost0.startPosition
            ∧ ghost1.startPosition = ghost0.startPosition
            ∧ AxisUnit ghost1.direction
            ∧ ghost1.isVulnerable = false ∧ ghost1.isFlattened = false)
      ∧ r.score = u.score ∧ r.playerLives = u.playerLives - 1 ∧ r.map = u.map := by
  obtain ⟨hov, hp, hf⟩ := hl
  have hcheck := checkCollision_harm file rnd fuel i ghost u hov hp hf
  rw [if_pos hn] at hcheck
  obtain ⟨s1, hm, hloop⟩ := encounterAt_in_loop file rnd fuel inp s i ghost u he
  rw [hcheck] at hloop
  have hc := modeCoupled_encounter file rnd fuel inp s i ghost u he
    (modeCoupled_reachable file rnd s h) hp
  obtain ⟨a1, a2, a3, a4, a5, a6, a7⟩ :=
    resetPlayerPosition_spec rnd { u with playerLives := u.playerLives - 1 }
  obtain ⟨b1, b2, b3⟩ :=
    resetPlayerPosition_lives rnd { u with playerLives := u.playerLives - 1 }
  exact ⟨_, rfl, hcheck, ⟨s1, hm, hloop⟩, a1, rfl, a2, a3, a4, a4, a5.trans hc.2.1, a6, a7,
    b2, b1, b3⟩

/-- Witness of C13: frame 164 of the recorded game, in which the player, with three lives,
walks into the first ghost. -/
theorem soft_reset_witness :
    Reachable maizeFile sampleRnd meetingState
      ∧ EncounterAt maizeFile sampleRnd 50 rightKey meetingState 0 (traceGhost 0 154)
          meetingEncounter
      ∧ LosesLife (traceGhost 0 154) meetingEncounter
      ∧ meetingEncounter.playerLives - 1 > 0
      ∧ ∃ r, r = ResetPlayerPosition sampleRnd
            { meetingEncounter with playerLives := meetingEncounter.playerLives - 1 }
        ∧ checkCollision maizeFile sampleRnd 50 0 (traceGhost 0 154) meetingEncounter = .ok r
        ∧ (∃ s1, playerMovement (playerInput rightKey meetingState) = .ok s1
            ∧ ghostLoop maizeFile sampleRnd 50
                (updatePowerUp rightKey.frameTime s1).ghosts.length 0
                (updatePowerUp rightKey.frameTime s1)
              = ghostLoop maizeFile sampleRnd 50
                  ((updatePowerUp rightKey.frameTime s1).ghosts.length - 0 - 1) (0 + 1) r)
        ∧ r.player.position = meetingEncounter.player.startPosition
        ∧ r.player.startPosition = meetingEncounter.player.startPosition
        ∧ r.player.direction = ⟨1, 0⟩
        ∧ r.player.isPoweredUp = false
        ∧ r.player.speed = normalSpeed ∧ r.player.speed = 2
        ∧ r.player.radius = (tileSize : ℚ) / 3
        ∧ r.ghosts.length = meetingEncounter.ghosts.length
        ∧ (∀ (j : Nat) (ghost1 : Entity), r.ghosts[j]? = some ghost1 →
            ∃ ghost0, meetingEncounter.ghosts[j]? = some ghost0
              ∧ ghost1.position = ghost0.startPosition
              ∧ ghost1.startPosition = ghost0.startPosition
              ∧ AxisUnit ghost1.direction
              ∧ ghost1.isVulnerable = false ∧ ghost1.isFlattened = false)
        ∧ r.score = meetingEncounter.score
        ∧ r.playerLives = meetingEncounter.playerLives - 1
        ∧ r.map = meetingEncounter.map :=
  ⟨meeting_reachable, meeting_encounter, meeting_losesLife, by decide,
    soft_reset maizeFile sampleRnd 50 rightKey meetingState 0 (traceGhost 0 154)
      meetingEncounter meeting_reachable meeting_encounter meeting_losesLife (by decide)⟩


/-! ## What lowers the score in the ghost loop -/

theorem ghostBody_score_cause (file : Option (List String)) (rnd : Nat → Nat) (fuel i : Nat)
    (base : Int) (v v1 : Game) (h : ghostBody file rnd fuel i v = .ok v1)
    (hb : base ≤ v.score) :
    base ≤ v1.score
      ∨ (FreshFrom (i + 1) v1
          ∧ ∃ (u : Game) (ghost0 ghost : Entity),
              v.ghosts[i]? = some ghost0
                ∧ ghostMovement rnd i ghost0 v = .ok u
                ∧ u.ghosts[i]? = some ghost
                ∧ LosesLife ghost u ∧ u.playerLives ≤ 1
                ∧ checkCollision file rnd fuel i ghost u = .ok v1
                ∧ InitGame file rnd fuel { u with playerLives := u.playerLives - 1 }
                    = .ok v1) := by
  unfold ghostBody at h
  split at h
  · cases h
    exact Or.inl hb
  · rename_i ghost0 hg
    split at h
    · cases h
    · rename_i u hm
      obtain ⟨k1, _, _, _, _⟩ := ghostMovement_keeps rnd i ghost0 v u hm
      have hb2 : base ≤ u.score := by
        rw [k1]
        exact hb
      split at h
      · cases h
        exact Or.inl hb2
      · rename_i ghost hg1
        have hcc := h
        cases hov : CheckCollisionCircles u.player.position u.player.radius ghost.position
            ghost.radius with
        | false =>
          rw [checkCollision_ignore file rnd fuel i ghost u (Or.inl hov)] at h
          cases h
          exact Or.inl hb2
        | true =>
          cases hp : u.player.isPoweredUp with
          | true =>
            cases hv : ghost.isVulnerable with
            | true =>
              rw [checkCollision_eat file rnd fuel i ghost u hov hp hv] at h
              cases h
              left
              show base ≤ u.score + 200
              omega
            | false =>
              rw [checkCollision_ignore file rnd fuel i ghost u (Or.inr (Or.inl ⟨hp, hv⟩))] at h
              cases h
              exact Or.inl hb2
          | false =>
            cases hf : ghost.isFlattened with
            | true =>
              rw [checkCollision_ignore file rnd fuel i ghost u (Or.inr (Or.inr ⟨hp, hf⟩))] at h
              cases h
              exact Or.inl hb2
            | false =>
              rw [checkCollision_harm file rnd fuel i ghost u hov hp hf] at h
              by_cases hpos : u.playerLives - 1 > 0
              · rw [if_pos hpos] at h
                cases h
                left
                rw [(resetPlayerPosition_lives rnd _).2.1]
                exact hb2
              · rw [if_neg hpos] at h
                right
                exact ⟨freshFrom_init file rnd fuel _ v1 h (i + 1), u, ghost0, ghost, hg, hm,
                  hg1, ⟨hov, hp, hf⟩, by omega, hcc, h⟩

theorem ghostLoop_step (file : Option (List String)) (rnd : Nat → Nat) (fuel : Nat)
    (i : Nat) (s2 v v1 : Game) (hpre : ghostLoop file rnd fuel i 0 s2 = .ok v)
    (hbody : ghostBody file rnd fuel i v = .ok v1) :
    ghostLoop file rnd fuel (i + 1) 0 s2 = .ok v1 := by
  have hone : ghostLoop file rnd fuel 1 i v
      = match ghostBody file rnd fuel i v with
        | .error e => .error e
        | .ok w => ghostLoop file rnd fuel 0 (i + 1) w := rfl
  rw [ghostLoop_append file rnd fuel i 1 0 s2, hpre]
  simp only [Nat.zero_add]
  rw [hone, hbody]
  rfl

theorem ghostLoop_score_cause (file : Option (List String)) (rnd : Nat → Nat) (fuel : Nat)
    (base : Int) (s2 : Game) (count : Nat) :
    ∀ (i : Nat) (v w : Game), ghostLoop file rnd fuel i 0 s2 = .ok v →
      ghostLoop file rnd fuel count i v = .ok w →
      (base ≤ v.score
        ∨ (FreshFrom i v ∧ ∃ j, j < i ∧ LastLifeTakenAt file rnd fuel s2 j)) →
      base ≤ w.score
        ∨ (w.score = 0 ∧ w.playerLives = 3
            ∧ ∃ j, j < i + count ∧ LastLifeTakenAt file rnd fuel s2 j) := by
  induction count with
  | zero =>
    intro i v w _ h hb
    unfold ghostLoop at h
    cases h
    rcases hb with hb | ⟨hf, j, hj, hc⟩
    · exact Or.inl hb
    · exact Or.inr ⟨hf.1, hf.2.1, j, by omega, hc⟩
  | succ count ih =>
    intro i v w hpre h hb
    unfold ghostLoop at h
    split at h
    · cases h
    · rename_i v1 hbody
      have hpre1 := ghostLoop_step file rnd fuel i s2 v v1 hpre hbody
      have hnext : base ≤ v1.score
          ∨ (FreshFrom (i + 1) v1 ∧ ∃ j, j < i + 1 ∧ LastLifeTakenAt file rnd fuel s2 j) := by
        rcases hb with hb | ⟨hf, j, hj, hc⟩
        · rcases ghostBody_score_cause file rnd fuel i base v v1 hbody hb with
            h1 | ⟨hf1, u, ghost0, ghost, a1, a2, a3, a4, a5, a6, a7⟩
          · exact Or.inl h1
          · exact Or.inr ⟨hf1, i, by omega,
              ⟨v, u, v1, ghost0, ghost, hpre, a1, a2, a3, a4, a5, a6, a7⟩⟩
        · exact Or.inr ⟨ghostBody_fresh file rnd fuel i v v1 hbody hf, j, by omega, hc⟩
      rcases ih (i + 1) v1 w hpre1 h hnext with h1 | ⟨h1, h2, j, hj, hc⟩
      · exact Or.inl h1
      · exact Or.inr ⟨h1, h2, j, by omega, hc⟩

theorem ghostLoop_fresh (file : Option (List String)) (rnd : Nat → Nat) (fuel : Nat)
    (count : Nat) : ∀ (i : Nat) (s s1 : Game), ghostLoop file rnd fuel count i s = .ok s1 →
      FreshFrom i s → FreshFrom (i + count) s1 := by
  induction count with
  | zero =>
    intro i s s1 h hf
    unfold ghostLoop at h
    cases h
    exact hf
  | succ count ih =>
    intro i s s1 h hf
    unfold ghostLoop at h
    split at h
    · cases h
    · rename_i s2 hbody
      have h2 := ih (i + 1) s2 s1 h (ghostBody_fresh file rnd fuel i s s2 hbody hf)
      have e : i + 1 + count = i + (count + 1) := by omega
      rw [e] at h2
      exact h2

/-- The score before the extra-life stage is not below the score at the start of the frame,
unless a ghost took the last life in the frame, and then it is 0 with three lives. -/
theorem updateBeforeExtraLife_score_cause (file : Option (List String)) (rnd : Nat → Nat)
    (fuel : Nat) (inp : Input) (s t : Game)
    (h : updateBeforeExtraLife file rnd fuel inp s = .ok t) :
    s.score ≤ t.score
      ∨ (t.score = 0 ∧ t.playerLives = 3 ∧ LastLifeTaken file rnd fuel inp s) := by
  unfold updateBeforeExtraLife at h
  split at h
  · cases h
  · rename_i s1 hmove
    simp only at h
    split at h
    · cases h
    · rename_i s3 hloop
      split at h
      · cases h
      · rename_i s4 hstar
        cases h
        have h1 : s.score ≤ s1.score := playerMovement_score (playerInput inp s) s1 hmove
        have h2 : s.score ≤ (updatePowerUp inp.frameTime s1).score := by
          rw [updatePowerUp_score]
          exact h1
        have h3 := ghostLoop_score_cause file rnd fuel s.score (updatePowerUp inp.frameTime s1)
          (updatePowerUp inp.frameTime s1).ghosts.length 0 _ s3 rfl hloop (Or.inl h2)
        obtain ⟨_, _, a3, a4⟩ := starSpawning_frame rnd inp.frameTime s3 s4 hstar
        obtain ⟨_, _, b3, b4⟩ := updateCenterBoxSymbols_frame rnd inp.frameTime s4
        rw [b3, b4, a3, a4]
        rcases h3 with h3 | ⟨c1, c2, j, hj, v, u, w, ghost0, ghost, d1, d2, d3, d4, d5, d6, d7,
          d8⟩
        · exact Or.inl h3
        · exact Or.inr ⟨c1, c2, j, ghost, u, w,
            ⟨s1, v, ghost0, hmove, by omega, d1, d2, d3, d4⟩, d5, d6, d7, d8⟩

/-- A frame in which a ghost takes the last life reaches the extra-life stage with score 0 and
three lives. -/
theorem lastLifeTaken_ends (file : Option (List String)) (rnd : Nat → Nat) (fuel : Nat)
    (inp : Input) (s t : Game) (h : updateBeforeExtraLife file rnd fuel inp s = .ok t)
    (hc : LastLifeTaken file rnd fuel inp s) : t.score = 0 ∧ t.playerLives = 3 := by
  obtain ⟨i, ghost, u, w, he, _, _, hcc, hinit⟩ := hc
  obtain ⟨s1, hm, hloop⟩ := encounterAt_in_loop file rnd fuel inp s i ghost u he
  rw [hcc] at hloop
  simp only at hloop
  unfold updateBeforeExtraLife at h
  rw [hm] at h
  simp only at h
  rw [hloop] at h
  split at h
  · cases h
  · rename_i s3 hrest
    split at h
    · cases h
    · rename_i s4 hstar
      cases h
      have hf := ghostLoop_fresh file rnd fuel _ (i + 1) w s3 hrest
        (freshFrom_init file rnd fuel _ w hinit (i + 1))
      obtain ⟨_, _, a3, a4⟩ := starSpawning_frame rnd inp.frameTime s3 s4 hstar
      obtain ⟨_, _, b3, b4⟩ := updateCenterBoxSymbols_frame rnd inp.frameTime s4
      rw [b3, b4, a3, a4]
      exact ⟨hf.1, hf.2.1⟩


/-! ## Score monotonicity -/

/-- C10, as stated, fails: `checkpoint 12`, the state after `InitGame` and the 491 frames of
the recorded game, is reachable and has score 100 with one life left; in the next frame a
ghost takes that life, `InitGame` runs, the extra-life rule does not fire, and the frame ends
with score 0. -/
theorem score_drop_counterexample :
    ∃ t, Reachable maizeFile sampleRnd (checkpoint 12)
      ∧ updateBeforeExtraLife maizeFile sampleRnd 50 rightKey (checkpoint 12) = .ok t
      ∧ UpdateGame maizeFile sampleRnd 50 rightKey (checkpoint 12) = .ok (extraLife t)
      ∧ ¬ extraLifeFires t
      ∧ (checkpoint 12).score = 100 ∧ (checkpoint 12).playerLives = 1
      ∧ (extraLife t).score = 0
      ∧ (extraLife t).score < (checkpoint 12).score := by
  have h : endsWith (updateBeforeExtraLife maizeFile sampleRnd 50 rightKey (checkpoint 12))
      (fun t => decide (t.score = 0 ∧ t.playerLives = 3 ∧ (extraLife t).score = 0)) = true := by
    decide!
  obtain ⟨t, ht, hp⟩ := endsWith_elim h
  obtain ⟨a3, _, a5⟩ := of_decide_eq_true hp
  refine ⟨t, checkpoint_reachable_12, ht, updateGame_of_before _ _ _ _ _ _ ht, ?_, rfl, rfl,
    a5, ?_⟩
  · unfold extraLifeFires
    rw [a3]
    omega
  · rw [a5]
    decide

/-- C10, amended. For every state, reachable or not, and every frame that `UpdateGame`
completes: when the extra-life rule does not fire, the score at the end is at least the score
at the start, unless a ghost takes the player's last life in the frame (an encounter test
reached with at most one life costs a life and runs `InitGame`), and then the frame ends with
score 0 and three lives; whenever a ghost takes the last life the rule does not fire and the
frame ends so; when the rule fires, the score before the rule is at least the score at the
start and the rule subtracts exactly 10000. From a reachable state an encounter test reached
with at most one life is reached with exactly one. -/
theorem score_monotone_except (file : Option (List String)) (rnd : Nat → Nat) (fuel : Nat)
    (inp : Input) (s t : Game) (h : updateBeforeExtraLife file rnd fuel inp s = .ok t) :
    UpdateGame file rnd fuel inp s = .ok (extraLife t)
    ∧ (¬ extraLifeFires t →
        s.score ≤ (extraLife t).score
          ∨ (LastLifeTaken file rnd fuel inp s
              ∧ (extraLife t).score = 0 ∧ (extraLife t).playerLives = 3))
    ∧ (extraLifeFires t →
        s.score ≤ t.score ∧ (extraLife t).score = t.score - 10000
          ∧ s.score - 10000 ≤ (extraLife t).score)
    ∧ (LastLifeTaken file rnd fuel inp s →
        ¬ extraLifeFires t ∧ (extraLife t).score = 0 ∧ (extraLife t).playerLives = 3)
    ∧ (Reachable file rnd s →
        ∀ (i : Nat) (ghost : Entity) (u : Game), EncounterAt file rnd fuel inp s i ghost u →
          u.playerLives ≤ 1 → u.playerLives = 1) := by
  have hscore := updateBeforeExtraLife_score_cause file rnd fuel inp s t h
  obtain ⟨hfire, hquiet⟩ := extraLife_score t
  refine ⟨updateGame_of_before file rnd fuel inp s t h, ?_, ?_, ?_, ?_⟩
  · intro hn
    obtain ⟨e1, e2⟩ := hquiet hn
    rw [e1, e2]
    rcases hscore with h1 | ⟨h1, h2, h3⟩
    · exact Or.inl h1
    · exact Or.inr ⟨h3, h1, h2⟩
  · intro hf
    obtain ⟨e1, _⟩ := hfire hf
    have hge : s.score ≤ t.score := by
      rcases hscore with h1 | ⟨h1, _, _⟩
      · exact h1
      · have := hf.1
        omega
    exact ⟨hge, e1, by rw [e1]; omega⟩
  · intro hc
    obtain ⟨h1, h2⟩ := lastLifeTaken_ends file rnd fuel inp s t h hc
    have hn : ¬ extraLifeFires t := by
      intro hf
      have := hf.1
      omega
    obtain ⟨e1, e2⟩ := hquiet hn
    rw [e1, e2]
    exact ⟨hn, h1, h2⟩
  · intro hr i ghost u he hle
    have hl := livesInRange_encounter file rnd fuel inp s i ghost u he
      (livesInRange_reachable file rnd s hr)
    have := hl.1
    omega

/-- Witness of C10 amended: a player with score 700 and one life left meets a ghost, which
takes the last life; the frame ends with score 0 and three lives. -/
theorem score_monotone_except_witness :
    ∃ t, updateBeforeExtraLife none sampleRnd 50 (idleInput (1 / 60))
        (encounterGame false false false 1) = .ok t
      ∧ UpdateGame none sampleRnd 50 (idleInput (1 / 60)) (encounterGame false false false 1)
          = .ok (extraLife t)
      ∧ ¬ extraLifeFires t
      ∧ LastLifeTaken none sampleRnd 50 (idleInput (1 / 60)) (encounterGame false false false 1)
      ∧ (encounterGame false false false 1).score = 700
      ∧ (extraLife t).score = 0 ∧ (extraLife t).playerLives = 3 := by
  have hok : endsWith (updateBeforeExtraLife none sampleRnd 50 (idleInput (1 / 60))
      (encounterGame false false false 1)) (fun t => decide (t.score = 0)) = true := by decide!
  obtain ⟨t, ht, hp⟩ := endsWith_elim hok
  have h0 : t.score = 0 := of_decide_eq_true hp
  have hn : ¬ extraLifeFires t := by
    intro hf
    have := hf.1
    omega
  obtain ⟨hrun, hquiet, _, _, _⟩ := score_monotone_except none sampleRnd 50 (idleInput (1 / 60))
    (encounterGame false false false 1) t ht
  rcases hquiet hn with hle | ⟨hc, e1, e2⟩
  · have e : (extraLife t).score = 0 := by
      rw [((extraLife_score t).2 hn).1]
      exact h0
    rw [e] at hle
    have h700 : (encounterGame false false false 1).score = 700 := rfl
    rw [h700] at hle
    omega
  · exact ⟨t, ht, hrun, hn, hc, rfl, e1, e2⟩

end SuperPacman
